import Mathlib

/-!
# VMQemuVGA: device identification and custom-mode state machine

A shallow embedding of `FB/VMQemuVGA.cpp`.  Member functions of the driver
class become functions on an explicit driver state, early returns become
values, and machine integers are `Nat` (`Int` for the signed mode IDs).  No
arithmetic that could wrap is performed by the modelled functions.

Calls the driver makes that are visible outside it (the connection-changed
callback, the blocking wait, the deferred thread call, the hardware mode set)
are appended, in program order, to the `trace` field of the driver state.
-/

/-! ## Data model -/

/-- The registry properties of the PCI provider that the scan reads.  Each is
`some n` when the property exists and is an `OSNumber` holding `n`, and
`none` otherwise (`OSDynamicCast` gives a null pointer). -/
structure IOPCIDevice where
  vendor_id : Option Nat
  device_id : Option Nat
  subsystem_vendor_id : Option Nat
  subsystem_id : Option Nat
deriving DecidableEq, Repr

/-- The member `svga` (class `QemuVGADevice`, declared outside this file), as
the values its getters return; `m_vram` is the length of the range that
`get_m_vram()` returns, `none` for a null pointer. -/
structure QemuVGADevice where
  provider : Option IOPCIDevice
  maxWidth : Nat
  maxHeight : Nat
  currentWidth : Nat := 0
  currentHeight : Nat := 0
  vramSize : Nat := 0
  currentFBOffset : Nat := 0
  currentFBSize : Nat := 0
  m_vram : Option Nat := none
deriving DecidableEq, Repr

/-- The GPU device object (class `VMVirtIOGPU`, declared outside this file),
as the values its capability getters return. -/
structure VMVirtIOGPU where
  maxDisplays : Nat
  maxResolutionX : Nat
  maxResolutionY : Nat
  supports3D : Bool
  supportsVirgl : Bool
  supportsResourceBlob : Bool
deriving DecidableEq, Repr

/-- One entry of the display-mode table. -/
structure DisplayModeEntry where
  width : Nat
  height : Nat
  flags : Nat
deriving DecidableEq, Repr

/-- The record exchanged by `CustomMode`. -/
structure CustomModeData where
  flags : Nat
  width : Nat
  height : Nat
deriving DecidableEq, Repr

/-- The compile-time mode table: `modeList` (modes.cpp) and the sentinel
`CUSTOM_MODE_ID` (common_fb.h).  Neither file is part of the sources at
hand, so both are parameters of the model. -/
structure ModeTable where
  modeList : List DisplayModeEntry
  CUSTOM_MODE_ID : Int
deriving DecidableEq, Repr

/-- The length of `modeList`. -/
def ModeTable.NUM_DISPLAY_MODES (t : ModeTable) : Int := t.modeList.length

/-- The member `m_intr`: the registered callback (`none` for a null `proc`)
with its target and reference. -/
structure IntrRecord where
  proc : Option Nat
  target : Nat
  ref : Nat
deriving DecidableEq, Repr

/-- Externally visible calls made by the driver, recorded in program order. -/
inductive FBEffect where
  /-- The stores `customMode.width = w; customMode.height = h` of `CustomMode`. -/
  | customModeStore (width height : Nat)
  /-- A call of `CustomSwitchStepSet(value)`. -/
  | switchStepSet (value : Nat)
  /-- A call of `EmitConnectChangedEvent()`. -/
  | emitConnectChanged
  /-- The call `m_intr.proc(m_intr.target, m_intr.ref)`. -/
  | intrProc (proc target ref : Nat)
  /-- A call of `CustomSwitchStepWait(value)`. -/
  | switchStepWait (value : Nat)
  /-- The call `thread_call_enter_delayed(m_restore_call, deadline)` with the
  deadline the given number of milliseconds ahead. -/
  | restoreScheduled (delayMs : Nat)
  /-- `IOLockLock(m_iolock)`. -/
  | lockLock
  /-- `IOLockUnlock(m_iolock)`. -/
  | lockUnlock
  /-- The call `svga.SetMode(width, height, bpp)`. -/
  | svgaSetMode (width height bpp : Nat)
  /-- The call `svga.getCurrentFBOffset()`. -/
  | svgaGetCurrentFBOffset
  /-- The call `svga.getCurrentFBSize()`. -/
  | svgaGetCurrentFBSize
  /-- The call `svga.Init()`. -/
  | svgaInit
  /-- The call `svga.Start(provider)`. -/
  | svgaStart
  /-- The call `svga.Cleanup()`. -/
  | svgaCleanup
  /-- The call `thread_call_free(m_restore_call)`. -/
  | threadCallFree
  /-- The call `IOLockFree(m_iolock)`. -/
  | lockFree
  /-- The call `super::stop(provider)`. -/
  | superStop
  /-- A call of `createMockVirtIOGPUDevice()`. -/
  | createMock
  /-- A call of `initializeDetectedVirtIOGPU()`. -/
  | initializeDetected
  /-- A call of `queryVirtIOGPUCapabilities()`. -/
  | queryCapabilities
  /-- A call of `configureVirtIOGPUOptimalSettings()`. -/
  | configureOptimalSettings
  /-- The allocation `OSTypeAlloc(VMVirtIOGPU)` of the real device in
  `init3DAcceleration`. -/
  | gpuDeviceAlloc
  /-- The allocation `OSTypeAlloc(VMQemuVGAAccelerator)`. -/
  | acceleratorAlloc
  /-- A call of `cleanup3DAcceleration()`. -/
  | cleanup3D
  /-- The call `bzero(vramAddr, clearSize)` of `stop`. -/
  | vramClear (clearSize : Nat)
deriving DecidableEq, Repr

/-- The driver state: the members of class `VMQemuVGA` that the modelled
functions read or write, and the trace of visible calls.  `m_modes` holds the
first `m_num_active_modes` entries of the array of that name, `m_vram` the
length of the mapped VRAM range (`none` for a null pointer), and `m_iolock`
and `m_accelerator` say whether the pointer of that name is non-null. -/
structure VMQemuVGA where
  svga : QemuVGADevice
  m_restore_call : Bool
  m_gpu_device : Option VMVirtIOGPU
  m_supports_3d : Bool
  m_supports_virgl : Bool
  m_max_displays : Nat
  m_intr : IntrRecord
  m_intr_enabled : Bool
  customMode : DisplayModeEntry
  m_modes : List Int
  m_custom_switch : Nat
  m_custom_mode_switched : Bool
  m_display_mode : Int
  m_depth_mode : Int
  trace : List FBEffect
  m_vram : Option Nat := none
  m_iolock : Bool := false
  m_accelerator : Bool := false
  m_3d_acceleration_enabled : Bool := false
  m_accel_updates : Bool := false
deriving DecidableEq, Repr

/-- Driver entry points that other threads may run while a caller is blocked
in `CustomSwitchStepWait`. -/
inductive DriverCall where
  | setDisplayMode (displayMode depth : Int)
  /-- The argument `superResult` is what `super::setAttribute` returns. -/
  | setAttribute (attr value superResult : Nat)
  /-- The flag `refIsIntr` says whether `interruptRef == &m_intr`. -/
  | setInterruptState (refIsIntr : Bool) (state : Nat)
  | registerForInterruptType (interruptType : Nat) (proc : Option Nat) (target ref : Nat)
  | unregisterInterrupt (refIsIntr : Bool)
  /-- The deferred thread call `_RestoreAllModes`. -/
  | RestoreAllModes
deriving DecidableEq, Repr

/-- Whether the effect is an invocation of the registered callback. -/
def FBEffect.isIntrProc : FBEffect → Bool
  | FBEffect.intrProc _ _ _ => true
  | _ => false

/-- Whether the effect schedules the deferred restore. -/
def FBEffect.isRestoreScheduled : FBEffect → Bool
  | FBEffect.restoreScheduled _ => true
  | _ => false

/-- The calls by which the windowing system answers a connection change:
`setDisplayMode` and `setAttribute`. -/
def DriverCall.isModeCall : DriverCall → Bool
  | DriverCall.setDisplayMode _ _ => true
  | DriverCall.setAttribute _ _ _ => true
  | _ => false

/-- Status codes (IOKit/IOReturn.h). -/
abbrev IOReturn := Nat

def kIOReturnSuccess : IOReturn := 0
def kIOReturnBadArgument : IOReturn := 0xe00002c2
def kIOReturnUnsupported : IOReturn := 0xe00002c7

/-- The attribute selector `kIOCapturedAttribute`, the four-character code
capd (IOKit/graphics/IOGraphicsTypes.h). -/
def kIOCapturedAttribute : Nat := 0x63617064

/-- The interrupt selector `kIOFBConnectInterruptType`, the four-character
code dci followed by a space. -/
def kIOFBConnectInterruptType : Nat := 0x64636920

/-- The value of `sizeof(CustomModeData)`: three 32-bit fields. -/
def sizeofCustomModeData : Nat := 12

namespace VMQemuVGA

/-! ## Device identification -/

/-- The conditional read `prop ? prop->unsigned16BitValue() : 0x0000`. -/
def unsigned16BitValueOr0 (prop : Option Nat) : Nat :=
  match prop with
  | some n => n % 65536
  | none => 0

/-- The `vendorID == 0x1AF4` block of `scanForVirtIOGPUDevices`: `true` when
the block executes a `return true`, `false` when control leaves the block. -/
def scanVirtIOGPU (vendorID deviceID : Nat) : Bool :=
  if vendorID = 0x1AF4 then
    match deviceID with
    | 0x1050 => true
    | 0x1051 => true
    | 0x1052 => true
    | 0x1053 => true
    | 0x1054 => true
    | 0x1055 => true
    | 0x1056 => true
    | 0x1057 => true
    | 0x1058 => true
    | 0x1059 => true
    | 0x105A => true
    | 0x105B => true
    | 0x105C => true
    | 0x105D => true
    | 0x105E => true
    | 0x105F => true
    | 0x1060 => true
    | 0x1061 => true
    | 0x1062 => true
    | 0x1063 => true
    | 0x1064 => true
    | _ => if 0x1050 ≤ deviceID ∧ deviceID ≤ 0x10FF then true else false
  else false

/-- The `vendorID == 0x1234` (QEMU) block. -/
def scanQemu (vendorID deviceID : Nat) : Bool :=
  if vendorID = 0x1234 then
    match deviceID with
    | 0x1111 => true
    | 0x1001 => true
    | 0x0001 => true
    | 0x4000 => true
    | 0x0100 => true
    | 0x0002 => true
    | 0x1234 => true
    | _ =>
      if (0x0001 ≤ deviceID ∧ deviceID ≤ 0x00FF) ∨ (0x1000 ≤ deviceID ∧ deviceID ≤ 0x1FFF)
          ∨ (0x4000 ≤ deviceID ∧ deviceID ≤ 0x4FFF) then true else false
  else false

/-- The `vendorID == 0x15AD` (VMware) block. -/
def scanVMware (vendorID deviceID : Nat) : Bool :=
  if vendorID = 0x15AD then
    match deviceID with
    | 0x0405 => true
    | 0x0710 => true
    | 0x0801 => true
    | 0x0720 => true
    | _ =>
      if (0x0400 ≤ deviceID ∧ deviceID ≤ 0x04FF) ∨ (0x0700 ≤ deviceID ∧ deviceID ≤ 0x07FF)
          ∨ (0x0800 ≤ deviceID ∧ deviceID ≤ 0x08FF) then true else false
  else false

/-- The `vendorID == 0x8086` (Intel) block. -/
def scanIntel (vendorID deviceID : Nat) : Bool :=
  if vendorID = 0x8086 then
    match deviceID with
    | 0x5A85 => true
    | 0x3E92 => true
    | 0x9BC4 => true
    | 0x4680 => true
    | 0x56A0 => true
    | _ =>
      if (0x5A80 ≤ deviceID ∧ deviceID ≤ 0x5AFF) ∨ (0x3E90 ≤ deviceID ∧ deviceID ≤ 0x3EFF)
          ∨ (0x9BC0 ≤ deviceID ∧ deviceID ≤ 0x9BFF) ∨ (0x4680 ≤ deviceID ∧ deviceID ≤ 0x46FF)
          ∨ (0x56A0 ≤ deviceID ∧ deviceID ≤ 0x56FF) then true else false
  else false

/-- The `vendorID == 0x1002` (AMD) block. -/
def scanAMD (vendorID deviceID : Nat) : Bool :=
  if vendorID = 0x1002 then
    match deviceID with
    | 0x15DD => true
    | 0x7340 => true
    | 0x164C => true
    | _ =>
      if (0x15D0 ≤ deviceID ∧ deviceID ≤ 0x15FF) ∨ (0x7340 ≤ deviceID ∧ deviceID ≤ 0x73FF)
          ∨ (0x1640 ≤ deviceID ∧ deviceID ≤ 0x16FF) then true else false
  else false

/-- The `vendorID == 0x10DE` (NVIDIA) block. -/
def scanNVIDIA (vendorID deviceID : Nat) : Bool :=
  if vendorID = 0x10DE then
    match deviceID with
    | 0x1B38 => true
    | 0x20B0 => true
    | 0x2204 => true
    | _ =>
      if (0x1B30 ≤ deviceID ∧ deviceID ≤ 0x1BFF) ∨ (0x20B0 ≤ deviceID ∧ deviceID ≤ 0x20FF)
          ∨ (0x2200 ≤ deviceID ∧ deviceID ≤ 0x22FF) then true else false
  else false

/-- The `vendorID == 0x1414` (Hyper-V synthetic) block. -/
def scanHyperV (vendorID deviceID : Nat) : Bool :=
  if vendorID = 0x1414 then
    match deviceID with
    | 0x5353 => true
    | 0x5354 => true
    | 0x5355 => true
    | 0x5356 => true
    | 0x5357 => true
    | 0x5358 => true
    | _ => if 0x5350 ≤ deviceID ∧ deviceID ≤ 0x535F then true else false
  else false

/-- The `subsystemVendorID == 0x1414` (Hyper-V DDA) block. -/
def scanDDA (subsystemVendorID subsystemID : Nat) : Bool :=
  if subsystemVendorID = 0x1414 then
    match subsystemID with
    | 0xDDA0 => true
    | 0xDDA1 => true
    | 0xDDA2 => true
    | 0xDDA3 => true
    | _ => if 0xDDA0 ≤ subsystemID ∧ subsystemID ≤ 0xDDAF then true else false
  else false

/-- The body of `scanForVirtIOGPUDevices` after the four IDs are read: the
vendor blocks in source order, each returning `true` or falling through to
the next, and `return false` at the end. -/
def scanIdentity (vendorID deviceID subsystemVendorID subsystemID : Nat) : Bool :=
  if scanVirtIOGPU vendorID deviceID then true
  else if scanQemu vendorID deviceID then true
  else if scanVMware vendorID deviceID then true
  else if scanIntel vendorID deviceID then true
  else if scanAMD vendorID deviceID then true
  else if scanNVIDIA vendorID deviceID then true
  else if scanHyperV vendorID deviceID then true
  else if scanDDA subsystemVendorID subsystemID then true
  else false

/-- The method `scanForVirtIOGPUDevices`.  The log output is not modelled. -/
def scanForVirtIOGPUDevices (s : VMQemuVGA) : Bool :=
  match s.svga.provider with
  | none => false
  | some pciDevice =>
    scanIdentity (unsigned16BitValueOr0 pciDevice.vendor_id)
      (unsigned16BitValueOr0 pciDevice.device_id)
      (unsigned16BitValueOr0 pciDevice.subsystem_vendor_id)
      (unsigned16BitValueOr0 pciDevice.subsystem_id)

/-- The method `queryVirtIOGPUCapabilities`: its result and the state after. -/
def queryVirtIOGPUCapabilities (s : VMQemuVGA) : Bool × VMQemuVGA :=
  match s.m_gpu_device with
  | none => (false, s)
  | some dev =>
    (true, { s with m_supports_3d := dev.supports3D,
                    m_supports_virgl := dev.supportsVirgl,
                    m_max_displays := dev.maxDisplays })

/-! ## Display-mode registry -/

/-- The method `GetDisplayMode`: the entry the mode ID resolves to, `none`
for the null pointer. -/
def GetDisplayMode (t : ModeTable) (s : VMQemuVGA) (displayMode : Int) :
    Option DisplayModeEntry :=
  if displayMode = t.CUSTOM_MODE_ID then some s.customMode
  else if 1 ≤ displayMode ∧ displayMode ≤ t.NUM_DISPLAY_MODES then
    t.modeList[(displayMode - 1).toNat]?
  else none

/-! ## Mode-switch state machine -/

/-- The method `CustomSwitchStepSet`. -/
def CustomSwitchStepSet (s : VMQemuVGA) (value : Nat) : VMQemuVGA :=
  { s with m_custom_switch := value,
           trace := s.trace ++ [FBEffect.switchStepSet value] }

/-- The method `EmitConnectChangedEvent`. -/
def EmitConnectChangedEvent (s : VMQemuVGA) : VMQemuVGA :=
  let s1 := { s with trace := s.trace ++ [FBEffect.emitConnectChanged] }
  match s1.m_intr.proc with
  | none => s1
  | some proc =>
    if s1.m_intr_enabled = false then s1
    else { s1 with trace := s1.trace ++ [FBEffect.intrProc proc s1.m_intr.target s1.m_intr.ref] }

/-- The search loop of `RestoreAllModes` over the slots `i, i+1, ...` whose
mode IDs are `modes`: the index at which the loop jumps to `found_slot`, or
`none` when it runs to the end. -/
def findSlot (t : ModeTable) (s : VMQemuVGA) (dme1 : DisplayModeEntry) :
    List Int → Nat → Option Nat
  | [], _ => none
  | m :: rest, i =>
    match GetDisplayMode t s m with
    | none => findSlot t s dme1 rest (i + 1)
    | some dme2 =>
      if dme2.width ≠ dme1.width ∨ dme2.height ≠ dme1.height then some i
      else findSlot t s dme1 rest (i + 1)

/-- The method `RestoreAllModes`. -/
def RestoreAllModes (t : ModeTable) (s : VMQemuVGA) : VMQemuVGA :=
  if s.m_custom_switch ≠ 2 then s
  else
    match GetDisplayMode t s t.CUSTOM_MODE_ID with
    | none => s
    | some dme1 =>
      match findSlot t s dme1 s.m_modes 0 with
      | none => s
      | some i =>
        let tmp := s.m_modes.getD 0 0
        let modes0 := s.m_modes.set 0 (s.m_modes.getD i 0)
        let s1 := { s with m_modes := modes0.set i tmp, m_custom_mode_switched := true }
        EmitConnectChangedEvent (CustomSwitchStepSet s1 0)

/-- The method `setDisplayMode`.  The property updates around `SetMode` are
not modelled. -/
def setDisplayMode (t : ModeTable) (s : VMQemuVGA) (displayMode depth : Int) :
    IOReturn × VMQemuVGA :=
  if depth ≠ 0 then (kIOReturnBadArgument, s)
  else
    match GetDisplayMode t s displayMode with
    | none => (kIOReturnBadArgument, s)
    | some dme =>
      if s.m_custom_mode_switched = true then
        let s1 :=
          if s.customMode.width = dme.width ∧ s.customMode.height = dme.height then
            { s with m_custom_mode_switched := false }
          else s
        (kIOReturnSuccess, { s1 with m_display_mode := displayMode, m_depth_mode := 0 })
      else
        let s1 := { s with trace := s.trace ++
          [FBEffect.lockLock, FBEffect.svgaSetMode dme.width dme.height 32, FBEffect.lockUnlock] }
        (kIOReturnSuccess, { s1 with m_display_mode := displayMode, m_depth_mode := 0 })

/-- The method `setAttribute`; `r` is the result of `super::setAttribute`. -/
def setAttribute (t : ModeTable) (s : VMQemuVGA) (attr value : Nat) (r : IOReturn) :
    IOReturn × VMQemuVGA :=
  if attr = kIOCapturedAttribute ∧ value = 0 ∧ s.m_custom_switch = 1
      ∧ s.m_display_mode = t.CUSTOM_MODE_ID then
    (r, CustomSwitchStepSet s 2)
  else (r, s)

/-- The method `setInterruptState`. -/
def setInterruptState (s : VMQemuVGA) (refIsIntr : Bool) (state : Nat) :
    IOReturn × VMQemuVGA :=
  if refIsIntr = false then (kIOReturnBadArgument, s)
  else (kIOReturnSuccess, { s with m_intr_enabled := decide (state ≠ 0) })

/-- The method `unregisterInterrupt`. -/
def unregisterInterrupt (s : VMQemuVGA) (refIsIntr : Bool) : IOReturn × VMQemuVGA :=
  if refIsIntr = false then (kIOReturnBadArgument, s)
  else (kIOReturnSuccess, { s with m_intr := ⟨none, 0, 0⟩, m_intr_enabled := false })

/-- The method `registerForInterruptType`. -/
def registerForInterruptType (s : VMQemuVGA) (interruptType : Nat) (proc : Option Nat)
    (target ref : Nat) : IOReturn × VMQemuVGA :=
  if interruptType ≠ kIOFBConnectInterruptType then (kIOReturnUnsupported, s)
  else (kIOReturnSuccess, { s with m_intr := ⟨proc, target, ref⟩, m_intr_enabled := true })

/-- The state after another thread has run one driver entry point. -/
def applyCall (t : ModeTable) (s : VMQemuVGA) : DriverCall → VMQemuVGA
  | DriverCall.setDisplayMode displayMode depth => (setDisplayMode t s displayMode depth).2
  | DriverCall.setAttribute attr value r => (setAttribute t s attr value r).2
  | DriverCall.setInterruptState refIsIntr state => (setInterruptState s refIsIntr state).2
  | DriverCall.registerForInterruptType ty proc target ref =>
    (registerForInterruptType s ty proc target ref).2
  | DriverCall.unregisterInterrupt refIsIntr => (unregisterInterrupt s refIsIntr).2
  | DriverCall.RestoreAllModes => RestoreAllModes t s

/-- How a blocking wait ends. -/
inductive WaitOutcome where
  /-- The wait loop left with the state shown. -/
  | woke (s : VMQemuVGA)
  /-- The caller is still blocked; no later entry point is left to wake it. -/
  | blocked (s : VMQemuVGA)
deriving DecidableEq, Repr

/-- The loop of `CustomSwitchStepWait`: while `m_custom_switch != value` the
thread blocks and the other threads run the next entry point of `env`. -/
def waitLoop (t : ModeTable) (value : Nat) : VMQemuVGA → List DriverCall → WaitOutcome
  | s, [] => if s.m_custom_switch = value then WaitOutcome.woke s else WaitOutcome.blocked s
  | s, c :: rest =>
    if s.m_custom_switch = value then WaitOutcome.woke s
    else waitLoop t value (applyCall t s c) rest

/-- The method `CustomSwitchStepWait`, with the entry points `env` that other
threads run, in order, while the caller is blocked. -/
def CustomSwitchStepWait (t : ModeTable) (s : VMQemuVGA) (value : Nat)
    (env : List DriverCall) : WaitOutcome :=
  waitLoop t value { s with trace := s.trace ++ [FBEffect.switchStepWait value] } env

/-- How a call of `CustomMode` ends. -/
inductive CustomModeOutcome where
  /-- The call returned `r`; `outData` is what it wrote to the output buffer
  (`none` when it wrote nothing). -/
  | returned (r : IOReturn) (outData : Option CustomModeData) (s : VMQemuVGA)
  /-- The call never returns: it is blocked in `CustomSwitchStepWait`. -/
  | blocked (s : VMQemuVGA)
deriving DecidableEq, Repr

/-- The local `w` of `CustomMode` after the width clamp. -/
def clampWidth (s : VMQemuVGA) (width : Nat) : Nat :=
  if width < 800 then 800
  else if width > s.svga.maxWidth then s.svga.maxWidth
  else width

/-- The local `h` of `CustomMode` after the height clamp. -/
def clampHeight (s : VMQemuVGA) (height : Nat) : Nat :=
  if height < 600 then 600
  else if height > s.svga.maxHeight then s.svga.maxHeight
  else height

/-- The label `finish_up` of `CustomMode`. -/
def CustomMode_finish_up (t : ModeTable) (s : VMQemuVGA) (inData : CustomModeData) :
    CustomModeOutcome :=
  match GetDisplayMode t s s.m_display_mode with
  | none => CustomModeOutcome.returned kIOReturnUnsupported none s
  | some dme1 =>
    CustomModeOutcome.returned kIOReturnSuccess
      (some { flags := inData.flags, width := dme1.width, height := dme1.height }) s

/-- The statements of `CustomMode` from the store into the custom slot up to,
and not including, the wait. -/
def CustomMode_stage (s : VMQemuVGA) (w h : Nat) : VMQemuVGA :=
  let s1 := { s with customMode := { s.customMode with width := w, height := h },
                     trace := s.trace ++ [FBEffect.customModeStore w h] }
  EmitConnectChangedEvent (CustomSwitchStepSet s1 1)

/-- The method `CustomMode`.  `inData` is `none` for a null pointer,
`outData` says whether the output pointer is non-null, `outSize` is `none`
for a null pointer and otherwise the value it points to; `env` lists the
entry points other threads run while the caller waits. -/
def CustomMode (t : ModeTable) (s : VMQemuVGA) (inData : Option CustomModeData)
    (outData : Bool) (inSize : Nat) (outSize : Option Nat) (env : List DriverCall) :
    CustomModeOutcome :=
  if s.m_restore_call = false then CustomModeOutcome.returned kIOReturnUnsupported none s
  else
    match inData with
    | none => CustomModeOutcome.returned kIOReturnBadArgument none s
    | some inD =>
      if inSize < sizeofCustomModeData then
        CustomModeOutcome.returned kIOReturnBadArgument none s
      else if outData = false then CustomModeOutcome.returned kIOReturnBadArgument none s
      else if (match outSize with
          | none => true
          | some n => decide (n < sizeofCustomModeData)) = true then
        CustomModeOutcome.returned kIOReturnBadArgument none s
      else
        match GetDisplayMode t s s.m_display_mode with
        | none => CustomModeOutcome.returned kIOReturnUnsupported none s
        | some dme1 =>
          if inD.flags &&& 1 ≠ 0 then
            let w := clampWidth s inD.width
            let h := clampHeight s inD.height
            if w = dme1.width ∧ h = dme1.height then CustomMode_finish_up t s inD
            else
              match CustomSwitchStepWait t (CustomMode_stage s w h) 2 env with
              | WaitOutcome.blocked s2 => CustomModeOutcome.blocked s2
              | WaitOutcome.woke s2 =>
                CustomMode_finish_up t
                  { s2 with trace := s2.trace ++ [FBEffect.restoreScheduled 2000] } inD
          else CustomMode_finish_up t s inD

/-! ## Derived notions used in the statements -/

/-- The driver state in which a wait ends, woken or not. -/
def WaitOutcome.state : WaitOutcome → VMQemuVGA
  | WaitOutcome.woke s => s
  | WaitOutcome.blocked s => s

/-- The driver state in which a call of `CustomMode` ends, returned or not. -/
def CustomModeOutcome.state : CustomModeOutcome → VMQemuVGA
  | CustomModeOutcome.returned _ _ s => s
  | CustomModeOutcome.blocked s => s

/-- The number of invocations of the registered callback in a trace. -/
def callbackCount (trace : List FBEffect) : Nat := trace.countP FBEffect.isIntrProc

/-- The effects `EmitConnectChangedEvent` appends in state `s`. -/
def emitEffects (s : VMQemuVGA) : List FBEffect :=
  match s.m_intr.proc with
  | none => [FBEffect.emitConnectChanged]
  | some proc =>
    if s.m_intr_enabled = false then [FBEffect.emitConnectChanged]
    else [FBEffect.emitConnectChanged, FBEffect.intrProc proc s.m_intr.target s.m_intr.ref]

/-- Mode ID `m` resolves to an entry whose width or height differs from that
of `dme1`. -/
def modeQualifies (t : ModeTable) (s : VMQemuVGA) (dme1 : DisplayModeEntry) (m : Int) : Prop :=
  ∃ dme2, GetDisplayMode t s m = some dme2
    ∧ (dme2.width ≠ dme1.width ∨ dme2.height ≠ dme1.height)

/-- Slot `j` of the active-mode list qualifies for the swap of
`RestoreAllModes`: it exists and its mode ID resolves to an entry whose
width or height differs from that of the custom slot. -/
def slotQualifies (t : ModeTable) (s : VMQemuVGA) (j : Nat) : Prop :=
  ∃ m, s.m_modes[j]? = some m ∧ modeQualifies t s s.customMode m

/-- A mode table used to instantiate the statements. -/
def sampleTable : ModeTable :=
  { modeList := [⟨800, 600, 3⟩, ⟨1024, 768, 7⟩, ⟨1280, 1024, 3⟩],
    CUSTOM_MODE_ID := 1 }

/-- A driver state used to instantiate the statements: a 1920x1080 device
with the given PCI provider, callback registered and enabled, mode 2 active. -/
def sampleDriver (provider : Option IOPCIDevice) : VMQemuVGA :=
  { svga := { provider := provider, maxWidth := 1920, maxHeight := 1080 },
    m_restore_call := true,
    m_gpu_device := none,
    m_supports_3d := false,
    m_supports_virgl := false,
    m_max_displays := 0,
    m_intr := { proc := some 7, target := 1, ref := 2 },
    m_intr_enabled := true,
    customMode := { width := 800, height := 600, flags := 3 },
    m_modes := [1, 2, 3],
    m_custom_switch := 0,
    m_custom_mode_switched := false,
    m_display_mode := 2,
    m_depth_mode := 0,
    trace := [] }

/-- The answer of the windowing system to a connection change during a
custom-mode switch: it selects the custom mode, then clears the captured
attribute. -/
def sampleAck (t : ModeTable) : List DriverCall :=
  [DriverCall.setDisplayMode t.CUSTOM_MODE_ID 0, DriverCall.setAttribute kIOCapturedAttribute 0 0]

/-- The sample driver after a request for 1280x1024 has been acknowledged:
the custom slot holds the request, the custom mode is selected and the
mode-switch state is 2. -/
def sampleAcked : VMQemuVGA :=
  { sampleDriver none with
    customMode := { width := 1280, height := 1024, flags := 3 },
    m_custom_switch := 2,
    m_display_mode := 1 }

/-! ## Current-mode detection -/

/-- The flag `kDisplayModeDefaultFlag` (IOKit/graphics/IOGraphicsTypes.h). -/
def kDisplayModeDefaultFlag : Nat := 0x00000004

/-- The loop of `TryDetectCurrentDisplayMode` from index `i`, where `entries`
are `modeList[i], modeList[i+1], ...` and `tableDefault` is the current value
of that local, followed by the final `return`. -/
def detectLoop (w h : Nat) (defaultMode : Int) : List DisplayModeEntry → Int → Int → Int
  | [], _, tableDefault => if tableDefault ≠ 0 then tableDefault else defaultMode
  | e :: rest, i, tableDefault =>
    if w = e.width ∧ h = e.height then i + 1
    else if e.flags &&& kDisplayModeDefaultFlag ≠ 0 then
      detectLoop w h defaultMode rest (i + 1) (i + 1)
    else detectLoop w h defaultMode rest (i + 1) tableDefault

/-- The method `TryDetectCurrentDisplayMode`: the loop starts at index 1. -/
def TryDetectCurrentDisplayMode (t : ModeTable) (s : VMQemuVGA) (defaultMode : Int) : Int :=
  detectLoop s.svga.currentWidth s.svga.currentHeight defaultMode (t.modeList.drop 1) 1 0

/-! ## Memory ranges -/

/-- The aperture selector `kIOFBSystemAperture`
(IOKit/graphics/IOGraphicsTypes.h). -/
def kIOFBSystemAperture : Int := 0

/-- A pointer to an `IODeviceMemory` as the driver returns it: null, the
mapped VRAM range `m_vram` itself, or what
`IODeviceMemory::withSubRange(m_vram, offset, length)` returns. -/
inductive IODeviceMemoryRef where
  | null
  | vram
  | subRange (offset length : Nat)
deriving DecidableEq, Repr

/-- The offset within the mapped VRAM and the length of the range a pointer
designates, for mapped VRAM of length `vramLength`. -/
def IODeviceMemoryRef.range (vramLength : Nat) : IODeviceMemoryRef → Option (Nat × Nat)
  | IODeviceMemoryRef.null => none
  | IODeviceMemoryRef.vram => some (0, vramLength)
  | IODeviceMemoryRef.subRange offset length => some (offset, length)

/-- The method `getVRAMRange`. -/
def getVRAMRange (s : VMQemuVGA) : IODeviceMemoryRef :=
  match s.m_vram with
  | none => IODeviceMemoryRef.null
  | some length =>
    if s.svga.vramSize ≥ length then IODeviceMemoryRef.vram
    else IODeviceMemoryRef.subRange 0 s.svga.vramSize

/-- The method `getApertureRange`. -/
def getApertureRange (s : VMQemuVGA) (aperture : Int) : IODeviceMemoryRef × VMQemuVGA :=
  if aperture ≠ kIOFBSystemAperture then (IODeviceMemoryRef.null, s)
  else
    match s.m_vram with
    | none => (IODeviceMemoryRef.null, s)
    | some _ =>
      (IODeviceMemoryRef.subRange s.svga.currentFBOffset s.svga.currentFBSize,
        { s with trace := s.trace ++ [FBEffect.lockLock, FBEffect.svgaGetCurrentFBOffset,
            FBEffect.svgaGetCurrentFBSize, FBEffect.lockUnlock] })

/-! ## 3D bring-up -/

/-- What the allocations and calls on objects outside the driver return
during `init3DAcceleration`: the two steps of `createMockVirtIOGPUDevice`,
the allocation and `init` of the real `VMVirtIOGPU` with the values its
getters return, and the allocation, `init`, `attach` and `start` of the
accelerator; `accelInitSecond` is the result of the second call of
`m_accelerator->init()`. -/
structure AccelEnv where
  mockAlloc : Bool
  mockInit : Bool
  gpuAlloc : Bool
  gpuInit : Bool
  gpuDevice : VMVirtIOGPU
  accelAlloc : Bool
  accelInit : Bool
  accelAttach : Bool
  accelStart : Bool
  accelInitSecond : Bool := true
deriving DecidableEq, Repr

/-- The implicit conversion of a `bool` to the integer type `IOReturn`. -/
def boolToIOReturn (b : Bool) : IOReturn := if b = true then 1 else 0

/-- The method `createMockVirtIOGPUDevice`; the result says whether the
returned pointer is non-null. -/
def createMockVirtIOGPUDevice (s : VMQemuVGA) (env : AccelEnv) : Bool × VMQemuVGA :=
  let s1 := { s with trace := s.trace ++ [FBEffect.createMock] }
  if env.mockAlloc = false then (false, s1)
  else if env.mockInit = false then (false, s1)
  else (true, s1)

/-- The method `initializeDetectedVirtIOGPU`.  The calls on the device
object do not change the driver state. -/
def initializeDetectedVirtIOGPU (s : VMQemuVGA) : Bool × VMQemuVGA :=
  let s1 := { s with trace := s.trace ++ [FBEffect.initializeDetected] }
  match s.m_gpu_device with
  | none => (false, s1)
  | some _ => (true, s1)

/-- The method `configureVirtIOGPUOptimalSettings`.  The calls on the device
object and the published properties do not change the driver state. -/
def configureVirtIOGPUOptimalSettings (s : VMQemuVGA) : Bool × VMQemuVGA :=
  let s1 := { s with trace := s.trace ++ [FBEffect.configureOptimalSettings] }
  match s.m_gpu_device with
  | none => (false, s1)
  | some _ => (true, s1)

/-- The method `cleanup3DAcceleration`. -/
def cleanup3DAcceleration (s : VMQemuVGA) : VMQemuVGA :=
  { s with m_accelerator := false, m_gpu_device := none, m_3d_acceleration_enabled := false,
           trace := s.trace ++ [FBEffect.cleanup3D] }

/-- The method `init3DAcceleration`.  The result of each stage is stored in
an `IOReturn` and compared with `kIOReturnSuccess`, as in the source. -/
def init3DAcceleration (s : VMQemuVGA) (env : AccelEnv) : Bool × VMQemuVGA :=
  let detection_result := boolToIOReturn (scanForVirtIOGPUDevices s)
  if detection_result ≠ kIOReturnSuccess then createMockVirtIOGPUDevice s env
  else
    let i := initializeDetectedVirtIOGPU s
    let init_result := boolToIOReturn i.1
    if init_result ≠ kIOReturnSuccess then createMockVirtIOGPUDevice i.2 env
    else
      let q := queryVirtIOGPUCapabilities
        { i.2 with trace := i.2.trace ++ [FBEffect.queryCapabilities] }
      let c := configureVirtIOGPUOptimalSettings q.2
      let s4 := { c.2 with trace := c.2.trace ++ [FBEffect.gpuDeviceAlloc] }
      if env.gpuAlloc = false then (false, { s4 with m_gpu_device := none })
      else if env.gpuInit = false then (false, { s4 with m_gpu_device := none })
      else
        let c2 := configureVirtIOGPUOptimalSettings { s4 with m_gpu_device := some env.gpuDevice }
        let s6 := { c2.2 with trace := c2.2.trace ++ [FBEffect.acceleratorAlloc] }
        if env.accelAlloc = false then (false, { s6 with m_accelerator := false })
        else if env.accelInit = false then (false, { s6 with m_accelerator := false })
        else
          let s7 := { s6 with m_accelerator := true }
          if env.accelInitSecond = false then (false, cleanup3DAcceleration s7)
          else if env.accelAttach = false then (false, cleanup3DAcceleration s7)
          else if env.accelStart = false then (false, cleanup3DAcceleration s7)
          else (true, { s7 with m_3d_acceleration_enabled := true })

/-! ## Start -/

/-- What the calls outside the driver return during `start`: `super::start`,
`svga.Start`, `thread_call_allocate`, `IOLockAlloc` (each `true` for
success or a non-null result) and the 3D bring-up. -/
structure StartEnv where
  superStart : Bool
  svgaStart : Bool
  restoreCallAlloc : Bool
  lockAlloc : Bool
  accel : AccelEnv
deriving DecidableEq, Repr

/-- The mode-selection loop of `start` from index `i`, where `entries` are
`modeList[i], modeList[i+1], ...` and `modes` are the entries of `m_modes`
stored so far. -/
def selectModesLoop (max_w max_h : Nat) : List DisplayModeEntry → Nat → List Int → List Int
  | [], _, modes => modes
  | e :: rest, i, modes =>
    if e.width ≤ max_w ∧ e.height ≤ max_h then
      selectModesLoop max_w max_h rest (i + 1) (modes ++ [(i : Int) + 1])
    else selectModesLoop max_w max_h rest (i + 1) modes

/-- The active-mode list after the mode-selection loop of `start`. -/
def selectModes (t : ModeTable) (s : VMQemuVGA) : List Int :=
  selectModesLoop s.svga.maxWidth s.svga.maxHeight t.modeList 0 []

/-- The method `Cleanup`. -/
def Cleanup (s : VMQemuVGA) : VMQemuVGA :=
  let s1 := { s with trace := s.trace ++ [FBEffect.svgaCleanup] }
  let s2 :=
    if s1.m_restore_call = true then
      { s1 with m_restore_call := false, trace := s1.trace ++ [FBEffect.threadCallFree] }
    else s1
  if s2.m_iolock = true then
    { s2 with m_iolock := false, trace := s2.trace ++ [FBEffect.lockFree] }
  else s2

/-- The label `fail` of `start`. -/
def start_fail (s : VMQemuVGA) : Bool × VMQemuVGA :=
  (false, { Cleanup s with trace := (Cleanup s).trace ++ [FBEffect.superStop] })

/-- The statements of `start` after the call of `init3DAcceleration`, which
returned `accelOk`. -/
def start_finish (t : ModeTable) (accelOk : Bool) (s : VMQemuVGA) (lockAlloc : Bool) :
    Bool × VMQemuVGA :=
  let s1 := if accelOk = true then { s with m_3d_acceleration_enabled := true } else s
  let s2 := { s1 with m_custom_switch := 0, m_custom_mode_switched := false,
                      m_iolock := lockAlloc }
  if lockAlloc = false then start_fail s2
  else (true, { s2 with m_display_mode := TryDetectCurrentDisplayMode t s2 3,
                        m_depth_mode := 0 })

/-- The method `start`; `provider` is `none` when the provider is not an
`IOPCIDevice`.  Log output and published properties are not modelled. -/
def start (t : ModeTable) (s : VMQemuVGA) (provider : Option IOPCIDevice) (env : StartEnv) :
    Bool × VMQemuVGA :=
  match provider with
  | none => (false, s)
  | some _ =>
    if env.superStart = false then (false, s)
    else
      let s1 := { s with m_restore_call := false, m_iolock := false, m_gpu_device := none,
                         m_accelerator := false, m_3d_acceleration_enabled := true,
                         m_intr_enabled := false, m_accel_updates := false,
                         trace := s.trace ++ [FBEffect.svgaInit, FBEffect.svgaStart] }
      if env.svgaStart = false then start_fail s1
      else
        let s2 := { s1 with m_vram := s1.svga.m_vram,
                            customMode := (t.modeList[0]?).getD s1.customMode,
                            m_modes := selectModes t s1 }
        if s2.m_modes.length ≤ 2 then start_fail s2
        else
          let a := init3DAcceleration { s2 with m_restore_call := env.restoreCallAlloc }
            env.accel
          start_finish t a.1 a.2 env.lockAlloc

/-- The number of built-in entries that fit within the device maximum. -/
def fittingCount (t : ModeTable) (s : VMQemuVGA) : Nat :=
  t.modeList.countP (fun e => decide (e.width ≤ s.svga.maxWidth ∧ e.height ≤ s.svga.maxHeight))

/-- The sample driver on a device whose maximum is 640x480. -/
def sampleSmall : VMQemuVGA :=
  { sampleDriver none with svga := { provider := none, maxWidth := 640, maxHeight := 480 } }

/-- The sample driver on a device that reports the given current geometry. -/
def sampleCurrent (w h : Nat) : VMQemuVGA :=
  { sampleDriver none with
    svga := { provider := none, maxWidth := 1920, maxHeight := 1080,
              currentWidth := w, currentHeight := h } }

/-- A mode table in which only the first entry carries the default flag. -/
def sampleTableDefaultFirst : ModeTable :=
  { modeList := [⟨800, 600, 7⟩, ⟨1024, 768, 3⟩, ⟨1280, 1024, 3⟩],
    CUSTOM_MODE_ID := 1 }

/-- An environment in which every call outside the driver succeeds. -/
def sampleStartEnv : StartEnv :=
  { superStart := true, svgaStart := true, restoreCallAlloc := true, lockAlloc := true,
    accel := { mockAlloc := true, mockInit := true, gpuAlloc := true, gpuInit := true,
               gpuDevice := ⟨1, 1920, 1080, true, true, false⟩,
               accelAlloc := true, accelInit := true, accelAttach := true,
               accelStart := true } }

/-! ## Probe -/

/-- The method `probe`: the score it stores when it returns the driver,
`none` when it returns null.  `provider` is `none` when the provider is not an
`IOPCIDevice` and otherwise the 32-bit word that
`configRead32(kIOPCIConfigVendorID)` returns. -/
def probe (superProbe : Bool) (provider : Option Nat) : Option Nat :=
  if superProbe = false then none
  else
    match provider with
    | none => none
    | some config =>
      let vendorID := config &&& 0xFFFF
      let deviceID := (config >>> 16) &&& 0xFFFF
      if vendorID = 0x1b36 ∧ deviceID = 0x0100 then some 90000
      else if vendorID = 0x1af4 ∧ deviceID = 0x1050 then some 95000
      else none

/-! ## Mode enumeration -/

/-- The method `getDisplayModeCount`. -/
def getDisplayModeCount (s : VMQemuVGA) : Nat :=
  if s.m_custom_switch ≠ 0 then 1 else s.m_modes.length

/-- The method `getDisplayModes`: its status and the mode IDs it writes to
the buffer, in order (`none` when it writes nothing).  `allDisplayModes` says
whether the buffer pointer is non-null. -/
def getDisplayModes (t : ModeTable) (s : VMQemuVGA) (allDisplayModes : Bool) :
    IOReturn × Option (List Int) :=
  if allDisplayModes = false then (kIOReturnBadArgument, none)
  else if s.m_custom_switch ≠ 0 then (kIOReturnSuccess, some [t.CUSTOM_MODE_ID])
  else (kIOReturnSuccess, some s.m_modes)

/-! ## Stop and the canvas operations -/

/-- Status codes (IOKit/IOReturn.h). -/
def kIOReturnError : IOReturn := 0xe00002bc

/-- Status code `kIOReturnNotReady` (IOKit/IOReturn.h). -/
def kIOReturnNotReady : IOReturn := 0xe00002d8

/-- The value of an integer as a 32-bit signed integer, with wraparound. -/
def wrap32 (n : Int) : Int := (n + 2147483648) % 4294967296 - 2147483648

/-- The method `stop`; `mapOk` says whether mapping the VRAM range gives a
non-null address.  The sleep is not modelled. -/
def stop (t : ModeTable) (s : VMQemuVGA) (mapOk : Bool) : VMQemuVGA :=
  let s1 :=
    match s.m_vram with
    | none => s
    | some length =>
      match GetDisplayMode t s s.m_display_mode with
      | none => s
      | some dme =>
        if s.m_iolock = false then s
        else
          let clearSize := (dme.width * dme.height * 4) % 4294967296
          let cleared :=
            match (getVRAMRange s).range length with
            | none => []
            | some (_, vramSize) =>
              if clearSize ≤ vramSize ∧ mapOk = true then [FBEffect.vramClear clearSize]
              else []
          { s with trace := s.trace ++ [FBEffect.lockLock] ++ cleared ++ [FBEffect.lockUnlock] }
  let s2 := Cleanup (cleanup3DAcceleration s1)
  { s2 with trace := s2.trace ++ [FBEffect.superStop] }

/-- The pixels the fill loop of `acceleratedCanvasFillRect` addresses, as
logical (column, row) pairs: column `x + col` and row `y + row` for `row`
below `height` and `col` below `width`.  The addresses of the stores are
given by `fillRectByteOffsets`. -/
def fillRectPixels (x y width height : Int) : List (Int × Int) :=
  ((List.range height.toNat).map
    (fun row => (List.range width.toNat).map
      (fun col => (x + (col : Int), y + (row : Int))))).flatten

/-- The byte offsets from the start of the VRAM mapping at which the fill
loop of `acceleratedCanvasFillRect` stores, in loop order, for a mode of
width `modeWidth`: `fb` is `(y * dme->width + x) * 4` bytes into the mapping
and the store is `fb[row * dme->width + col]`, both index expressions being
32-bit unsigned with wraparound (the entry's width is a 32-bit unsigned
value). -/
def fillRectByteOffsets (modeWidth : Nat) (x y width height : Int) : List Nat :=
  let fb := (((y * (modeWidth : Int) + x) * 4) % 4294967296).toNat
  ((List.range height.toNat).map
    (fun row => (List.range width.toNat).map
      (fun col => fb + 4 * ((row * modeWidth + col) % 4294967296)))).flatten

/-- The method `acceleratedCanvasFillRect` for 32-bit signed `x`, `y`,
`width`, `height`: its status, the pixels it writes and the state after.  The
sums `x + width` and `y + height` and the casts of the mode geometry are
32-bit signed with wraparound; `mapOk` says whether `m_vram->map()` is
non-null. -/
def acceleratedCanvasFillRect (t : ModeTable) (s : VMQemuVGA) (x y width height : Int)
    (mapOk : Bool) : IOReturn × List (Int × Int) × VMQemuVGA :=
  if s.m_3d_acceleration_enabled = false then (kIOReturnNotReady, [], s)
  else if s.m_vram ≠ none ∧ s.m_iolock = true then
    let locked := { s with trace := s.trace ++ [FBEffect.lockLock] }
    let unlocked := { locked with trace := locked.trace ++ [FBEffect.lockUnlock] }
    match GetDisplayMode t s s.m_display_mode with
    | none => (kIOReturnError, [], unlocked)
    | some dme =>
      if 0 ≤ x ∧ 0 ≤ y ∧ wrap32 (x + width) ≤ wrap32 (dme.width : Int)
          ∧ wrap32 (y + height) ≤ wrap32 (dme.height : Int) then
        if mapOk = true then (kIOReturnSuccess, fillRectPixels x y width height, unlocked)
        else (kIOReturnError, [], unlocked)
      else (kIOReturnError, [], unlocked)
  else (kIOReturnError, [], s)

/-- The lock state after the lock events of `effects`, starting from `held`;
`none` when the lock is acquired while held or released while free. -/
def lockRun : Bool → List FBEffect → Option Bool
  | held, [] => some held
  | held, FBEffect.lockLock :: rest => if held = true then none else lockRun true rest
  | held, FBEffect.lockUnlock :: rest => if held = true then lockRun false rest else none
  | held, _ :: rest => lockRun held rest

/-- Whether the effect is an operation on the shared lock. -/
def isLockEffect : FBEffect → Bool
  | FBEffect.lockLock => true
  | FBEffect.lockUnlock => true
  | _ => false

/-! ## Sequences of calls after `start` -/

/-- A call of the driver by a client: one of the entry points of
`DriverCall`, a call of `CustomMode` with the entry points other threads run
while it waits, or one of the two enumeration calls. -/
inductive ApiCall where
  | call (c : DriverCall)
  | CustomMode (inData : Option CustomModeData) (outData : Bool) (inSize : Nat)
      (outSize : Option Nat) (env : List DriverCall)
  | getDisplayModes (allDisplayModes : Bool)
  | getDisplayModeCount
deriving DecidableEq, Repr

/-- The driver state after one client call.  The enumeration calls read
members only. -/
def applyApi (t : ModeTable) (s : VMQemuVGA) : ApiCall → VMQemuVGA
  | ApiCall.call c => applyCall t s c
  | ApiCall.CustomMode inData outData inSize outSize env =>
    (CustomMode t s inData outData inSize outSize env).state
  | ApiCall.getDisplayModes _ => s
  | ApiCall.getDisplayModeCount => s

/-- The driver state after a sequence of client calls. -/
def runApi (t : ModeTable) (s : VMQemuVGA) (calls : List ApiCall) : VMQemuVGA :=
  calls.foldl (applyApi t) s

/-- The mode ID resolves: it is the sentinel or lies in 1..NUM_DISPLAY_MODES. -/
def modeResolves (t : ModeTable) (displayMode : Int) : Prop :=
  displayMode = t.CUSTOM_MODE_ID ∨ (1 ≤ displayMode ∧ displayMode ≤ t.NUM_DISPLAY_MODES)

/-- The sample driver with an identity the scan does not recognize. -/
def sampleQXL : VMQemuVGA :=
  sampleDriver (some ⟨some 0x1B36, some 0x0100, none, none⟩)

/-- The sample driver before `start`, on a device with mapped VRAM of
16 MiB. -/
def sampleBeforeStart : VMQemuVGA :=
  { sampleQXL with svga := { sampleQXL.svga with m_vram := some 16777216,
                                                  vramSize := 16777216 } }

/-- The sample driver as `start` leaves it on the sample table when every
step succeeds, on a device with mapped VRAM of 16 MiB. -/
def sampleStarted : VMQemuVGA :=
  (start sampleTable sampleBeforeStart
    (some ⟨some 0x1B36, some 0x0100, none, none⟩) sampleStartEnv).2

/-- A sequence of client calls on the started sample driver: a custom-mode
request that the client acknowledges, the two enumeration calls, the deferred
restore, and the selection of the built-in 1280x1024 mode. -/
def sampleCalls : List ApiCall :=
  [ApiCall.CustomMode (some ⟨1, 1280, 1024⟩) true 12 (some 12) (sampleAck sampleTable),
   ApiCall.getDisplayModeCount,
   ApiCall.call DriverCall.RestoreAllModes,
   ApiCall.getDisplayModes true,
   ApiCall.call (DriverCall.setDisplayMode 3 0)]

/-- The invariant of the states after a successful `start`: the active-mode
list is a permutation of `modes0`, the mode-switch state is 0, 1 or 2, and
the current display mode resolves. -/
def startedInvariant (t : ModeTable) (modes0 : List Int) (s : VMQemuVGA) : Prop :=
  s.m_modes.Perm modes0
  ∧ (s.m_custom_switch = 0 ∨ s.m_custom_switch = 1 ∨ s.m_custom_switch = 2)
  ∧ modeResolves t s.m_display_mode

/-- The identity table of the specification, as a proposition on the four
16-bit IDs. -/
abbrev documentedIdentity (vendor device subsystemVendor subsystem : Nat) : Prop :=
  (vendor = 0x1AF4 ∧ 0x1050 ≤ device ∧ device ≤ 0x10FF)
  ∨ (vendor = 0x1234 ∧ ((0x0001 ≤ device ∧ device ≤ 0x00FF) ∨ device = 0x0100
      ∨ (0x1000 ≤ device ∧ device ≤ 0x1FFF) ∨ (0x4000 ≤ device ∧ device ≤ 0x4FFF)))
  ∨ (vendor = 0x15AD ∧ ((0x0400 ≤ device ∧ device ≤ 0x04FF)
      ∨ (0x0700 ≤ device ∧ device ≤ 0x08FF)))
  ∨ (vendor = 0x8086 ∧ ((0x5A80 ≤ device ∧ device ≤ 0x5AFF)
      ∨ (0x3E90 ≤ device ∧ device ≤ 0x3EFF) ∨ (0x9BC0 ≤ device ∧ device ≤ 0x9BFF)
      ∨ (0x4680 ≤ device ∧ device ≤ 0x46FF) ∨ (0x56A0 ≤ device ∧ device ≤ 0x56FF)))
  ∨ (vendor = 0x1002 ∧ ((0x15D0 ≤ device ∧ device ≤ 0x15FF)
      ∨ (0x7340 ≤ device ∧ device ≤ 0x73FF) ∨ (0x1640 ≤ device ∧ device ≤ 0x16FF)))
  ∨ (vendor = 0x10DE ∧ ((0x1B30 ≤ device ∧ device ≤ 0x1BFF)
      ∨ (0x20B0 ≤ device ∧ device ≤ 0x20FF) ∨ (0x2200 ≤ device ∧ device ≤ 0x22FF)))
  ∨ (vendor = 0x1414 ∧ 0x5350 ≤ device ∧ device ≤ 0x535F)
  ∨ (subsystemVendor = 0x1414 ∧ 0xDDA0 ≤ subsystem ∧ subsystem ≤ 0xDDAF)


/-! ## Device identification: the blocks of the scan -/

theorem scanVirtIOGPU_iff (v d : Nat) :
    scanVirtIOGPU v d = true ↔ v = 0x1AF4 ∧ 0x1050 ≤ d ∧ d ≤ 0x10FF := by
  unfold scanVirtIOGPU
  by_cases hv : v = 0x1AF4
  · rw [if_pos hv]
    split <;> simp_all
  · rw [if_neg hv]
    simp [hv]

theorem scanQemu_iff (v d : Nat) :
    scanQemu v d = true ↔ v = 0x1234 ∧ ((0x0001 ≤ d ∧ d ≤ 0x00FF) ∨ d = 0x0100
      ∨ (0x1000 ≤ d ∧ d ≤ 0x1FFF) ∨ (0x4000 ≤ d ∧ d ≤ 0x4FFF)) := by
  unfold scanQemu
  by_cases hv : v = 0x1234
  · rw [if_pos hv]
    split <;> simp_all
  · rw [if_neg hv]
    simp [hv]

theorem scanVMware_iff (v d : Nat) :
    scanVMware v d = true ↔ v = 0x15AD ∧ ((0x0400 ≤ d ∧ d ≤ 0x04FF)
      ∨ (0x0700 ≤ d ∧ d ≤ 0x08FF)) := by
  unfold scanVMware
  by_cases hv : v = 0x15AD
  · rw [if_pos hv]
    split <;> simp_all
    omega
  · rw [if_neg hv]
    simp [hv]

theorem scanIntel_iff (v d : Nat) :
    scanIntel v d = true ↔ v = 0x8086 ∧ ((0x5A80 ≤ d ∧ d ≤ 0x5AFF)
      ∨ (0x3E90 ≤ d ∧ d ≤ 0x3EFF) ∨ (0x9BC0 ≤ d ∧ d ≤ 0x9BFF)
      ∨ (0x4680 ≤ d ∧ d ≤ 0x46FF) ∨ (0x56A0 ≤ d ∧ d ≤ 0x56FF)) := by
  unfold scanIntel
  by_cases hv : v = 0x8086
  · rw [if_pos hv]
    split <;> simp_all
  · rw [if_neg hv]
    simp [hv]

theorem scanAMD_iff (v d : Nat) :
    scanAMD v d = true ↔ v = 0x1002 ∧ ((0x15D0 ≤ d ∧ d ≤ 0x15FF)
      ∨ (0x7340 ≤ d ∧ d ≤ 0x73FF) ∨ (0x1640 ≤ d ∧ d ≤ 0x16FF)) := by
  unfold scanAMD
  by_cases hv : v = 0x1002
  · rw [if_pos hv]
    split <;> simp_all
  · rw [if_neg hv]
    simp [hv]

theorem scanNVIDIA_iff (v d : Nat) :
    scanNVIDIA v d = true ↔ v = 0x10DE ∧ ((0x1B30 ≤ d ∧ d ≤ 0x1BFF)
      ∨ (0x20B0 ≤ d ∧ d ≤ 0x20FF) ∨ (0x2200 ≤ d ∧ d ≤ 0x22FF)) := by
  unfold scanNVIDIA
  by_cases hv : v = 0x10DE
  · rw [if_pos hv]
    split <;> simp_all
  · rw [if_neg hv]
    simp [hv]

theorem scanHyperV_iff (v d : Nat) :
    scanHyperV v d = true ↔ v = 0x1414 ∧ 0x5350 ≤ d ∧ d ≤ 0x535F := by
  unfold scanHyperV
  by_cases hv : v = 0x1414
  · rw [if_pos hv]
    split <;> simp_all
  · rw [if_neg hv]
    simp [hv]

theorem scanDDA_iff (sv ss : Nat) :
    scanDDA sv ss = true ↔ sv = 0x1414 ∧ 0xDDA0 ≤ ss ∧ ss ≤ 0xDDAF := by
  unfold scanDDA
  by_cases hv : sv = 0x1414
  · rw [if_pos hv]
    split <;> simp_all
  · rw [if_neg hv]
    simp [hv]

theorem scanIdentity_iff (v d sv ss : Nat) :
    scanIdentity v d sv ss = true ↔ documentedIdentity v d sv ss := by
  have h : scanIdentity v d sv ss = true ↔
      (scanVirtIOGPU v d = true ∨ scanQemu v d = true ∨ scanVMware v d = true
        ∨ scanIntel v d = true ∨ scanAMD v d = true ∨ scanNVIDIA v d = true
        ∨ scanHyperV v d = true ∨ scanDDA sv ss = true) := by
    unfold scanIdentity
    split_ifs <;> simp_all
  rw [h, scanVirtIOGPU_iff, scanQemu_iff, scanVMware_iff, scanIntel_iff, scanAMD_iff,
    scanNVIDIA_iff, scanHyperV_iff, scanDDA_iff]

/-- C1: for a driver whose PCI provider exists, `scanForVirtIOGPUDevices`
returns true exactly when the identity it reads (each ID the 16-bit value of
the property, 0 when the property is absent) lies in the documented table of
vendor/device ranges or carries the Hyper-V DDA subsystem signature. -/
theorem scanForVirtIOGPUDevices_iff_documented (s : VMQemuVGA) (p : IOPCIDevice)
    (hp : s.svga.provider = some p) :
    scanForVirtIOGPUDevices s = true ↔
      documentedIdentity (unsigned16BitValueOr0 p.vendor_id)
        (unsigned16BitValueOr0 p.device_id)
        (unsigned16BitValueOr0 p.subsystem_vendor_id)
        (unsigned16BitValueOr0 p.subsystem_id) := by
  unfold scanForVirtIOGPUDevices
  rw [hp]
  exact scanIdentity_iff _ _ _ _


theorem scanForVirtIOGPUDevices_iff_documented_witness :
    (sampleDriver (some ⟨some 0x1AF4, some 0x1050, none, none⟩)).svga.provider
        = some ⟨some 0x1AF4, some 0x1050, none, none⟩
    ∧ (scanForVirtIOGPUDevices (sampleDriver (some ⟨some 0x1AF4, some 0x1050, none, none⟩)) = true
        ↔ documentedIdentity 0x1AF4 0x1050 0 0) :=
  ⟨rfl, scanForVirtIOGPUDevices_iff_documented
    (sampleDriver (some ⟨some 0x1AF4, some 0x1050, none, none⟩))
    ⟨some 0x1AF4, some 0x1050, none, none⟩ rfl⟩

/-! ## Classification scenario -/

/-- C2 (counterexample): the scan gives the same result for device 0x1050 and
device 0x1051 of vendor 0x1AF4, and with device 0x1050 on the bus the driver
records supports-3D and supports-Virgl as true when the GPU device object
reports them. -/
theorem scan_does_not_distinguish_1050_1051 :
    scanForVirtIOGPUDevices (sampleDriver (some ⟨some 0x1AF4, some 0x1050, none, none⟩))
      = scanForVirtIOGPUDevices (sampleDriver (some ⟨some 0x1AF4, some 0x1051, none, none⟩))
    ∧ (queryVirtIOGPUCapabilities
        { sampleDriver (some ⟨some 0x1AF4, some 0x1050, none, none⟩) with
          m_gpu_device := some ⟨1, 1920, 1080, true, true, false⟩ }).2.m_supports_3d = true
    ∧ (queryVirtIOGPUCapabilities
        { sampleDriver (some ⟨some 0x1AF4, some 0x1050, none, none⟩) with
          m_gpu_device := some ⟨1, 1920, 1080, true, true, false⟩ }).2.m_supports_virgl = true
    ∧ (queryVirtIOGPUCapabilities
        (sampleDriver (some ⟨some 0x1AF4, some 0x1051, none, none⟩))).2.m_supports_3d = false := by
  decide

/-- C2 (amended): for vendor 0x1AF4 the scan returns true both for device
0x1050 and for device 0x1051, whatever the subsystem IDs and the rest of the
driver state, so its boolean result is the same for the two; and the
supports-3D and supports-Virgl values recorded by
`queryVirtIOGPUCapabilities` are those reported by the GPU device object
(nothing is recorded without one) and do not depend on the PCI provider. -/
theorem scan_1050_1051_recognized_caps_from_device (s : VMQemuVGA) (sv ss : Option Nat)
    (provider : Option IOPCIDevice) :
    scanForVirtIOGPUDevices
        { s with svga := { s.svga with provider := some ⟨some 0x1AF4, some 0x1050, sv, ss⟩ } }
      = true
    ∧ scanForVirtIOGPUDevices
        { s with svga := { s.svga with provider := some ⟨some 0x1AF4, some 0x1051, sv, ss⟩ } }
      = true
    ∧ (queryVirtIOGPUCapabilities s).2.m_supports_3d
        = (match s.m_gpu_device with
          | some dev => dev.supports3D
          | none => s.m_supports_3d)
    ∧ (queryVirtIOGPUCapabilities s).2.m_supports_virgl
        = (match s.m_gpu_device with
          | some dev => dev.supportsVirgl
          | none => s.m_supports_virgl)
    ∧ (queryVirtIOGPUCapabilities
        { s with svga := { s.svga with provider := provider } }).2.m_supports_3d
        = (queryVirtIOGPUCapabilities s).2.m_supports_3d
    ∧ (queryVirtIOGPUCapabilities
        { s with svga := { s.svga with provider := provider } }).2.m_supports_virgl
        = (queryVirtIOGPUCapabilities s).2.m_supports_virgl := by
  refine ⟨?_, ?_, ?_, ?_, ?_, ?_⟩
  · simp only [scanForVirtIOGPUDevices]
    rw [scanIdentity_iff]
    left
    simp [unsigned16BitValueOr0]
  · simp only [scanForVirtIOGPUDevices]
    rw [scanIdentity_iff]
    left
    simp [unsigned16BitValueOr0]
  · unfold queryVirtIOGPUCapabilities
    cases s.m_gpu_device <;> rfl
  · unfold queryVirtIOGPUCapabilities
    cases s.m_gpu_device <;> rfl
  · unfold queryVirtIOGPUCapabilities
    cases h : s.m_gpu_device <;> simp [h]
  · unfold queryVirtIOGPUCapabilities
    cases h : s.m_gpu_device <;> simp [h]

/-! ## The clamp of `CustomMode` -/

theorem clampWidth_eq (s : VMQemuVGA) (w : Nat) (hW : 800 ≤ s.svga.maxWidth) :
    clampWidth s w = min (max w 800) s.svga.maxWidth := by
  unfold clampWidth
  split_ifs <;> omega

theorem clampHeight_eq (s : VMQemuVGA) (h : Nat) (hH : 600 ≤ s.svga.maxHeight) :
    clampHeight s h = min (max h 600) s.svga.maxHeight := by
  unfold clampHeight
  split_ifs <;> omega

/-- C4 (counterexample): on a device whose maximum is 640x480 a request of
width 50 is clamped to 800, above the device maximum, and the clamp is not
monotone: width 700 gives 800 while width 900 gives 640; likewise heights. -/
theorem clamp_exceeds_small_device_maximum :
    ¬ (clampWidth sampleSmall 50
        ≤ sampleSmall.svga.maxWidth)
    ∧ ¬ (clampHeight sampleSmall 50
        ≤ sampleSmall.svga.maxHeight)
    ∧ (700 ≤ 900
      ∧ ¬ (clampWidth sampleSmall 700
            ≤ clampWidth sampleSmall 900)) := by
  decide

/-- C4 (amended): on every device whose maximum is at least 800x600, for all
requested widths and heights the clamped geometry of `CustomMode` satisfies
800 <= w <= maxWidth and 600 <= h <= maxHeight, and the clamp is monotone in
the requested width and in the requested height. -/
theorem clamp_bounds_monotone (s : VMQemuVGA) (w1 w2 h1 h2 : Nat)
    (hW : 800 ≤ s.svga.maxWidth) (hH : 600 ≤ s.svga.maxHeight)
    (hw : w1 ≤ w2) (hh : h1 ≤ h2) :
    (800 ≤ clampWidth s w1 ∧ clampWidth s w1 ≤ s.svga.maxWidth)
    ∧ (600 ≤ clampHeight s h1 ∧ clampHeight s h1 ≤ s.svga.maxHeight)
    ∧ clampWidth s w1 ≤ clampWidth s w2
    ∧ clampHeight s h1 ≤ clampHeight s h2 := by
  rw [clampWidth_eq s w1 hW, clampWidth_eq s w2 hW, clampHeight_eq s h1 hH,
    clampHeight_eq s h2 hH]
  omega

theorem clamp_bounds_monotone_witness :
    (800 ≤ (sampleDriver none).svga.maxWidth ∧ 600 ≤ (sampleDriver none).svga.maxHeight
      ∧ 50 ≤ 3000 ∧ 700 ≤ 900)
    ∧ ((800 ≤ clampWidth (sampleDriver none) 50
        ∧ clampWidth (sampleDriver none) 50 ≤ (sampleDriver none).svga.maxWidth)
      ∧ (600 ≤ clampHeight (sampleDriver none) 700
        ∧ clampHeight (sampleDriver none) 700 ≤ (sampleDriver none).svga.maxHeight)
      ∧ clampWidth (sampleDriver none) 50 ≤ clampWidth (sampleDriver none) 3000
      ∧ clampHeight (sampleDriver none) 700 ≤ clampHeight (sampleDriver none) 900) :=
  ⟨by decide, clamp_bounds_monotone (sampleDriver none) 50 3000 700 900
    (by decide) (by decide) (by decide) (by decide)⟩


/-! ## Unfolding `CustomMode` on well-formed calls -/

theorem GetDisplayMode_congr (t : ModeTable) (s s2 : VMQemuVGA) (m : Int)
    (h : s2.customMode = s.customMode) : GetDisplayMode t s2 m = GetDisplayMode t s m := by
  unfold GetDisplayMode
  rw [h]

theorem CustomMode_finish_up_state (t : ModeTable) (s : VMQemuVGA) (inD : CustomModeData) :
    (CustomMode_finish_up t s inD).state = s := by
  unfold CustomMode_finish_up
  cases GetDisplayMode t s s.m_display_mode <;> rfl

theorem CustomMode_flag_clear (t : ModeTable) (s : VMQemuVGA) (inD : CustomModeData)
    (inSize n : Nat) (dme1 : DisplayModeEntry) (env : List DriverCall)
    (hcall : s.m_restore_call = true) (hin : sizeofCustomModeData ≤ inSize)
    (hout : sizeofCustomModeData ≤ n)
    (hmode : GetDisplayMode t s s.m_display_mode = some dme1)
    (hflag : inD.flags &&& 1 = 0) :
    CustomMode t s (some inD) true inSize (some n) env
      = CustomModeOutcome.returned kIOReturnSuccess
          (some ⟨inD.flags, dme1.width, dme1.height⟩) s := by
  unfold CustomMode
  simp [hcall, Nat.not_lt.mpr hin, Nat.not_lt.mpr hout, hmode, hflag, CustomMode_finish_up]

theorem CustomMode_same_geometry (t : ModeTable) (s : VMQemuVGA) (inD : CustomModeData)
    (inSize n : Nat) (dme1 : DisplayModeEntry) (env : List DriverCall)
    (hcall : s.m_restore_call = true) (hin : sizeofCustomModeData ≤ inSize)
    (hout : sizeofCustomModeData ≤ n)
    (hmode : GetDisplayMode t s s.m_display_mode = some dme1)
    (hflag : inD.flags &&& 1 ≠ 0)
    (hsame : clampWidth s inD.width = dme1.width ∧ clampHeight s inD.height = dme1.height) :
    CustomMode t s (some inD) true inSize (some n) env
      = CustomModeOutcome.returned kIOReturnSuccess
          (some ⟨inD.flags, dme1.width, dme1.height⟩) s := by
  unfold CustomMode
  simp only [hcall, Nat.not_lt.mpr hin, Nat.not_lt.mpr hout, hmode]
  simp only [Bool.true_eq_false, Bool.false_eq_true, if_false, decide_False]
  rw [if_pos hflag, if_pos hsame]
  simp [CustomMode_finish_up, hmode]

theorem CustomMode_new_geometry (t : ModeTable) (s : VMQemuVGA) (inD : CustomModeData)
    (inSize n : Nat) (dme1 : DisplayModeEntry) (env : List DriverCall)
    (hcall : s.m_restore_call = true) (hin : sizeofCustomModeData ≤ inSize)
    (hout : sizeofCustomModeData ≤ n)
    (hmode : GetDisplayMode t s s.m_display_mode = some dme1)
    (hflag : inD.flags &&& 1 ≠ 0)
    (hdiff : ¬ (clampWidth s inD.width = dme1.width ∧ clampHeight s inD.height = dme1.height)) :
    CustomMode t s (some inD) true inSize (some n) env
      = (match CustomSwitchStepWait t
            (CustomMode_stage s (clampWidth s inD.width) (clampHeight s inD.height)) 2 env with
        | WaitOutcome.blocked s2 => CustomModeOutcome.blocked s2
        | WaitOutcome.woke s2 =>
          CustomMode_finish_up t
            { s2 with trace := s2.trace ++ [FBEffect.restoreScheduled 2000] } inD) := by
  unfold CustomMode
  simp only [hcall, Nat.not_lt.mpr hin, Nat.not_lt.mpr hout, hmode]
  simp only [Bool.true_eq_false, Bool.false_eq_true, if_false, decide_False]
  rw [if_pos hflag, if_neg hdiff]


/-! ## What the entry points leave unchanged -/

theorem EmitConnectChangedEvent_eq (s : VMQemuVGA) :
    EmitConnectChangedEvent s = { s with trace := s.trace ++ emitEffects s } := by
  unfold EmitConnectChangedEvent emitEffects
  cases hp : s.m_intr.proc with
  | none => simp [hp]
  | some proc =>
    by_cases he : s.m_intr_enabled = false
    · simp [hp, he]
    · simp [hp, he]

theorem emitEffects_CustomSwitchStepSet (s : VMQemuVGA) (v : Nat) :
    emitEffects (CustomSwitchStepSet s v) = emitEffects s := rfl

theorem emitEffects_no_restoreScheduled (s : VMQemuVGA) :
    ∀ e ∈ emitEffects s, e.isRestoreScheduled = false := by
  unfold emitEffects
  cases s.m_intr.proc with
  | none => simp [FBEffect.isRestoreScheduled]
  | some proc =>
    by_cases he : s.m_intr_enabled = false
    · simp [he, FBEffect.isRestoreScheduled]
    · simp [he, FBEffect.isRestoreScheduled]

/-- The three ways `RestoreAllModes` can end, as equations. -/
theorem RestoreAllModes_cases (t : ModeTable) (s : VMQemuVGA) :
    RestoreAllModes t s = s
    ∨ ∃ i, s.m_custom_switch = 2 ∧ findSlot t s s.customMode s.m_modes 0 = some i
        ∧ RestoreAllModes t s =
          { s with m_modes := (s.m_modes.set 0 (s.m_modes.getD i 0)).set i (s.m_modes.getD 0 0),
                   m_custom_mode_switched := true,
                   m_custom_switch := 0,
                   trace := s.trace ++ (FBEffect.switchStepSet 0 :: emitEffects s) } := by
  unfold RestoreAllModes
  by_cases h2 : s.m_custom_switch ≠ 2
  · left
    rw [if_pos h2]
  · rw [if_neg h2]
    have hc : GetDisplayMode t s t.CUSTOM_MODE_ID = some s.customMode := by
      unfold GetDisplayMode
      rw [if_pos rfl]
    simp only [hc]
    cases hf : findSlot t s s.customMode s.m_modes 0 with
    | none => left; rfl
    | some i =>
      right
      refine ⟨i, not_not.mp h2, rfl, ?_⟩
      simp only [EmitConnectChangedEvent_eq, emitEffects_CustomSwitchStepSet]
      simp [CustomSwitchStepSet, emitEffects]

theorem applyCall_customMode (t : ModeTable) (s : VMQemuVGA) (c : DriverCall) :
    (applyCall t s c).customMode = s.customMode := by
  cases c with
  | setDisplayMode m d =>
    simp only [applyCall, setDisplayMode]
    split_ifs <;> try rfl
    all_goals (split <;> try rfl)
    all_goals (split_ifs <;> rfl)
  | setAttribute a v r =>
    simp only [applyCall, setAttribute]
    split_ifs <;> rfl
  | setInterruptState b st =>
    simp only [applyCall, setInterruptState]
    split_ifs <;> rfl
  | registerForInterruptType ty proc target ref =>
    simp only [applyCall, registerForInterruptType]
    split_ifs <;> rfl
  | unregisterInterrupt b =>
    simp only [applyCall, unregisterInterrupt]
    split_ifs <;> rfl
  | RestoreAllModes =>
    simp only [applyCall]
    rcases RestoreAllModes_cases t s with h | ⟨i, _, _, h⟩ <;> rw [h]


theorem applyCall_trace (t : ModeTable) (s : VMQemuVGA) (c : DriverCall) :
    ∃ es, (applyCall t s c).trace = s.trace ++ es ∧ ∀ e ∈ es, e.isRestoreScheduled = false := by
  cases c with
  | setDisplayMode m d =>
    simp only [applyCall, setDisplayMode]
    by_cases hd : d ≠ 0
    · exact ⟨[], by simp [hd]⟩
    · rw [if_neg hd]
      cases GetDisplayMode t s m with
      | none => exact ⟨[], by simp⟩
      | some dme =>
        by_cases hsw : s.m_custom_mode_switched = true
        · refine ⟨[], ?_, by simp⟩
          simp only [hsw, if_true]
          split_ifs <;> simp
        · exact ⟨[FBEffect.lockLock, FBEffect.svgaSetMode dme.width dme.height 32,
            FBEffect.lockUnlock], by simp [hsw], by simp [FBEffect.isRestoreScheduled]⟩
  | setAttribute a v r =>
    simp only [applyCall, setAttribute]
    split_ifs
    · exact ⟨[FBEffect.switchStepSet 2], rfl, by simp [FBEffect.isRestoreScheduled]⟩
    · exact ⟨[], by simp⟩
  | setInterruptState b st =>
    simp only [applyCall, setInterruptState]
    split_ifs <;> exact ⟨[], by simp⟩
  | registerForInterruptType ty proc target ref =>
    simp only [applyCall, registerForInterruptType]
    split_ifs <;> exact ⟨[], by simp⟩
  | unregisterInterrupt b =>
    simp only [applyCall, unregisterInterrupt]
    split_ifs <;> exact ⟨[], by simp⟩
  | RestoreAllModes =>
    simp only [applyCall]
    rcases RestoreAllModes_cases t s with h | ⟨i, _, _, h⟩
    · exact ⟨[], by simp [h]⟩
    · refine ⟨FBEffect.switchStepSet 0 :: emitEffects s, by rw [h], ?_⟩
      intro e he
      rcases List.mem_cons.mp he with h1 | h1
      · rw [h1]
        rfl
      · exact emitEffects_no_restoreScheduled s e h1

theorem waitLoop_customMode (t : ModeTable) (v : Nat) (env : List DriverCall) :
    ∀ s : VMQemuVGA, (waitLoop t v s env).state.customMode = s.customMode := by
  induction env with
  | nil =>
    intro s
    unfold waitLoop
    split_ifs <;> rfl
  | cons c rest ih =>
    intro s
    unfold waitLoop
    split_ifs
    · rfl
    · rw [ih, applyCall_customMode]

theorem waitLoop_trace (t : ModeTable) (v : Nat) (env : List DriverCall) :
    ∀ s : VMQemuVGA, ∃ es, (waitLoop t v s env).state.trace = s.trace ++ es
      ∧ ∀ e ∈ es, e.isRestoreScheduled = false := by
  induction env with
  | nil =>
    intro s
    unfold waitLoop
    split_ifs <;> exact ⟨[], by simp [WaitOutcome.state]⟩
  | cons c rest ih =>
    intro s
    unfold waitLoop
    split_ifs
    · exact ⟨[], by simp [WaitOutcome.state]⟩
    · obtain ⟨es1, h1, h1n⟩ := applyCall_trace t s c
      obtain ⟨es2, h2, h2n⟩ := ih (applyCall t s c)
      refine ⟨es1 ++ es2, by rw [h2, h1, List.append_assoc], ?_⟩
      intro e he
      rcases List.mem_append.mp he with h | h
      · exact h1n e h
      · exact h2n e h

theorem waitLoop_woke (t : ModeTable) (v : Nat) (env : List DriverCall) :
    ∀ s s2 : VMQemuVGA, waitLoop t v s env = WaitOutcome.woke s2 → s2.m_custom_switch = v := by
  induction env with
  | nil =>
    intro s s2 h
    unfold waitLoop at h
    split_ifs at h with hv
    cases h
    exact hv
  | cons c rest ih =>
    intro s s2 h
    unfold waitLoop at h
    split_ifs at h with hv
    · cases h
      exact hv
    · exact ih _ _ h

theorem waitLoop_blocked (t : ModeTable) (v : Nat) (env : List DriverCall) :
    ∀ s s2 : VMQemuVGA, waitLoop t v s env = WaitOutcome.blocked s2 → s2.m_custom_switch ≠ v := by
  induction env with
  | nil =>
    intro s s2 h
    unfold waitLoop at h
    split_ifs at h with hv
    cases h
    exact hv
  | cons c rest ih =>
    intro s s2 h
    unfold waitLoop at h
    split_ifs at h with hv
    exact ih _ _ h


theorem CustomMode_finish_up_success (t : ModeTable) (s s2 : VMQemuVGA) (inD : CustomModeData)
    (out : Option CustomModeData)
    (h : CustomMode_finish_up t s inD = CustomModeOutcome.returned kIOReturnSuccess out s2) :
    s2 = s ∧ ∃ dme, GetDisplayMode t s s.m_display_mode = some dme
      ∧ out = some ⟨inD.flags, dme.width, dme.height⟩ := by
  unfold CustomMode_finish_up at h
  cases hg : GetDisplayMode t s s.m_display_mode with
  | none =>
    rw [hg] at h
    injection h with hr
    exact absurd hr (by decide)
  | some dme =>
    rw [hg] at h
    injection h with _ ho hs
    exact ⟨hs.symm, dme, rfl, ho.symm⟩

/-- A call of `CustomMode` that returns success had well-formed arguments. -/
theorem CustomMode_success_args (t : ModeTable) (s s2 : VMQemuVGA)
    (inData : Option CustomModeData) (outData : Bool) (inSize : Nat) (outSize : Option Nat)
    (env : List DriverCall) (out : Option CustomModeData)
    (hret : CustomMode t s inData outData inSize outSize env
      = CustomModeOutcome.returned kIOReturnSuccess out s2) :
    s.m_restore_call = true ∧ outData = true ∧ sizeofCustomModeData ≤ inSize
    ∧ ∃ inD n dme1, inData = some inD ∧ outSize = some n ∧ sizeofCustomModeData ≤ n
      ∧ GetDisplayMode t s s.m_display_mode = some dme1 := by
  have hne1 : kIOReturnUnsupported ≠ kIOReturnSuccess := by decide
  have hne2 : kIOReturnBadArgument ≠ kIOReturnSuccess := by decide
  unfold CustomMode at hret
  by_cases h1 : s.m_restore_call = false
  · rw [if_pos h1] at hret
    injection hret with hr
    exact absurd hr hne1
  rw [if_neg h1] at hret
  cases inData with
  | none =>
    injection hret with hr
    exact absurd hr hne2
  | some inD =>
    simp only at hret
    by_cases h2 : inSize < sizeofCustomModeData
    · rw [if_pos h2] at hret
      injection hret with hr
      exact absurd hr hne2
    rw [if_neg h2] at hret
    by_cases h3 : outData = false
    · rw [if_pos h3] at hret
      injection hret with hr
      exact absurd hr hne2
    rw [if_neg h3] at hret
    cases outSize with
    | none =>
      simp only [if_true] at hret
      injection hret with hr
      exact absurd hr hne2
    | some n =>
      simp only at hret
      by_cases h4 : decide (n < sizeofCustomModeData) = true
      · rw [if_pos h4] at hret
        injection hret with hr
        exact absurd hr hne2
      rw [if_neg h4] at hret
      cases hg : GetDisplayMode t s s.m_display_mode with
      | none =>
        rw [hg] at hret
        injection hret with hr
        exact absurd hr hne1
      | some dme1 =>
        refine ⟨by simpa using h1, by simpa using h3, Nat.not_lt.mp h2, inD, n, dme1, rfl, rfl,
          ?_, rfl⟩
        exact Nat.not_lt.mp (by simpa using h4)


/-! ## The clamp as applied by `CustomMode` -/

/-- C3: for a well-formed request with flag bit 0 set on a device whose
maximum is at least 800x600, the geometry `CustomMode` clamps the request to
is (min(max(width, 800), maxWidth), min(max(height, 600), maxHeight)): when
it equals the active geometry the call returns it, and otherwise it is the
content of the custom-mode slot when the call ends or blocks.  A request of
(50, 50) is clamped to (800, 600), and a request of (10000, 10000) on a
1920x1080 device to (1920, 1080). -/
theorem CustomMode_clamp_definition (t : ModeTable) (s : VMQemuVGA) (inD : CustomModeData)
    (inSize n : Nat) (dme1 : DisplayModeEntry) (env : List DriverCall)
    (hcall : s.m_restore_call = true) (hin : sizeofCustomModeData ≤ inSize)
    (hout : sizeofCustomModeData ≤ n)
    (hmode : GetDisplayMode t s s.m_display_mode = some dme1)
    (hflag : inD.flags &&& 1 ≠ 0)
    (hW : 800 ≤ s.svga.maxWidth) (hH : 600 ≤ s.svga.maxHeight) :
    clampWidth s inD.width = min (max inD.width 800) s.svga.maxWidth
    ∧ clampHeight s inD.height = min (max inD.height 600) s.svga.maxHeight
    ∧ (if min (max inD.width 800) s.svga.maxWidth = dme1.width
          ∧ min (max inD.height 600) s.svga.maxHeight = dme1.height then
        CustomMode t s (some inD) true inSize (some n) env
          = CustomModeOutcome.returned kIOReturnSuccess
              (some ⟨inD.flags, min (max inD.width 800) s.svga.maxWidth,
                min (max inD.height 600) s.svga.maxHeight⟩) s
      else
        (CustomMode t s (some inD) true inSize (some n) env).state.customMode
          = { s.customMode with width := min (max inD.width 800) s.svga.maxWidth,
                                height := min (max inD.height 600) s.svga.maxHeight })
    ∧ (clampWidth s 50 = 800 ∧ clampHeight s 50 = 600)
    ∧ (clampWidth { s with svga := { s.svga with maxWidth := 1920, maxHeight := 1080 } } 10000
          = 1920
        ∧ clampHeight { s with svga := { s.svga with maxWidth := 1920, maxHeight := 1080 } }
          10000 = 1080) := by
  have hw := clampWidth_eq s inD.width hW
  have hh := clampHeight_eq s inD.height hH
  refine ⟨hw, hh, ?_, ⟨?_, ?_⟩, ⟨?_, ?_⟩⟩
  · rw [← hw, ← hh]
    split_ifs with hsame
    · rw [CustomMode_same_geometry t s inD inSize n dme1 env hcall hin hout hmode hflag hsame,
        hsame.1, hsame.2]
    · rw [CustomMode_new_geometry t s inD inSize n dme1 env hcall hin hout hmode hflag hsame]
      unfold CustomSwitchStepWait
      have hc := waitLoop_customMode t 2 env
        { CustomMode_stage s (clampWidth s inD.width) (clampHeight s inD.height) with
          trace := (CustomMode_stage s (clampWidth s inD.width) (clampHeight s inD.height)).trace
            ++ [FBEffect.switchStepWait 2] }
      cases hwl : waitLoop t 2
        { CustomMode_stage s (clampWidth s inD.width) (clampHeight s inD.height) with
          trace := (CustomMode_stage s (clampWidth s inD.width) (clampHeight s inD.height)).trace
            ++ [FBEffect.switchStepWait 2] } env with
      | blocked s2 =>
        rw [hwl] at hc
        simp only [CustomModeOutcome.state]
        rw [show s2.customMode = _ from hc]
        simp [CustomMode_stage, EmitConnectChangedEvent_eq, CustomSwitchStepSet]
      | woke s2 =>
        rw [hwl] at hc
        simp only [CustomMode_finish_up_state]
        rw [show s2.customMode = _ from hc]
        simp [CustomMode_stage, EmitConnectChangedEvent_eq, CustomSwitchStepSet]
  · simp [clampWidth]
  · simp [clampHeight]
  · simp [clampWidth]
  · simp [clampHeight]

theorem CustomMode_clamp_definition_witness :
    ((sampleDriver none).m_restore_call = true ∧ sizeofCustomModeData ≤ 12
      ∧ GetDisplayMode sampleTable (sampleDriver none) (sampleDriver none).m_display_mode
          = some ⟨1024, 768, 7⟩
      ∧ (⟨1, 10000, 10000⟩ : CustomModeData).flags &&& 1 ≠ 0
      ∧ 800 ≤ (sampleDriver none).svga.maxWidth ∧ 600 ≤ (sampleDriver none).svga.maxHeight)
    ∧ clampWidth (sampleDriver none) 10000 = 1920
    ∧ clampHeight (sampleDriver none) 10000 = 1080
    ∧ (CustomMode sampleTable (sampleDriver none) (some ⟨1, 10000, 10000⟩) true 12 (some 12)
        []).state.customMode = ⟨1920, 1080, 3⟩ := by
  have h := CustomMode_clamp_definition sampleTable (sampleDriver none) ⟨1, 10000, 10000⟩ 12 12
    ⟨1024, 768, 7⟩ [] rfl (by decide) (by decide) (by decide) (by decide) (by decide)
    (by decide)
  refine ⟨by decide, h.1, h.2.1, ?_⟩
  have h3 := h.2.2.1
  rw [if_neg (by decide)] at h3
  exact h3

/-! ## Short circuit -/

/-- C5: when `CustomMode` is called with well-formed arguments, flag bit 0
set, and the clamped request equal to the geometry of the active mode, it
returns success with that geometry and leaves the whole driver state as it
was, trace included: no slot, state, list or flag changes, no callback, no
wait, no deferred restore, whatever other threads do.  A second identical
call from the resulting state behaves the same. -/
theorem CustomMode_short_circuit (t : ModeTable) (s : VMQemuVGA) (inD : CustomModeData)
    (inSize n : Nat) (dme1 : DisplayModeEntry) (env env2 : List DriverCall)
    (hcall : s.m_restore_call = true) (hin : sizeofCustomModeData ≤ inSize)
    (hout : sizeofCustomModeData ≤ n)
    (hmode : GetDisplayMode t s s.m_display_mode = some dme1)
    (hflag : inD.flags &&& 1 ≠ 0)
    (hsame : clampWidth s inD.width = dme1.width ∧ clampHeight s inD.height = dme1.height) :
    CustomMode t s (some inD) true inSize (some n) env
      = CustomModeOutcome.returned kIOReturnSuccess
          (some ⟨inD.flags, dme1.width, dme1.height⟩) s
    ∧ (CustomMode t s (some inD) true inSize (some n) env).state.trace = s.trace
    ∧ CustomMode t (CustomMode t s (some inD) true inSize (some n) env).state (some inD) true
        inSize (some n) env2
      = CustomModeOutcome.returned kIOReturnSuccess
          (some ⟨inD.flags, dme1.width, dme1.height⟩) s := by
  have h1 := CustomMode_same_geometry t s inD inSize n dme1 env hcall hin hout hmode hflag hsame
  have h2 := CustomMode_same_geometry t s inD inSize n dme1 env2 hcall hin hout hmode hflag hsame
  rw [h1]
  exact ⟨rfl, rfl, h2⟩

theorem CustomMode_short_circuit_witness :
    ((sampleDriver none).m_restore_call = true ∧ sizeofCustomModeData ≤ 12
      ∧ GetDisplayMode sampleTable (sampleDriver none) (sampleDriver none).m_display_mode
          = some ⟨1024, 768, 7⟩
      ∧ (⟨1, 1024, 768⟩ : CustomModeData).flags &&& 1 ≠ 0
      ∧ clampWidth (sampleDriver none) 1024 = 1024
      ∧ clampHeight (sampleDriver none) 768 = 768)
    ∧ CustomMode sampleTable (sampleDriver none) (some ⟨1, 1024, 768⟩) true 12 (some 12)
        [DriverCall.RestoreAllModes]
      = CustomModeOutcome.returned kIOReturnSuccess (some ⟨1, 1024, 768⟩) (sampleDriver none) :=
  ⟨by decide,
    (CustomMode_short_circuit sampleTable (sampleDriver none) ⟨1, 1024, 768⟩ 12 12
      ⟨1024, 768, 7⟩ [DriverCall.RestoreAllModes] [] rfl (by decide) (by decide) (by decide)
      (by decide) (by decide)).1⟩


/-! ## Staging a request -/

theorem emitEffects_count_emit (s : VMQemuVGA) :
    (emitEffects s).count FBEffect.emitConnectChanged = 1 := by
  unfold emitEffects
  cases s.m_intr.proc with
  | none => simp
  | some proc =>
    by_cases he : s.m_intr_enabled = false
    · simp [he]
    · simp [he]

theorem CustomMode_stage_trace (s : VMQemuVGA) (w h : Nat) :
    (CustomMode_stage s w h).trace
      = s.trace ++ ([FBEffect.customModeStore w h, FBEffect.switchStepSet 1] ++ emitEffects s) := by
  simp [CustomMode_stage, EmitConnectChangedEvent_eq, CustomSwitchStepSet, emitEffects]

/-- C6: when `CustomMode` is called with well-formed arguments, flag bit 0
set, and a clamped request that differs from the active geometry, then
before it waits it has, in this order, stored the clamped geometry into the
custom slot, set the mode-switch state to 1 and called
`EmitConnectChangedEvent` exactly once; it then waits for state 2.  Either
the state never becomes 2 and the call stays blocked without scheduling the
restore, or the wait ends with the state equal to 2 and the call then
schedules the deferred restore with a delay of 2000 ms as its last visible
action. -/
theorem CustomMode_request_staging (t : ModeTable) (s : VMQemuVGA) (inD : CustomModeData)
    (inSize n : Nat) (dme1 : DisplayModeEntry) (env : List DriverCall)
    (hcall : s.m_restore_call = true) (hin : sizeofCustomModeData ≤ inSize)
    (hout : sizeofCustomModeData ≤ n)
    (hmode : GetDisplayMode t s s.m_display_mode = some dme1)
    (hflag : inD.flags &&& 1 ≠ 0)
    (hdiff : ¬ (clampWidth s inD.width = dme1.width ∧ clampHeight s inD.height = dme1.height)) :
    (CustomMode_stage s (clampWidth s inD.width) (clampHeight s inD.height)).customMode
        = { s.customMode with width := clampWidth s inD.width,
                              height := clampHeight s inD.height }
    ∧ (CustomMode_stage s (clampWidth s inD.width) (clampHeight s inD.height)).m_custom_switch = 1
    ∧ (emitEffects s).count FBEffect.emitConnectChanged = 1
    ∧ ∃ mid : List FBEffect, (∀ e ∈ mid, e.isRestoreScheduled = false)
      ∧ ((∃ s2, CustomMode t s (some inD) true inSize (some n) env = CustomModeOutcome.blocked s2
            ∧ s2.m_custom_switch ≠ 2
            ∧ s2.trace = s.trace
                ++ ([FBEffect.customModeStore (clampWidth s inD.width) (clampHeight s inD.height),
                      FBEffect.switchStepSet 1] ++ emitEffects s)
                ++ [FBEffect.switchStepWait 2] ++ mid)
        ∨ (∃ r out s2, CustomMode t s (some inD) true inSize (some n) env
              = CustomModeOutcome.returned r out s2
            ∧ s2.m_custom_switch = 2
            ∧ s2.trace = s.trace
                ++ ([FBEffect.customModeStore (clampWidth s inD.width) (clampHeight s inD.height),
                      FBEffect.switchStepSet 1] ++ emitEffects s)
                ++ [FBEffect.switchStepWait 2] ++ mid ++ [FBEffect.restoreScheduled 2000])) := by
  refine ⟨?_, ?_, emitEffects_count_emit s, ?_⟩
  · simp [CustomMode_stage, EmitConnectChangedEvent_eq, CustomSwitchStepSet]
  · simp [CustomMode_stage, EmitConnectChangedEvent_eq, CustomSwitchStepSet]
  · rw [CustomMode_new_geometry t s inD inSize n dme1 env hcall hin hout hmode hflag hdiff]
    unfold CustomSwitchStepWait
    obtain ⟨mid, hmid, hno⟩ := waitLoop_trace t 2 env
      { CustomMode_stage s (clampWidth s inD.width) (clampHeight s inD.height) with
        trace := (CustomMode_stage s (clampWidth s inD.width) (clampHeight s inD.height)).trace
          ++ [FBEffect.switchStepWait 2] }
    refine ⟨mid, hno, ?_⟩
    cases hwl : waitLoop t 2
      { CustomMode_stage s (clampWidth s inD.width) (clampHeight s inD.height) with
        trace := (CustomMode_stage s (clampWidth s inD.width) (clampHeight s inD.height)).trace
          ++ [FBEffect.switchStepWait 2] } env with
    | blocked s2 =>
      left
      rw [hwl] at hmid
      refine ⟨s2, rfl, waitLoop_blocked t 2 env _ _ hwl, ?_⟩
      rw [show s2.trace = _ from hmid, CustomMode_stage_trace]
    | woke s2 =>
      right
      rw [hwl] at hmid
      have hsw := waitLoop_woke t 2 env _ _ hwl
      simp only [CustomMode_finish_up]
      cases GetDisplayMode t { s2 with trace := s2.trace ++ [FBEffect.restoreScheduled 2000] }
          s2.m_display_mode with
      | none =>
        refine ⟨_, _, _, rfl, hsw, ?_⟩
        simp only
        rw [show s2.trace = _ from hmid, CustomMode_stage_trace]
      | some dme =>
        refine ⟨_, _, _, rfl, hsw, ?_⟩
        simp only
        rw [show s2.trace = _ from hmid, CustomMode_stage_trace]


theorem CustomMode_request_staging_witness :
    ((sampleDriver none).m_restore_call = true ∧ sizeofCustomModeData ≤ 12
      ∧ GetDisplayMode sampleTable (sampleDriver none) (sampleDriver none).m_display_mode
          = some ⟨1024, 768, 7⟩
      ∧ (⟨1, 1280, 1024⟩ : CustomModeData).flags &&& 1 ≠ 0
      ∧ ¬ (clampWidth (sampleDriver none) 1280 = 1024
          ∧ clampHeight (sampleDriver none) 1024 = 768))
    ∧ (CustomMode_stage (sampleDriver none) 1280 1024).customMode = ⟨1280, 1024, 3⟩
    ∧ (CustomMode_stage (sampleDriver none) 1280 1024).m_custom_switch = 1
    ∧ (CustomMode sampleTable (sampleDriver none) (some ⟨1, 1280, 1024⟩) true 12 (some 12)
        (sampleAck sampleTable)).state.trace
      = [FBEffect.customModeStore 1280 1024, FBEffect.switchStepSet 1,
          FBEffect.emitConnectChanged, FBEffect.intrProc 7 1 2, FBEffect.switchStepWait 2,
          FBEffect.lockLock, FBEffect.svgaSetMode 1280 1024 32, FBEffect.lockUnlock,
          FBEffect.switchStepSet 2, FBEffect.restoreScheduled 2000] := by
  have h := CustomMode_request_staging sampleTable (sampleDriver none) ⟨1, 1280, 1024⟩ 12 12
    ⟨1024, 768, 7⟩ (sampleAck sampleTable) rfl (by decide) (by decide) (by decide) (by decide)
    (by decide)
  exact ⟨by decide, h.1, h.2.1, by decide⟩

/-! ## The result of `CustomMode` -/

/-- C7: whenever `CustomMode` returns success, the flags it returns are the
input flags and the width and height it returns are those of the entry that
`GetDisplayMode` resolves for `m_display_mode` in the state at return; and
when flag bit 0 of the input is clear the state at return is the state at
entry, trace included (no state change, wait or notification), whatever
other threads do. -/
theorem CustomMode_result (t : ModeTable) (s s2 : VMQemuVGA)
    (inData : Option CustomModeData) (outData : Bool) (inSize : Nat) (outSize : Option Nat)
    (env : List DriverCall) (out : Option CustomModeData)
    (hret : CustomMode t s inData outData inSize outSize env
      = CustomModeOutcome.returned kIOReturnSuccess out s2) :
    ∃ inD dme, inData = some inD
      ∧ GetDisplayMode t s2 s2.m_display_mode = some dme
      ∧ out = some ⟨inD.flags, dme.width, dme.height⟩
      ∧ (inD.flags &&& 1 ≠ 0
        ∨ (s2 = s ∧ ∀ env2, CustomMode t s inData outData inSize outSize env2
            = CustomModeOutcome.returned kIOReturnSuccess out s)) := by
  obtain ⟨hcall, hod, hin, inD, n, dme1, hi, ho, hout, hmode⟩ :=
    CustomMode_success_args t s s2 inData outData inSize outSize env out hret
  subst hi ho hod
  by_cases hflag : inD.flags &&& 1 = 0
  · have h1 := CustomMode_flag_clear t s inD inSize n dme1 env hcall hin hout hmode hflag
    rw [h1] at hret
    injection hret with _ hout2 hs
    subst hs
    refine ⟨inD, dme1, rfl, hmode, hout2.symm, Or.inr ⟨rfl, ?_⟩⟩
    intro env2
    rw [← hout2]
    exact CustomMode_flag_clear t s inD inSize n dme1 env2 hcall hin hout hmode hflag
  · by_cases hsame : clampWidth s inD.width = dme1.width ∧ clampHeight s inD.height = dme1.height
    · have h1 := CustomMode_same_geometry t s inD inSize n dme1 env hcall hin hout hmode hflag
        hsame
      rw [h1] at hret
      injection hret with _ hout2 hs
      subst hs
      exact ⟨inD, dme1, rfl, hmode, hout2.symm, Or.inl hflag⟩
    · rw [CustomMode_new_geometry t s inD inSize n dme1 env hcall hin hout hmode hflag hsame]
        at hret
      cases hw : CustomSwitchStepWait t
          (CustomMode_stage s (clampWidth s inD.width) (clampHeight s inD.height)) 2 env with
      | blocked s3 =>
        rw [hw] at hret
        cases hret
      | woke s3 =>
        rw [hw] at hret
        obtain ⟨hs, dme, hg, hout2⟩ := CustomMode_finish_up_success t _ s2 inD out hret
        subst hs
        exact ⟨inD, dme, rfl, hg, hout2, Or.inl hflag⟩

theorem CustomMode_result_witness :
    CustomMode sampleTable (sampleDriver none) (some ⟨1, 1280, 1024⟩) true 12 (some 12)
        (sampleAck sampleTable)
      = CustomModeOutcome.returned kIOReturnSuccess (some ⟨1, 1280, 1024⟩)
          (CustomMode sampleTable (sampleDriver none) (some ⟨1, 1280, 1024⟩) true 12 (some 12)
            (sampleAck sampleTable)).state
    ∧ ∃ inD dme, (some ⟨1, 1280, 1024⟩ : Option CustomModeData) = some inD
      ∧ GetDisplayMode sampleTable
          (CustomMode sampleTable (sampleDriver none) (some ⟨1, 1280, 1024⟩) true 12 (some 12)
            (sampleAck sampleTable)).state
          (CustomMode sampleTable (sampleDriver none) (some ⟨1, 1280, 1024⟩) true 12 (some 12)
            (sampleAck sampleTable)).state.m_display_mode = some dme
      ∧ (some ⟨1, 1280, 1024⟩ : Option CustomModeData) = some ⟨inD.flags, dme.width, dme.height⟩
      ∧ (inD.flags &&& 1 ≠ 0
        ∨ ((CustomMode sampleTable (sampleDriver none) (some ⟨1, 1280, 1024⟩) true 12 (some 12)
            (sampleAck sampleTable)).state = sampleDriver none
          ∧ ∀ env2, CustomMode sampleTable (sampleDriver none) (some ⟨1, 1280, 1024⟩) true 12
              (some 12) env2
            = CustomModeOutcome.returned kIOReturnSuccess (some ⟨1, 1280, 1024⟩)
                (sampleDriver none))) :=
  ⟨by decide, CustomMode_result sampleTable (sampleDriver none) _ (some ⟨1, 1280, 1024⟩) true 12
    (some 12) (sampleAck sampleTable) (some ⟨1, 1280, 1024⟩) (by decide)⟩


/-! ## The slot search and the swap of `RestoreAllModes` -/

theorem findSlot_none (t : ModeTable) (s : VMQemuVGA) (dme1 : DisplayModeEntry) :
    ∀ (modes : List Int) (k : Nat), findSlot t s dme1 modes k = none →
      ∀ (j : Nat) (m : Int), modes[j]? = some m → ¬ modeQualifies t s dme1 m := by
  intro modes
  induction modes with
  | nil =>
    intro k _ j m hj
    simp at hj
  | cons a rest ih =>
    intro k hf j m hj
    unfold findSlot at hf
    cases hg : GetDisplayMode t s a with
    | none =>
      rw [hg] at hf
      cases j with
      | zero =>
        simp at hj
        subst hj
        rintro ⟨dme2, h2, _⟩
        rw [hg] at h2
        cases h2
      | succ j2 => exact ih (k + 1) hf j2 m (by simpa using hj)
    | some dme2 =>
      rw [hg] at hf
      simp only at hf
      split_ifs at hf with hq
      cases j with
      | zero =>
        simp at hj
        subst hj
        rintro ⟨dme3, h3, hq3⟩
        rw [hg] at h3
        cases h3
        exact hq hq3
      | succ j2 => exact ih (k + 1) hf j2 m (by simpa using hj)

theorem findSlot_some (t : ModeTable) (s : VMQemuVGA) (dme1 : DisplayModeEntry) :
    ∀ (modes : List Int) (k i : Nat), findSlot t s dme1 modes k = some i →
      ∃ (j : Nat) (m : Int), i = k + j ∧ modes[j]? = some m ∧ modeQualifies t s dme1 m
        ∧ ∀ (j2 : Nat) (m2 : Int), j2 < j → modes[j2]? = some m2
          → ¬ modeQualifies t s dme1 m2 := by
  intro modes
  induction modes with
  | nil =>
    intro k i hf
    simp [findSlot] at hf
  | cons a rest ih =>
    intro k i hf
    unfold findSlot at hf
    cases hg : GetDisplayMode t s a with
    | none =>
      rw [hg] at hf
      obtain ⟨j, m, hi, hj, hq, hmin⟩ := ih (k + 1) i hf
      refine ⟨j + 1, m, by omega, by simpa using hj, hq, ?_⟩
      intro j2 m2 hlt hj2
      cases j2 with
      | zero =>
        simp at hj2
        subst hj2
        rintro ⟨dme2, h2, _⟩
        rw [hg] at h2
        cases h2
      | succ j3 => exact hmin j3 m2 (by omega) (by simpa using hj2)
    | some dme2 =>
      rw [hg] at hf
      simp only at hf
      split_ifs at hf with hq
      · injection hf with hi
        refine ⟨0, a, by omega, by simp, ⟨dme2, hg, hq⟩, ?_⟩
        intro j2 m2 hlt
        omega
      · obtain ⟨j, m, hi, hj, hq2, hmin⟩ := ih (k + 1) i hf
        refine ⟨j + 1, m, by omega, by simpa using hj, hq2, ?_⟩
        intro j2 m2 hlt hj2
        cases j2 with
        | zero =>
          simp at hj2
          subst hj2
          rintro ⟨dme3, h3, hq3⟩
          rw [hg] at h3
          cases h3
          exact hq hq3
        | succ j3 => exact hmin j3 m2 (by omega) (by simpa using hj2)

theorem swap_getElem (l : List Int) (i : Nat) (hi : i < l.length) :
    ((l.set 0 (l.getD i 0)).set i (l.getD 0 0)).length = l.length
    ∧ ((l.set 0 (l.getD i 0)).set i (l.getD 0 0))[0]? = l[i]?
    ∧ ((l.set 0 (l.getD i 0)).set i (l.getD 0 0))[i]? = l[0]?
    ∧ ∀ k, k ≠ 0 → k ≠ i →
        ((l.set 0 (l.getD i 0)).set i (l.getD 0 0))[k]? = l[k]? := by
  have h0 : 0 < l.length := by omega
  refine ⟨by simp, ?_, ?_, ?_⟩
  · by_cases hi0 : i = 0
    · subst hi0
      simp [List.getElem?_set, h0, List.getD_eq_getElem?_getD, List.getElem?_eq_getElem]
    · simp [List.getElem?_set, h0, hi, hi0, List.getD_eq_getElem?_getD,
        List.getElem?_eq_getElem]
  · simp [List.getElem?_set, h0, hi, List.getD_eq_getElem?_getD, List.getElem?_eq_getElem]
  · intro k hk0 hki
    rw [List.getElem?_set_ne (Ne.symm hki), List.getElem?_set_ne (Ne.symm hk0)]

/-- With state 2 and a qualifying slot, `RestoreAllModes` takes the swap
path, at the lowest qualifying index. -/
theorem RestoreAllModes_found (t : ModeTable) (s : VMQemuVGA) (j : Nat)
    (hstate : s.m_custom_switch = 2) (hq : slotQualifies t s j) :
    ∃ i, slotQualifies t s i ∧ (∀ k, k < i → ¬ slotQualifies t s k)
      ∧ RestoreAllModes t s =
          { s with m_modes := (s.m_modes.set 0 (s.m_modes.getD i 0)).set i (s.m_modes.getD 0 0),
                   m_custom_mode_switched := true,
                   m_custom_switch := 0,
                   trace := s.trace ++ (FBEffect.switchStepSet 0 :: emitEffects s) } := by
  cases hf : findSlot t s s.customMode s.m_modes 0 with
  | none =>
    obtain ⟨m, hm, hmq⟩ := hq
    exact absurd hmq (findSlot_none t s s.customMode s.m_modes 0 hf j m hm)
  | some i =>
    obtain ⟨j2, m, hi, hj2, hmq, hmin⟩ := findSlot_some t s s.customMode s.m_modes 0 i hf
    have hij : i = j2 := by omega
    subst hij
    refine ⟨i, ⟨m, hj2, hmq⟩, ?_, ?_⟩
    · rintro k hk ⟨m2, hm2, hq2⟩
      exact hmin k m2 hk hm2 hq2
    · rcases RestoreAllModes_cases t s with h | ⟨i2, _, hf2, h⟩
      · exfalso
        unfold RestoreAllModes at h
        rw [if_neg (by simp [hstate])] at h
        have hc : GetDisplayMode t s t.CUSTOM_MODE_ID = some s.customMode := by
          unfold GetDisplayMode
          rw [if_pos rfl]
        simp only [hc, hf, EmitConnectChangedEvent_eq] at h
        have ht := congrArg VMQemuVGA.trace h
        simp [CustomSwitchStepSet] at ht
      · rw [hf] at hf2
        injection hf2 with hi2
        subst hi2
        exact h


theorem modeQualifies_builtin (t : ModeTable) (s : VMQemuVGA) (m : Int)
    (hq : modeQualifies t s s.customMode m) :
    m ≠ t.CUSTOM_MODE_ID ∧ 1 ≤ m ∧ m ≤ t.NUM_DISPLAY_MODES
    ∧ ∃ dme, t.modeList[(m - 1).toNat]? = some dme ∧ GetDisplayMode t s m = some dme
      ∧ (dme.width ≠ s.customMode.width ∨ dme.height ≠ s.customMode.height) := by
  obtain ⟨dme2, hg, hd⟩ := hq
  have hne : m ≠ t.CUSTOM_MODE_ID := by
    intro he
    unfold GetDisplayMode at hg
    rw [if_pos he] at hg
    injection hg with hg
    subst hg
    rcases hd with h | h <;> exact h rfl
  have hg2 := hg
  unfold GetDisplayMode at hg2
  rw [if_neg hne] at hg2
  split_ifs at hg2 with hr
  exact ⟨hne, hr.1, hr.2, dme2, hg2, hg, hd⟩

/-- C9: when `RestoreAllModes` runs with mode-switch state 2 and some
active-mode slot resolves to a geometry that differs from the custom
geometry, it exchanges slot 0 with the lowest-indexed such slot and changes
no other slot, sets the custom-mode-live flag, resets the state to 0 and
calls `EmitConnectChangedEvent` exactly once; afterwards slot 0 holds a
built-in mode ID, different from the custom-mode sentinel, whose entry
differs from the custom geometry. -/
theorem RestoreAllModes_effect (t : ModeTable) (s : VMQemuVGA) (j : Nat)
    (hstate : s.m_custom_switch = 2) (hq : slotQualifies t s j) :
    ∃ i, slotQualifies t s i ∧ (∀ k, k < i → ¬ slotQualifies t s k)
      ∧ (RestoreAllModes t s).m_modes.length = s.m_modes.length
      ∧ (RestoreAllModes t s).m_modes[0]? = s.m_modes[i]?
      ∧ (RestoreAllModes t s).m_modes[i]? = s.m_modes[0]?
      ∧ (∀ k, k ≠ 0 → k ≠ i → (RestoreAllModes t s).m_modes[k]? = s.m_modes[k]?)
      ∧ (RestoreAllModes t s).m_custom_mode_switched = true
      ∧ (RestoreAllModes t s).m_custom_switch = 0
      ∧ (RestoreAllModes t s).customMode = s.customMode
      ∧ (RestoreAllModes t s).trace = s.trace ++ (FBEffect.switchStepSet 0 :: emitEffects s)
      ∧ (emitEffects s).count FBEffect.emitConnectChanged = 1
      ∧ ∃ m0 dme, (RestoreAllModes t s).m_modes[0]? = some m0
          ∧ m0 ≠ t.CUSTOM_MODE_ID ∧ 1 ≤ m0 ∧ m0 ≤ t.NUM_DISPLAY_MODES
          ∧ t.modeList[(m0 - 1).toNat]? = some dme
          ∧ GetDisplayMode t (RestoreAllModes t s) m0 = some dme
          ∧ (dme.width ≠ (RestoreAllModes t s).customMode.width
              ∨ dme.height ≠ (RestoreAllModes t s).customMode.height) := by
  obtain ⟨i, hqi, hmin, hR⟩ := RestoreAllModes_found t s j hstate hq
  obtain ⟨m, hm, hmq⟩ := hqi
  have hi : i < s.m_modes.length := by
    by_contra hc
    rw [List.getElem?_eq_none (by omega)] at hm
    cases hm
  obtain ⟨hlen, h0, hi0, hother⟩ := swap_getElem s.m_modes i hi
  obtain ⟨hne, h1, hN, dme, hlist, hget, hdiff⟩ := modeQualifies_builtin t s m hmq
  refine ⟨i, ⟨m, hm, hmq⟩, hmin, ?_⟩
  rw [hR]
  refine ⟨hlen, h0, hi0, hother, rfl, rfl, rfl, rfl, emitEffects_count_emit s, m, dme, ?_, hne,
    h1, hN, hlist, ?_, hdiff⟩
  · simp only
    rw [h0, hm]
  · exact (GetDisplayMode_congr t _ s m rfl).trans hget

theorem RestoreAllModes_effect_witness :
    (sampleAcked.m_custom_switch = 2 ∧ slotQualifies sampleTable sampleAcked 1)
    ∧ (RestoreAllModes sampleTable sampleAcked).m_custom_mode_switched = true
    ∧ (RestoreAllModes sampleTable sampleAcked).m_custom_switch = 0
    ∧ (RestoreAllModes sampleTable sampleAcked).m_modes = [2, 1, 3] := by
  have hq : slotQualifies sampleTable sampleAcked 1 :=
    ⟨2, by decide, ⟨1024, 768, 7⟩, by decide, by decide⟩
  obtain ⟨i, _, _, _, _, _, _, hsw, hst, _⟩ :=
    RestoreAllModes_effect sampleTable sampleAcked 1 rfl hq
  exact ⟨⟨rfl, hq⟩, hsw, hst, by decide⟩

/-- C10: `RestoreAllModes` leaves the whole driver state as it was, trace
included (active-mode list, custom-live flag, mode-switch state and custom
slot unchanged, no notification), whenever the mode-switch state is not 2,
and also whenever no active-mode slot qualifies, which is the case when
every slot resolves to the geometry of the custom slot; the state then
stays 2. -/
theorem RestoreAllModes_guard (t : ModeTable) (s : VMQemuVGA)
    (h : s.m_custom_switch ≠ 2 ∨ ∀ j, ¬ slotQualifies t s j) :
    RestoreAllModes t s = s := by
  rcases RestoreAllModes_cases t s with h1 | ⟨i, hst, hf, _⟩
  · exact h1
  · rcases h with h | h
    · exact absurd hst h
    · obtain ⟨j, m, _, hj, hmq, _⟩ := findSlot_some t s s.customMode s.m_modes 0 i hf
      exact absurd ⟨m, hj, hmq⟩ (h j)

theorem RestoreAllModes_guard_witness :
    ((sampleDriver none).m_custom_switch ≠ 2
      ∧ RestoreAllModes sampleTable (sampleDriver none) = sampleDriver none)
    ∧ (({ sampleAcked with m_modes := [1, 3] } : VMQemuVGA).m_custom_switch = 2
      ∧ RestoreAllModes sampleTable { sampleAcked with m_modes := [1, 3] }
        = { sampleAcked with m_modes := [1, 3] }) := by
  refine ⟨⟨by decide, RestoreAllModes_guard sampleTable (sampleDriver none)
    (Or.inl (by decide))⟩, rfl, RestoreAllModes_guard sampleTable _ (Or.inr ?_)⟩
  rintro j ⟨m, hm, dme2, hg, hd⟩
  have hmem : m = 1 ∨ m = 3 := by
    have := List.getElem?_mem hm
    simpa using this
  rcases hmem with h | h <;> subst h
  · have : dme2 = ⟨1280, 1024, 3⟩ := by
      have h2 : GetDisplayMode sampleTable { sampleAcked with m_modes := [1, 3] } 1
          = some ⟨1280, 1024, 3⟩ := by decide
      rw [h2] at hg
      injection hg with hg
      exact hg.symm
    subst this
    revert hd
    decide
  · have : dme2 = ⟨1280, 1024, 3⟩ := by
      have h2 : GetDisplayMode sampleTable { sampleAcked with m_modes := [1, 3] } 3
          = some ⟨1280, 1024, 3⟩ := by decide
      rw [h2] at hg
      injection hg with hg
      exact hg.symm
    subst this
    revert hd
    decide


/-! ## Notifications of one mode-switch cycle -/

theorem callbackCount_append (a b : List FBEffect) :
    callbackCount (a ++ b) = callbackCount a + callbackCount b := by
  unfold callbackCount
  exact List.countP_append _ a b

theorem emitEffects_enabled (s : VMQemuVGA) (proc : Nat) (hproc : s.m_intr.proc = some proc)
    (hen : s.m_intr_enabled = true) :
    emitEffects s
      = [FBEffect.emitConnectChanged, FBEffect.intrProc proc s.m_intr.target s.m_intr.ref] := by
  unfold emitEffects
  rw [hproc]
  simp [hen]

theorem applyCall_modeCall (t : ModeTable) (s : VMQemuVGA) (c : DriverCall)
    (hc : c.isModeCall = true) :
    (applyCall t s c).m_intr = s.m_intr
    ∧ (applyCall t s c).m_intr_enabled = s.m_intr_enabled
    ∧ callbackCount (applyCall t s c).trace = callbackCount s.trace := by
  cases c with
  | setDisplayMode m d =>
    simp only [applyCall, setDisplayMode]
    by_cases hd : d ≠ 0
    · simp [hd]
    · rw [if_neg hd]
      cases GetDisplayMode t s m with
      | none => simp
      | some dme =>
        by_cases hsw : s.m_custom_mode_switched = true
        · simp only [hsw, if_true]
          split_ifs <;> simp
        · simp [hsw, callbackCount, FBEffect.isIntrProc]
  | setAttribute a v r =>
    simp only [applyCall, setAttribute]
    split_ifs
    · simp [CustomSwitchStepSet, callbackCount, FBEffect.isIntrProc]
    · simp
  | setInterruptState b st => simp [DriverCall.isModeCall] at hc
  | registerForInterruptType ty proc target ref => simp [DriverCall.isModeCall] at hc
  | unregisterInterrupt b => simp [DriverCall.isModeCall] at hc
  | RestoreAllModes => simp [DriverCall.isModeCall] at hc

theorem waitLoop_modeCalls (t : ModeTable) (v : Nat) (env : List DriverCall) :
    ∀ s : VMQemuVGA, (∀ c ∈ env, c.isModeCall = true) →
      (waitLoop t v s env).state.m_intr = s.m_intr
      ∧ (waitLoop t v s env).state.m_intr_enabled = s.m_intr_enabled
      ∧ callbackCount (waitLoop t v s env).state.trace = callbackCount s.trace := by
  induction env with
  | nil =>
    intro s _
    unfold waitLoop
    split_ifs <;> exact ⟨rfl, rfl, rfl⟩
  | cons c rest ih =>
    intro s henv
    unfold waitLoop
    split_ifs
    · exact ⟨rfl, rfl, rfl⟩
    · obtain ⟨h1, h2, h3⟩ := applyCall_modeCall t s c (henv c (List.mem_cons_self c rest))
      obtain ⟨g1, g2, g3⟩ := ih (applyCall t s c)
        (fun c2 hc2 => henv c2 (List.mem_cons_of_mem c hc2))
      exact ⟨g1.trans h1, g2.trans h2, g3.trans h3⟩

/-- C8: with a connection-changed callback registered and delivery enabled,
one full mode-switch cycle invokes the callback exactly twice: a
`CustomMode` request whose clamped geometry differs from the active mode,
answered by the client through `setDisplayMode` and `setAttribute` calls
until the request returns, invokes it once, and the deferred
`RestoreAllModes` that then finds a qualifying slot invokes it once more. -/
theorem mode_switch_cycle_callbacks (t : ModeTable) (s s1 : VMQemuVGA) (inD : CustomModeData)
    (inSize n : Nat) (dme1 : DisplayModeEntry) (env : List DriverCall) (r : IOReturn)
    (out : Option CustomModeData) (proc j : Nat)
    (hcall : s.m_restore_call = true) (hin : sizeofCustomModeData ≤ inSize)
    (hout : sizeofCustomModeData ≤ n)
    (hmode : GetDisplayMode t s s.m_display_mode = some dme1)
    (hflag : inD.flags &&& 1 ≠ 0)
    (hdiff : ¬ (clampWidth s inD.width = dme1.width ∧ clampHeight s inD.height = dme1.height))
    (hproc : s.m_intr.proc = some proc) (hen : s.m_intr_enabled = true)
    (henv : ∀ c ∈ env, c.isModeCall = true)
    (hret : CustomMode t s (some inD) true inSize (some n) env
      = CustomModeOutcome.returned r out s1)
    (hslot : slotQualifies t s1 j) :
    callbackCount s1.trace = callbackCount s.trace + 1
    ∧ callbackCount (RestoreAllModes t s1).trace = callbackCount s.trace + 2 := by
  rw [CustomMode_new_geometry t s inD inSize n dme1 env hcall hin hout hmode hflag hdiff] at hret
  unfold CustomSwitchStepWait at hret
  obtain ⟨g1, g2, g3⟩ := waitLoop_modeCalls t 2 env
    { CustomMode_stage s (clampWidth s inD.width) (clampHeight s inD.height) with
      trace := (CustomMode_stage s (clampWidth s inD.width) (clampHeight s inD.height)).trace
        ++ [FBEffect.switchStepWait 2] } henv
  cases hw : waitLoop t 2
    { CustomMode_stage s (clampWidth s inD.width) (clampHeight s inD.height) with
      trace := (CustomMode_stage s (clampWidth s inD.width) (clampHeight s inD.height)).trace
        ++ [FBEffect.switchStepWait 2] } env with
  | blocked s3 =>
    rw [hw] at hret
    cases hret
  | woke s3 =>
    rw [hw] at hret g1 g2 g3
    have hs1 := congrArg CustomModeOutcome.state hret
    rw [CustomMode_finish_up_state] at hs1
    simp only [CustomModeOutcome.state] at hs1
    have hsw := waitLoop_woke t 2 env _ _ hw
    simp only [WaitOutcome.state] at g1 g2 g3
    have hintr : s3.m_intr = s.m_intr := by
      rw [g1]
      simp [CustomMode_stage, EmitConnectChangedEvent_eq, CustomSwitchStepSet]
    have hena : s3.m_intr_enabled = true := by
      rw [g2]
      simp [CustomMode_stage, EmitConnectChangedEvent_eq, CustomSwitchStepSet, hen]
    have hcount : callbackCount s3.trace = callbackCount s.trace + 1 := by
      rw [g3]
      simp only [CustomMode_stage_trace, emitEffects_enabled s proc hproc hen,
        callbackCount_append]
      simp [callbackCount, FBEffect.isIntrProc]
    have hc1 : callbackCount s1.trace = callbackCount s.trace + 1 := by
      rw [← hs1]
      simp only [callbackCount_append, hcount]
      simp [callbackCount, FBEffect.isIntrProc]
    refine ⟨hc1, ?_⟩
    have hst1 : s1.m_custom_switch = 2 := by
      rw [← hs1]
      exact hsw
    obtain ⟨i, _, _, hR⟩ := RestoreAllModes_found t s1 j hst1 hslot
    have hp1 : s1.m_intr.proc = some proc := by
      rw [← hs1]
      simp only
      rw [hintr, hproc]
    have he1 : s1.m_intr_enabled = true := by
      rw [← hs1]
      exact hena
    rw [hR]
    simp only
    rw [emitEffects_enabled s1 proc hp1 he1, callbackCount_append, hc1]
    simp [callbackCount, FBEffect.isIntrProc]

theorem mode_switch_cycle_callbacks_witness :
    ((sampleDriver none).m_restore_call = true ∧ sizeofCustomModeData ≤ 12
      ∧ GetDisplayMode sampleTable (sampleDriver none) (sampleDriver none).m_display_mode
          = some ⟨1024, 768, 7⟩
      ∧ (⟨1, 1280, 1024⟩ : CustomModeData).flags &&& 1 ≠ 0
      ∧ ¬ (clampWidth (sampleDriver none) 1280 = 1024
          ∧ clampHeight (sampleDriver none) 1024 = 768)
      ∧ (sampleDriver none).m_intr.proc = some 7 ∧ (sampleDriver none).m_intr_enabled = true
      ∧ (∀ c ∈ sampleAck sampleTable, c.isModeCall = true)
      ∧ CustomMode sampleTable (sampleDriver none) (some ⟨1, 1280, 1024⟩) true 12 (some 12)
          (sampleAck sampleTable)
        = CustomModeOutcome.returned kIOReturnSuccess (some ⟨1, 1280, 1024⟩)
            { sampleAcked with trace :=
              [FBEffect.customModeStore 1280 1024, FBEffect.switchStepSet 1,
                FBEffect.emitConnectChanged, FBEffect.intrProc 7 1 2, FBEffect.switchStepWait 2,
                FBEffect.lockLock, FBEffect.svgaSetMode 1280 1024 32, FBEffect.lockUnlock,
                FBEffect.switchStepSet 2, FBEffect.restoreScheduled 2000] })
    ∧ callbackCount (RestoreAllModes sampleTable
        { sampleAcked with trace :=
          [FBEffect.customModeStore 1280 1024, FBEffect.switchStepSet 1,
            FBEffect.emitConnectChanged, FBEffect.intrProc 7 1 2, FBEffect.switchStepWait 2,
            FBEffect.lockLock, FBEffect.svgaSetMode 1280 1024 32, FBEffect.lockUnlock,
            FBEffect.switchStepSet 2, FBEffect.restoreScheduled 2000] }).trace
      = callbackCount (sampleDriver none).trace + 2 := by
  have hq : slotQualifies sampleTable
      { sampleAcked with trace :=
        [FBEffect.customModeStore 1280 1024, FBEffect.switchStepSet 1,
          FBEffect.emitConnectChanged, FBEffect.intrProc 7 1 2, FBEffect.switchStepWait 2,
          FBEffect.lockLock, FBEffect.svgaSetMode 1280 1024 32, FBEffect.lockUnlock,
          FBEffect.switchStepSet 2, FBEffect.restoreScheduled 2000] } 1 :=
    ⟨2, by decide, ⟨1024, 768, 7⟩, by decide, by decide⟩
  exact ⟨by decide,
    (mode_switch_cycle_callbacks sampleTable (sampleDriver none) _ ⟨1, 1280, 1024⟩ 12 12
      ⟨1024, 768, 7⟩ (sampleAck sampleTable) kIOReturnSuccess (some ⟨1, 1280, 1024⟩) 7 1 rfl
      (by decide) (by decide) (by decide) (by decide) (by decide) rfl rfl (by decide)
      (by decide) hq).2⟩


/-! ## Mode resolution -/

/-- C11 (counterexample): with the sentinel `CUSTOM_MODE_ID = 1` and a custom
slot holding 1280x1024, mode ID 1 lies in 1..NUM_DISPLAY_MODES and
`GetDisplayMode` does not return built-in entry number 1 (800x600) for it:
it returns the custom slot. -/
theorem GetDisplayMode_sentinel_in_range_not_builtin :
    (1 ≤ (1 : Int) ∧ (1 : Int) ≤ sampleTable.NUM_DISPLAY_MODES)
    ∧ sampleTable.modeList[((1 : Int) - 1).toNat]? = some ⟨800, 600, 3⟩
    ∧ GetDisplayMode sampleTable sampleAcked 1 = some ⟨1280, 1024, 3⟩
    ∧ GetDisplayMode sampleTable sampleAcked 1 ≠ sampleTable.modeList[((1 : Int) - 1).toNat]? := by
  decide

/-- C11 (amended): for every mode ID, `GetDisplayMode` returns the custom
slot when the ID is the sentinel `CUSTOM_MODE_ID`; returns built-in entry
number ID, which exists, when the ID is not the sentinel and lies in
1..NUM_DISPLAY_MODES; and returns null for every other ID.  Resolving the
sentinel yields the contents of the custom slot whatever the active-mode
list holds. -/
theorem GetDisplayMode_resolution (t : ModeTable) (s : VMQemuVGA) (displayMode : Int)
    (modes : List Int) :
    ((displayMode = t.CUSTOM_MODE_ID ∧ GetDisplayMode t s displayMode = some s.customMode)
      ∨ (displayMode ≠ t.CUSTOM_MODE_ID ∧ 1 ≤ displayMode
          ∧ displayMode ≤ t.NUM_DISPLAY_MODES
          ∧ ∃ e, t.modeList[(displayMode - 1).toNat]? = some e
              ∧ GetDisplayMode t s displayMode = some e)
      ∨ (displayMode ≠ t.CUSTOM_MODE_ID ∧ ¬ (1 ≤ displayMode ∧ displayMode ≤ t.NUM_DISPLAY_MODES)
          ∧ GetDisplayMode t s displayMode = none))
    ∧ GetDisplayMode t { s with m_modes := modes } t.CUSTOM_MODE_ID = some s.customMode := by
  refine ⟨?_, ?_⟩
  · unfold GetDisplayMode
    by_cases hc : displayMode = t.CUSTOM_MODE_ID
    · left
      exact ⟨hc, by rw [if_pos hc]⟩
    · right
      rw [if_neg hc]
      by_cases hr : 1 ≤ displayMode ∧ displayMode ≤ t.NUM_DISPLAY_MODES
      · left
        rw [if_pos hr]
        have hlt : (displayMode - 1).toNat < t.modeList.length := by
          have h2 := hr.2
          unfold ModeTable.NUM_DISPLAY_MODES at h2
          omega
        exact ⟨hc, hr.1, hr.2, t.modeList[(displayMode - 1).toNat],
          List.getElem?_eq_getElem hlt, List.getElem?_eq_getElem hlt⟩
      · right
        rw [if_neg hr]
        exact ⟨hc, hr, rfl⟩
  · unfold GetDisplayMode
    rw [if_pos rfl]


/-! ## Current-mode detection -/

theorem detectLoop_match (w h : Nat) (d : Int) :
    ∀ (entries : List DisplayModeEntry) (i td : Int) (j : Nat) (e : DisplayModeEntry),
      entries[j]? = some e → (w = e.width ∧ h = e.height) →
      ∃ (j0 : Nat) (e0 : DisplayModeEntry), entries[j0]? = some e0
        ∧ (w = e0.width ∧ h = e0.height)
        ∧ (∀ (j2 : Nat) (e2 : DisplayModeEntry), j2 < j0 → entries[j2]? = some e2
            → ¬ (w = e2.width ∧ h = e2.height))
        ∧ detectLoop w h d entries i td = i + j0 + 1 := by
  intro entries
  induction entries with
  | nil =>
    intro i td j e hj
    simp at hj
  | cons a rest ih =>
    intro i td j e hj hm
    unfold detectLoop
    by_cases ha : w = a.width ∧ h = a.height
    · rw [if_pos ha]
      refine ⟨0, a, by simp, ha, ?_, by simp⟩
      intro j2 e2 hlt
      omega
    · rw [if_neg ha]
      have hj1 : ∃ j1, j = j1 + 1 := by
        cases j with
        | zero =>
          simp at hj
          subst hj
          exact absurd hm ha
        | succ j1 => exact ⟨j1, rfl⟩
      obtain ⟨j1, rfl⟩ := hj1
      have hj2 : rest[j1]? = some e := by simpa using hj
      have key : ∀ td2 : Int, ∃ (j0 : Nat) (e0 : DisplayModeEntry), (a :: rest)[j0]? = some e0
          ∧ (w = e0.width ∧ h = e0.height)
          ∧ (∀ (j2 : Nat) (e2 : DisplayModeEntry), j2 < j0 → (a :: rest)[j2]? = some e2
              → ¬ (w = e2.width ∧ h = e2.height))
          ∧ detectLoop w h d rest (i + 1) td2 = i + j0 + 1 := by
        intro td2
        obtain ⟨j0, e0, h0, hm0, hmin, hres⟩ := ih (i + 1) td2 j1 e hj2 hm
        refine ⟨j0 + 1, e0, by simpa using h0, hm0, ?_, ?_⟩
        · intro j2 e2 hlt hj2e
          cases j2 with
          | zero =>
            simp at hj2e
            subst hj2e
            exact ha
          | succ j3 => exact hmin j3 e2 (by omega) (by simpa using hj2e)
        · rw [hres]
          push_cast
          ring
      split_ifs
      · exact key (i + 1)
      · exact key td

theorem detectLoop_fallback (w h : Nat) (d : Int) :
    ∀ (entries : List DisplayModeEntry) (i td : Int), 0 ≤ i →
      (∀ (j : Nat) (e : DisplayModeEntry), entries[j]? = some e
        → ¬ (w = e.width ∧ h = e.height)) →
      (∃ (j0 : Nat) (e0 : DisplayModeEntry), entries[j0]? = some e0
          ∧ e0.flags &&& kDisplayModeDefaultFlag ≠ 0
          ∧ (∀ (j2 : Nat) (e2 : DisplayModeEntry), j0 < j2 → entries[j2]? = some e2
              → e2.flags &&& kDisplayModeDefaultFlag = 0)
          ∧ detectLoop w h d entries i td = i + j0 + 1)
      ∨ ((∀ (j : Nat) (e : DisplayModeEntry), entries[j]? = some e
            → e.flags &&& kDisplayModeDefaultFlag = 0)
          ∧ detectLoop w h d entries i td = if td ≠ 0 then td else d) := by
  intro entries
  induction entries with
  | nil =>
    intro i td _ _
    right
    refine ⟨?_, rfl⟩
    intro j e hj
    simp at hj
  | cons a rest ih =>
    intro i td hi0 hno
    have hi1 : (0 : Int) ≤ i + 1 := by omega
    have ha : ¬ (w = a.width ∧ h = a.height) := hno 0 a (by simp)
    have hrest : ∀ (j : Nat) (e : DisplayModeEntry), rest[j]? = some e
        → ¬ (w = e.width ∧ h = e.height) :=
      fun j e hj => hno (j + 1) e (by simpa using hj)
    unfold detectLoop
    rw [if_neg ha]
    by_cases hf : a.flags &&& kDisplayModeDefaultFlag ≠ 0
    · rw [if_pos hf]
      left
      rcases ih (i + 1) (i + 1) hi1 hrest with ⟨j0, e0, h0, hfl, hlast, hres⟩ | ⟨hnone, hres⟩
      · refine ⟨j0 + 1, e0, by simpa using h0, hfl, ?_, ?_⟩
        · intro j2 e2 hlt hj2
          cases j2 with
          | zero => omega
          | succ j3 => exact hlast j3 e2 (by omega) (by simpa using hj2)
        · rw [hres]
          push_cast
          ring
      · refine ⟨0, a, by simp, hf, ?_, ?_⟩
        · intro j2 e2 hlt hj2
          cases j2 with
          | zero => omega
          | succ j3 => exact hnone j3 e2 (by simpa using hj2)
        · rw [hres, if_pos (by omega)]
          simp
    · rw [if_neg hf]
      rcases ih (i + 1) td hi1 hrest with ⟨j0, e0, h0, hfl, hlast, hres⟩ | ⟨hnone, hres⟩
      · left
        refine ⟨j0 + 1, e0, by simpa using h0, hfl, ?_, ?_⟩
        · intro j2 e2 hlt hj2
          cases j2 with
          | zero => omega
          | succ j3 => exact hlast j3 e2 (by omega) (by simpa using hj2)
        · rw [hres]
          push_cast
          ring
      · right
        refine ⟨?_, hres⟩
        intro j e hj
        cases j with
        | zero =>
          simp at hj
          subst hj
          exact not_not.mp hf
        | succ j3 => exact hnone j3 e (by simpa using hj)


theorem drop_one_getElem (l : List DisplayModeEntry) (j : Nat) :
    (l.drop 1)[j]? = l[j + 1]? := by
  rw [List.getElem?_drop, Nat.add_comm]

/-- C12 (counterexample): on a device reporting 800x600, built-in entry 1 of
the sample table has exactly that geometry, yet
`TryDetectCurrentDisplayMode` returns ID 2, whose entry is 1024x768: the
scan starts at the second entry. -/
theorem TryDetect_skips_first_entry :
    sampleTable.modeList[0]? = some ⟨800, 600, 3⟩
    ∧ (sampleCurrent 800 600).svga.currentWidth = 800
    ∧ (sampleCurrent 800 600).svga.currentHeight = 600
    ∧ TryDetectCurrentDisplayMode sampleTable (sampleCurrent 800 600) 3 = 2
    ∧ sampleTable.modeList[((2 : Int) - 1).toNat]? = some ⟨1024, 768, 7⟩ := by
  decide

/-- C12 (amended): for every built-in table and every current width and
height reported by the device, if some built-in entry other than the first
(any of the entries 2..N) has exactly that width and height, then
`TryDetectCurrentDisplayMode` returns the ID of the first such entry, an ID
in 2..N whose entry has the reported geometry, whatever default is
supplied. -/
theorem TryDetect_match (t : ModeTable) (s : VMQemuVGA) (defaultMode : Int) (k : Nat)
    (e : DisplayModeEntry) (hk : 1 ≤ k) (he : t.modeList[k]? = some e)
    (hm : s.svga.currentWidth = e.width ∧ s.svga.currentHeight = e.height) :
    ∃ (k0 : Nat) (e0 : DisplayModeEntry), 1 ≤ k0 ∧ t.modeList[k0]? = some e0
      ∧ (e0.width = s.svga.currentWidth ∧ e0.height = s.svga.currentHeight)
      ∧ (∀ (k2 : Nat) (e2 : DisplayModeEntry), 1 ≤ k2 → k2 < k0 → t.modeList[k2]? = some e2
          → ¬ (s.svga.currentWidth = e2.width ∧ s.svga.currentHeight = e2.height))
      ∧ TryDetectCurrentDisplayMode t s defaultMode = (k0 : Int) + 1
      ∧ (2 ≤ TryDetectCurrentDisplayMode t s defaultMode
          ∧ TryDetectCurrentDisplayMode t s defaultMode ≤ t.NUM_DISPLAY_MODES)
      ∧ ∀ d2 : Int, TryDetectCurrentDisplayMode t s d2
          = TryDetectCurrentDisplayMode t s defaultMode := by
  obtain ⟨j, rfl⟩ : ∃ j, k = j + 1 := ⟨k - 1, by omega⟩
  have hj : (t.modeList.drop 1)[j]? = some e := by rw [drop_one_getElem]; exact he
  obtain ⟨j0, e0, h0, hm0, hmin, hres⟩ :=
    detectLoop_match s.svga.currentWidth s.svga.currentHeight defaultMode
      (t.modeList.drop 1) 1 0 j e hj hm
  rw [drop_one_getElem] at h0
  have hlen : j0 + 1 < t.modeList.length := by
    by_contra hc
    rw [List.getElem?_eq_none (by omega)] at h0
    cases h0
  have hval : TryDetectCurrentDisplayMode t s defaultMode = ((j0 + 1 : Nat) : Int) + 1 := by
    unfold TryDetectCurrentDisplayMode
    rw [hres]
    push_cast
    ring
  refine ⟨j0 + 1, e0, by omega, h0, ⟨hm0.1.symm, hm0.2.symm⟩, ?_, hval, ?_, ?_⟩
  · intro k2 e2 h1 hlt hk2
    obtain ⟨j2, rfl⟩ : ∃ j2, k2 = j2 + 1 := ⟨k2 - 1, by omega⟩
    exact hmin j2 e2 (by omega) (by rw [drop_one_getElem]; exact hk2)
  · rw [hval]
    unfold ModeTable.NUM_DISPLAY_MODES
    constructor <;> omega
  · intro d2
    obtain ⟨j3, e3, h3, _, hmin3, hres3⟩ :=
      detectLoop_match s.svga.currentWidth s.svga.currentHeight d2
        (t.modeList.drop 1) 1 0 j e hj hm
    have hj30 : j3 = j0 := by
      rcases Nat.lt_trichotomy j3 j0 with hlt | heq | hgt
      · rw [drop_one_getElem] at h3
        exact absurd (by assumption) (hmin j3 e3 hlt (by rw [drop_one_getElem]; exact h3))
      · exact heq
      · exact absurd hm0 (hmin3 j0 e0 hgt (by rw [drop_one_getElem]; exact h0))
    rw [hval]
    unfold TryDetectCurrentDisplayMode
    rw [hres3, hj30]
    push_cast
    ring

theorem TryDetect_match_witness :
    (1 ≤ 1 ∧ sampleTable.modeList[1]? = some ⟨1024, 768, 7⟩
      ∧ (sampleCurrent 1024 768).svga.currentWidth = 1024
      ∧ (sampleCurrent 1024 768).svga.currentHeight = 768)
    ∧ TryDetectCurrentDisplayMode sampleTable (sampleCurrent 1024 768) 3 = 2
    ∧ ∃ (k0 : Nat) (e0 : DisplayModeEntry), 1 ≤ k0 ∧ sampleTable.modeList[k0]? = some e0
      ∧ (e0.width = 1024 ∧ e0.height = 768)
      ∧ TryDetectCurrentDisplayMode sampleTable (sampleCurrent 1024 768) 3 = (k0 : Int) + 1 := by
  obtain ⟨k0, e0, h1, h2, h3, _, h5, _⟩ :=
    TryDetect_match sampleTable (sampleCurrent 1024 768) 3 1 ⟨1024, 768, 7⟩ (by decide)
      (by decide) (by decide)
  exact ⟨by decide, by decide, k0, e0, h1, h2, h3, h5⟩

/-- C13 (counterexample): on a device reporting 640x480, which no built-in
entry matches, with a table in which only entry 1 carries the default flag,
`TryDetectCurrentDisplayMode` returns the caller-supplied default 3, whose
entry does not carry the flag; and with the sample table, in which entry 2
carries the flag, a caller-supplied default of 2 is the value returned. -/
theorem TryDetect_default_flag_on_first_entry_ignored :
    (∀ e ∈ sampleTableDefaultFirst.modeList, ¬ (e.width = 640 ∧ e.height = 480))
    ∧ sampleTableDefaultFirst.modeList[0]? = some ⟨800, 600, 7⟩
    ∧ (7 : Nat) &&& kDisplayModeDefaultFlag ≠ 0
    ∧ TryDetectCurrentDisplayMode sampleTableDefaultFirst (sampleCurrent 640 480) 3 = 3
    ∧ sampleTableDefaultFirst.modeList[((3 : Int) - 1).toNat]? = some ⟨1280, 1024, 3⟩
    ∧ (3 : Nat) &&& kDisplayModeDefaultFlag = 0
    ∧ (∀ e ∈ sampleTable.modeList, ¬ (e.width = 640 ∧ e.height = 480))
    ∧ sampleTable.modeList[1]? = some ⟨1024, 768, 7⟩
    ∧ TryDetectCurrentDisplayMode sampleTable (sampleCurrent 640 480) 2 = 2 := by
  decide

/-- C13 (amended): when no built-in entry other than the first (none of the
entries 2..N) matches the reported width and height,
`TryDetectCurrentDisplayMode` returns the ID of the last of the entries 2..N
that carries the default-mode flag if one of them carries it, and returns the
caller-supplied default ID when none of them carries it. -/
theorem TryDetect_fallback (t : ModeTable) (s : VMQemuVGA) (defaultMode : Int)
    (hno : ∀ (k : Nat) (e : DisplayModeEntry), 1 ≤ k → t.modeList[k]? = some e
      → ¬ (s.svga.currentWidth = e.width ∧ s.svga.currentHeight = e.height)) :
    (∃ (k0 : Nat) (e0 : DisplayModeEntry), 1 ≤ k0 ∧ t.modeList[k0]? = some e0
        ∧ e0.flags &&& kDisplayModeDefaultFlag ≠ 0
        ∧ (∀ (k2 : Nat) (e2 : DisplayModeEntry), k0 < k2 → t.modeList[k2]? = some e2
            → e2.flags &&& kDisplayModeDefaultFlag = 0)
        ∧ TryDetectCurrentDisplayMode t s defaultMode = (k0 : Int) + 1)
    ∨ ((∀ (k : Nat) (e : DisplayModeEntry), 1 ≤ k → t.modeList[k]? = some e
          → e.flags &&& kDisplayModeDefaultFlag = 0)
        ∧ TryDetectCurrentDisplayMode t s defaultMode = defaultMode) := by
  have hno2 : ∀ (j : Nat) (e : DisplayModeEntry), (t.modeList.drop 1)[j]? = some e
      → ¬ (s.svga.currentWidth = e.width ∧ s.svga.currentHeight = e.height) := by
    intro j e hj
    rw [drop_one_getElem] at hj
    exact hno (j + 1) e (by omega) hj
  unfold TryDetectCurrentDisplayMode
  rcases detectLoop_fallback s.svga.currentWidth s.svga.currentHeight defaultMode
      (t.modeList.drop 1) 1 0 (by omega) hno2 with ⟨j0, e0, h0, hfl, hlast, hres⟩ | ⟨hnone, hres⟩
  · left
    rw [drop_one_getElem] at h0
    refine ⟨j0 + 1, e0, by omega, h0, hfl, ?_, ?_⟩
    · intro k2 e2 hlt hk2
      obtain ⟨j2, rfl⟩ : ∃ j2, k2 = j2 + 1 := ⟨k2 - 1, by omega⟩
      exact hlast j2 e2 (by omega) (by rw [drop_one_getElem]; exact hk2)
    · rw [hres]
      push_cast
      ring
  · right
    refine ⟨?_, ?_⟩
    · intro k e hk hke
      obtain ⟨j, rfl⟩ : ∃ j, k = j + 1 := ⟨k - 1, by omega⟩
      exact hnone j e (by rw [drop_one_getElem]; exact hke)
    · rw [hres]
      simp


theorem TryDetect_fallback_witness :
    (∀ (k : Nat) (e : DisplayModeEntry), 1 ≤ k → sampleTable.modeList[k]? = some e
      → ¬ ((sampleCurrent 640 480).svga.currentWidth = e.width
          ∧ (sampleCurrent 640 480).svga.currentHeight = e.height))
    ∧ TryDetectCurrentDisplayMode sampleTable (sampleCurrent 640 480) 3 = 2
    ∧ ((∃ (k0 : Nat) (e0 : DisplayModeEntry), 1 ≤ k0 ∧ sampleTable.modeList[k0]? = some e0
          ∧ e0.flags &&& kDisplayModeDefaultFlag ≠ 0
          ∧ (∀ (k2 : Nat) (e2 : DisplayModeEntry), k0 < k2 → sampleTable.modeList[k2]? = some e2
              → e2.flags &&& kDisplayModeDefaultFlag = 0)
          ∧ TryDetectCurrentDisplayMode sampleTable (sampleCurrent 640 480) 3 = (k0 : Int) + 1)
      ∨ ((∀ (k : Nat) (e : DisplayModeEntry), 1 ≤ k → sampleTable.modeList[k]? = some e
            → e.flags &&& kDisplayModeDefaultFlag = 0)
          ∧ TryDetectCurrentDisplayMode sampleTable (sampleCurrent 640 480) 3 = 3)) := by
  have hno : ∀ (k : Nat) (e : DisplayModeEntry), 1 ≤ k → sampleTable.modeList[k]? = some e
      → ¬ ((sampleCurrent 640 480).svga.currentWidth = e.width
          ∧ (sampleCurrent 640 480).svga.currentHeight = e.height) := by
    intro k e _ he
    have hmem := List.getElem?_mem he
    have hall : ∀ e2 ∈ sampleTable.modeList,
        ¬ ((sampleCurrent 640 480).svga.currentWidth = e2.width
          ∧ (sampleCurrent 640 480).svga.currentHeight = e2.height) := by decide
    exact hall e hmem
  exact ⟨hno, by decide, TryDetect_fallback sampleTable (sampleCurrent 640 480) 3 hno⟩


/-! ## The mode-selection loop of `start` -/

theorem selectModesLoop_acc (mw mh : Nat) :
    ∀ (entries : List DisplayModeEntry) (i : Nat) (modes : List Int),
      selectModesLoop mw mh entries i modes = modes ++ selectModesLoop mw mh entries i [] := by
  intro entries
  induction entries with
  | nil =>
    intro i modes
    simp [selectModesLoop]
  | cons e rest ih =>
    intro i modes
    unfold selectModesLoop
    split_ifs
    · rw [ih (i + 1) (modes ++ [(i : Int) + 1]), ih (i + 1) ([] ++ [(i : Int) + 1])]
      simp
    · exact ih (i + 1) modes

theorem selectModesLoop_cons (mw mh : Nat) (e : DisplayModeEntry) (rest : List DisplayModeEntry)
    (i : Nat) :
    selectModesLoop mw mh (e :: rest) i []
      = (if e.width ≤ mw ∧ e.height ≤ mh then [(i : Int) + 1] else [])
        ++ selectModesLoop mw mh rest (i + 1) [] := by
  conv_lhs => unfold selectModesLoop
  split_ifs
  · rw [selectModesLoop_acc]
    simp
  · simp

theorem selectModesLoop_mem (mw mh : Nat) :
    ∀ (entries : List DisplayModeEntry) (i : Nat) (id : Int),
      id ∈ selectModesLoop mw mh entries i [] ↔
        ∃ (j : Nat) (e : DisplayModeEntry), entries[j]? = some e
          ∧ id = ((i + j : Nat) : Int) + 1 ∧ e.width ≤ mw ∧ e.height ≤ mh := by
  intro entries
  induction entries with
  | nil =>
    intro i id
    simp [selectModesLoop]
  | cons a rest ih =>
    intro i id
    rw [selectModesLoop_cons, List.mem_append, ih]
    constructor
    · rintro (h | ⟨j, e, hj, hid, hf⟩)
      · split_ifs at h with hfa
        · simp at h
          exact ⟨0, a, by simp, by simp [h], hfa.1, hfa.2⟩
        · simp at h
      · exact ⟨j + 1, e, by simpa using hj, by rw [hid]; push_cast; ring, hf.1, hf.2⟩
    · rintro ⟨j, e, hj, hid, hf1, hf2⟩
      cases j with
      | zero =>
        left
        simp at hj
        subst hj
        rw [if_pos ⟨hf1, hf2⟩]
        simp [hid]
      | succ j2 =>
        right
        exact ⟨j2, e, by simpa using hj, by rw [hid]; push_cast; ring, hf1, hf2⟩

theorem selectModesLoop_pairwise (mw mh : Nat) :
    ∀ (entries : List DisplayModeEntry) (i : Nat),
      (selectModesLoop mw mh entries i []).Pairwise (fun a b => a < b) := by
  intro entries
  induction entries with
  | nil =>
    intro i
    simp [selectModesLoop]
  | cons a rest ih =>
    intro i
    rw [selectModesLoop_cons]
    split_ifs
    · rw [List.singleton_append, List.pairwise_cons]
      refine ⟨?_, ih (i + 1)⟩
      intro b hb
      obtain ⟨j, e, _, hid, _⟩ := (selectModesLoop_mem mw mh rest (i + 1) b).mp hb
      rw [hid]
      push_cast
      omega
    · simpa using ih (i + 1)

theorem selectModesLoop_length (mw mh : Nat) :
    ∀ (entries : List DisplayModeEntry) (i : Nat),
      (selectModesLoop mw mh entries i []).length
        = entries.countP (fun e => decide (e.width ≤ mw ∧ e.height ≤ mh)) := by
  intro entries
  induction entries with
  | nil =>
    intro i
    simp [selectModesLoop]
  | cons a rest ih =>
    intro i
    rw [selectModesLoop_cons, List.length_append, ih (i + 1), List.countP_cons]
    by_cases hf : a.width ≤ mw ∧ a.height ≤ mh
    · simp [hf]
      omega
    · simp [hf]


/-! ## Start -/

theorem Cleanup_frame (s : VMQemuVGA) :
    (Cleanup s).m_modes = s.m_modes ∧ (Cleanup s).m_restore_call = false
    ∧ (Cleanup s).m_iolock = false ∧ FBEffect.svgaCleanup ∈ (Cleanup s).trace := by
  unfold Cleanup
  cases h1 : s.m_restore_call <;> cases h2 : s.m_iolock <;> simp [h1, h2]

theorem start_fail_fst (s : VMQemuVGA) : (start_fail s).1 = false := rfl

theorem createMockVirtIOGPUDevice_modes (s : VMQemuVGA) (env : AccelEnv) :
    (createMockVirtIOGPUDevice s env).2.m_modes = s.m_modes := by
  unfold createMockVirtIOGPUDevice
  dsimp only
  split_ifs <;> rfl

theorem initializeDetectedVirtIOGPU_modes (s : VMQemuVGA) :
    (initializeDetectedVirtIOGPU s).2.m_modes = s.m_modes := by
  unfold initializeDetectedVirtIOGPU
  cases s.m_gpu_device <;> rfl

theorem queryVirtIOGPUCapabilities_modes (s : VMQemuVGA) :
    (queryVirtIOGPUCapabilities s).2.m_modes = s.m_modes := by
  unfold queryVirtIOGPUCapabilities
  cases s.m_gpu_device <;> rfl

theorem configureVirtIOGPUOptimalSettings_modes (s : VMQemuVGA) :
    (configureVirtIOGPUOptimalSettings s).2.m_modes = s.m_modes := by
  unfold configureVirtIOGPUOptimalSettings
  cases s.m_gpu_device <;> rfl

theorem init3DAcceleration_modes (s : VMQemuVGA) (env : AccelEnv) :
    (init3DAcceleration s env).2.m_modes = s.m_modes := by
  unfold init3DAcceleration
  dsimp only
  by_cases h1 : boolToIOReturn (scanForVirtIOGPUDevices s) ≠ kIOReturnSuccess
  · rw [if_pos h1]
    exact createMockVirtIOGPUDevice_modes s env
  rw [if_neg h1]
  by_cases h2 : boolToIOReturn (initializeDetectedVirtIOGPU s).1 ≠ kIOReturnSuccess
  · rw [if_pos h2, createMockVirtIOGPUDevice_modes, initializeDetectedVirtIOGPU_modes]
  rw [if_neg h2]
  by_cases h3 : env.gpuAlloc = false
  · rw [if_pos h3]
    simp only [configureVirtIOGPUOptimalSettings_modes, queryVirtIOGPUCapabilities_modes,
      initializeDetectedVirtIOGPU_modes]
  rw [if_neg h3]
  by_cases h4 : env.gpuInit = false
  · rw [if_pos h4]
    simp only [configureVirtIOGPUOptimalSettings_modes, queryVirtIOGPUCapabilities_modes,
      initializeDetectedVirtIOGPU_modes]
  rw [if_neg h4]
  by_cases h5 : env.accelAlloc = false
  · rw [if_pos h5]
    simp only [configureVirtIOGPUOptimalSettings_modes, queryVirtIOGPUCapabilities_modes,
      initializeDetectedVirtIOGPU_modes]
  rw [if_neg h5]
  by_cases h6 : env.accelInit = false
  · rw [if_pos h6]
    simp only [configureVirtIOGPUOptimalSettings_modes, queryVirtIOGPUCapabilities_modes,
      initializeDetectedVirtIOGPU_modes]
  rw [if_neg h6]
  by_cases h7 : env.accelInitSecond = false
  · rw [if_pos h7]
    simp only [cleanup3DAcceleration, configureVirtIOGPUOptimalSettings_modes,
      queryVirtIOGPUCapabilities_modes, initializeDetectedVirtIOGPU_modes]
  rw [if_neg h7]
  by_cases h8 : env.accelAttach = false
  · rw [if_pos h8]
    simp only [cleanup3DAcceleration, configureVirtIOGPUOptimalSettings_modes,
      queryVirtIOGPUCapabilities_modes, initializeDetectedVirtIOGPU_modes]
  rw [if_neg h8]
  by_cases h9 : env.accelStart = false
  · rw [if_pos h9]
    simp only [cleanup3DAcceleration, configureVirtIOGPUOptimalSettings_modes,
      queryVirtIOGPUCapabilities_modes, initializeDetectedVirtIOGPU_modes]
  rw [if_neg h9]
  simp only [configureVirtIOGPUOptimalSettings_modes, queryVirtIOGPUCapabilities_modes,
    initializeDetectedVirtIOGPU_modes]

theorem start_finish_fst (t : ModeTable) (accelOk : Bool) (s : VMQemuVGA) (lockAlloc : Bool) :
    (start_finish t accelOk s lockAlloc).1 = lockAlloc := by
  unfold start_finish
  cases lockAlloc <;> simp [start_fail]

theorem start_finish_modes (t : ModeTable) (accelOk : Bool) (s : VMQemuVGA) (lockAlloc : Bool) :
    (start_finish t accelOk s lockAlloc).2.m_modes = s.m_modes := by
  unfold start_finish
  cases lockAlloc <;> cases accelOk <;> simp [start_fail, (Cleanup_frame _).1]

/-- The ways `start` can end, by the step that decides it. -/
theorem start_cases (t : ModeTable) (s : VMQemuVGA) (provider : Option IOPCIDevice)
    (env : StartEnv) :
    ((provider = none ∨ env.superStart = false) ∧ start t s provider env = (false, s))
    ∨ (provider ≠ none ∧ env.superStart = true
        ∧ (env.svgaStart = false ∨ (selectModes t s).length ≤ 2)
        ∧ ∃ x, start t s provider env = start_fail x)
    ∨ (provider ≠ none ∧ env.superStart = true ∧ env.svgaStart = true
        ∧ 2 < (selectModes t s).length
        ∧ ∃ accelOk x, x.m_modes = selectModes t s
            ∧ start t s provider env = start_finish t accelOk x env.lockAlloc) := by
  unfold start
  cases provider with
  | none => left; exact ⟨Or.inl rfl, rfl⟩
  | some p =>
    dsimp only
    by_cases h1 : env.superStart = false
    · left
      rw [if_pos h1]
      exact ⟨Or.inr h1, rfl⟩
    · right
      rw [if_neg h1]
      have h1t : env.superStart = true := by simpa using h1
      by_cases h2 : env.svgaStart = false
      · left
        rw [if_pos h2]
        exact ⟨by simp, h1t, Or.inl h2, _, rfl⟩
      · rw [if_neg h2]
        have h2t : env.svgaStart = true := by simpa using h2
        split_ifs with h3
        · left
          exact ⟨by simp, h1t, Or.inr h3, _, rfl⟩
        · right
          refine ⟨by simp, h1t, h2t, Nat.lt_of_not_le h3, _, _, ?_, rfl⟩
          rw [init3DAcceleration_modes]
          rfl


theorem selectModes_length (t : ModeTable) (s : VMQemuVGA) :
    (selectModes t s).length = fittingCount t s := by
  unfold selectModes fittingCount
  exact selectModesLoop_length _ _ _ _

theorem start_fst_iff (t : ModeTable) (s : VMQemuVGA) (provider : Option IOPCIDevice)
    (env : StartEnv) :
    (start t s provider env).1 = true ↔
      (provider ≠ none ∧ env.superStart = true ∧ env.svgaStart = true
        ∧ 2 < fittingCount t s ∧ env.lockAlloc = true) := by
  rw [← selectModes_length]
  rcases start_cases t s provider env with ⟨h, he⟩ | ⟨hp, h1, h, x, he⟩ | ⟨hp, h1, h2, h3, ok, x, _, he⟩
  · rw [he]
    constructor
    · intro hf
      cases hf
    · rintro ⟨hp, h1, _⟩
      rcases h with h | h
      · exact absurd h hp
      · rw [h] at h1
        cases h1
  · rw [he, start_fail_fst]
    constructor
    · intro hf
      cases hf
    · rintro ⟨_, _, h2, h3, _⟩
      rcases h with h | h
      · rw [h] at h2
        cases h2
      · omega
  · rw [he, start_finish_fst]
    exact ⟨fun hl => ⟨hp, h1, h2, h3, hl⟩, fun hh => hh.2.2.2.2⟩

/-- C14 (counterexample): with a provider that is not a PCI device, on a
device on which no built-in entry fits, `start` returns false and leaves the
state as it was: `Cleanup` has not run. -/
theorem start_not_pci_returns_without_cleanup :
    fittingCount sampleTable sampleSmall ≤ 2
    ∧ start sampleTable sampleSmall none sampleStartEnv = (false, sampleSmall)
    ∧ FBEffect.svgaCleanup ∉ (start sampleTable sampleSmall none sampleStartEnv).2.trace := by
  decide

/-- C14 (amended): if `start` returns true then the active-mode count is
greater than 2; and whenever at most 2 built-in entries fit within the
device maximum, `start` returns false whatever the other steps return: after
running `Cleanup` (and `super::stop`) when the provider is a PCI device and
`super::start` succeeded, and with the state untouched otherwise. -/
theorem start_minimum_modes (t : ModeTable) (s : VMQemuVGA) (provider : Option IOPCIDevice)
    (env : StartEnv) :
    ((start t s provider env).1 = false ∨ 2 < (start t s provider env).2.m_modes.length)
    ∧ (2 < fittingCount t s
      ∨ ((start t s provider env).1 = false
        ∧ (((provider = none ∨ env.superStart = false) ∧ (start t s provider env).2 = s)
          ∨ (provider ≠ none ∧ env.superStart = true
            ∧ ∃ x, (start t s provider env).2
                = { Cleanup x with trace := (Cleanup x).trace ++ [FBEffect.superStop] })))) := by
  rcases start_cases t s provider env with ⟨h, he⟩ | ⟨hp, h1, h, x, he⟩ | ⟨hp, h1, h2, h3, ok, x, hx, he⟩
  · rw [he]
    exact ⟨Or.inl rfl, Or.inr ⟨rfl, Or.inl ⟨h, rfl⟩⟩⟩
  · rw [he]
    exact ⟨Or.inl rfl, Or.inr ⟨rfl, Or.inr ⟨hp, h1, x, rfl⟩⟩⟩
  · rw [he]
    refine ⟨?_, Or.inl (by rw [← selectModes_length]; exact h3)⟩
    cases hl : env.lockAlloc with
    | false =>
      left
      rw [start_finish_fst]
    | true =>
      right
      rw [start_finish_modes, hx]
      exact h3

/-- C15: the mode-selection loop of `start` produces exactly the strictly
increasing sequence of the IDs i+1 whose built-in entry i fits within the
device maximum in width and in height: the list is strictly increasing, an
ID is in it if and only if it is i+1 for a fitting entry i, and its length
is the number of fitting entries; this is the active-mode list of a
successful `start`. -/
theorem start_active_mode_set (t : ModeTable) (s : VMQemuVGA) (provider : Option IOPCIDevice)
    (env : StartEnv) :
    (selectModes t s).Pairwise (fun a b => a < b)
    ∧ (∀ id : Int, id ∈ selectModes t s ↔
        ∃ (i : Nat) (e : DisplayModeEntry), t.modeList[i]? = some e ∧ id = (i : Int) + 1
          ∧ e.width ≤ s.svga.maxWidth ∧ e.height ≤ s.svga.maxHeight)
    ∧ (selectModes t s).length = fittingCount t s
    ∧ ((start t s provider env).1 = false
      ∨ (start t s provider env).2.m_modes = selectModes t s) := by
  refine ⟨selectModesLoop_pairwise _ _ _ _, ?_, selectModes_length t s, ?_⟩
  · intro id
    unfold selectModes
    rw [selectModesLoop_mem]
    simp only [Nat.zero_add]
  · rcases start_cases t s provider env with ⟨_, he⟩ | ⟨_, _, _, x, he⟩ | ⟨_, _, _, _, ok, x, hx, he⟩
    · left
      rw [he]
    · left
      rw [he]
      rfl
    · right
      rw [he, start_finish_modes, hx]

/-- C20: the value `start` returns does not depend on the 3D bring-up: it is
true exactly when the provider is a PCI device, `super::start` and
`svga.Start` succeed, more than 2 modes are usable and the lock is
allocated; it is the same for every device identity and every outcome of the
allocations and calls of `init3DAcceleration`, and the statements after
`init3DAcceleration` return the same value whichever result it gave. -/
theorem start_result_independent_of_acceleration (t : ModeTable) (s : VMQemuVGA)
    (provider : Option IOPCIDevice) (env : StartEnv) :
    ((start t s provider env).1 = true ↔
      (provider ≠ none ∧ env.superStart = true ∧ env.svgaStart = true
        ∧ 2 < fittingCount t s ∧ env.lockAlloc = true))
    ∧ (∀ (accel2 : AccelEnv) (identity : Option IOPCIDevice),
        (start t { s with svga := { s.svga with provider := identity } } provider
          { env with accel := accel2 }).1 = (start t s provider env).1)
    ∧ (∀ (accelOk : Bool) (x : VMQemuVGA),
        (start_finish t accelOk x env.lockAlloc).1
          = (start_finish t (!accelOk) x env.lockAlloc).1) := by
  refine ⟨start_fst_iff t s provider env, ?_, ?_⟩
  · intro accel2 identity
    rw [Bool.eq_iff_iff, start_fst_iff, start_fst_iff]
    rfl
  · intro accelOk x
    rw [start_finish_fst, start_finish_fst]


/-! ## Rejected calls of `CustomMode` -/

/-- C16: `CustomMode` returns the unsupported status whenever the
deferred-restore callback was not allocated, whatever its arguments;
otherwise it returns the bad-argument status when the input buffer is null,
the input size is smaller than the record, the output buffer is null, or the
output-size pointer is null or names a size smaller than the record.  In
each of these calls the driver state at return is the state at entry, trace
included, and nothing is written to the output buffer. -/
theorem CustomMode_rejection (t : ModeTable) (s : VMQemuVGA) (inData : Option CustomModeData)
    (outData : Bool) (inSize : Nat) (outSize : Option Nat) (env : List DriverCall)
    (h : s.m_restore_call = false ∨ inData = none ∨ inSize < sizeofCustomModeData
      ∨ outData = false ∨ outSize = none
      ∨ ∃ n, outSize = some n ∧ n < sizeofCustomModeData) :
    CustomMode t s inData outData inSize outSize env
      = CustomModeOutcome.returned
          (if s.m_restore_call = false then kIOReturnUnsupported else kIOReturnBadArgument)
          none s := by
  unfold CustomMode
  by_cases h1 : s.m_restore_call = false
  · rw [if_pos h1, if_pos h1]
  rw [if_neg h1, if_neg h1]
  cases inData with
  | none => rfl
  | some inD =>
    dsimp only
    by_cases h2 : inSize < sizeofCustomModeData
    · rw [if_pos h2]
    rw [if_neg h2]
    by_cases h3 : outData = false
    · rw [if_pos h3]
    rw [if_neg h3]
    cases outSize with
    | none => simp
    | some n =>
      dsimp only
      by_cases h4 : n < sizeofCustomModeData
      · rw [if_pos (by simpa using h4)]
      · exfalso
        rcases h with h | h | h | h | h | ⟨m, hm, hlt⟩
        · exact h1 h
        · cases h
        · exact h2 h
        · exact h3 h
        · cases h
        · injection hm with hm
          subst hm
          exact h4 hlt

theorem CustomMode_rejection_witness :
    (({ sampleDriver none with m_restore_call := false } : VMQemuVGA).m_restore_call = false
      ∧ CustomMode sampleTable { sampleDriver none with m_restore_call := false }
          (some ⟨1, 1280, 1024⟩) true 12 (some 12) (sampleAck sampleTable)
        = CustomModeOutcome.returned kIOReturnUnsupported none
            { sampleDriver none with m_restore_call := false })
    ∧ ((∃ n, (some 11 : Option Nat) = some n ∧ n < sizeofCustomModeData)
      ∧ CustomMode sampleTable (sampleDriver none) (some ⟨1, 1280, 1024⟩) true 12 (some 11)
          (sampleAck sampleTable)
        = CustomModeOutcome.returned kIOReturnBadArgument none (sampleDriver none)) :=
  ⟨⟨rfl, CustomMode_rejection sampleTable { sampleDriver none with m_restore_call := false }
      (some ⟨1, 1280, 1024⟩) true 12 (some 12) (sampleAck sampleTable) (Or.inl rfl)⟩,
    ⟨⟨11, rfl, by decide⟩, CustomMode_rejection sampleTable (sampleDriver none)
      (some ⟨1, 1280, 1024⟩) true 12 (some 11) (sampleAck sampleTable)
      (Or.inr (Or.inr (Or.inr (Or.inr (Or.inr ⟨11, rfl, by decide⟩)))))⟩⟩

/-! ## Memory ranges -/

/-- C17: `getVRAMRange` returns null when VRAM was not mapped; otherwise it
returns a non-null reference to a range that begins at offset 0 of the
mapped VRAM and whose length is the minimum of the VRAM size the device
reports and the length of the mapped range (the mapped range itself, or the
sub-range requested from `IODeviceMemory::withSubRange`). -/
theorem getVRAMRange_spec (s : VMQemuVGA) :
    match s.m_vram with
    | none => getVRAMRange s = IODeviceMemoryRef.null
    | some length =>
      getVRAMRange s ≠ IODeviceMemoryRef.null
      ∧ (getVRAMRange s).range length = some (0, min s.svga.vramSize length) := by
  unfold getVRAMRange
  cases hv : s.m_vram with
  | none => rfl
  | some length =>
    dsimp only
    by_cases hge : s.svga.vramSize ≥ length
    · rw [if_pos hge]
      refine ⟨by simp, ?_⟩
      simp only [IODeviceMemoryRef.range]
      rw [Nat.min_eq_right hge]
    · rw [if_neg hge]
      refine ⟨by simp, ?_⟩
      simp only [IODeviceMemoryRef.range]
      rw [Nat.min_eq_left (by omega)]

/-- C18: for every aperture other than the system aperture `getApertureRange`
returns null and leaves the state as it was, trace included (no lock taken,
no device query); for the system aperture with VRAM mapped it takes the
lock, reads the current framebuffer offset and size, releases the lock, and
returns what `IODeviceMemory::withSubRange` gives for exactly that offset
and size of the mapped VRAM. -/
theorem getApertureRange_spec (s : VMQemuVGA) (aperture : Int) :
    (aperture = kIOFBSystemAperture ∨ getApertureRange s aperture = (IODeviceMemoryRef.null, s))
    ∧ (aperture ≠ kIOFBSystemAperture ∨ s.m_vram = none
      ∨ getApertureRange s aperture
        = (IODeviceMemoryRef.subRange s.svga.currentFBOffset s.svga.currentFBSize,
            { s with trace := s.trace ++ [FBEffect.lockLock, FBEffect.svgaGetCurrentFBOffset,
                FBEffect.svgaGetCurrentFBSize, FBEffect.lockUnlock] })) := by
  unfold getApertureRange
  by_cases ha : aperture = kIOFBSystemAperture
  · refine ⟨Or.inl ha, ?_⟩
    rw [if_neg (by simpa using ha)]
    cases hv : s.m_vram with
    | none => exact Or.inr (Or.inl rfl)
    | some length => exact Or.inr (Or.inr rfl)
  · exact ⟨Or.inr (by rw [if_pos ha]), Or.inl ha⟩

/-! ## The fallback chain of `init3DAcceleration` -/

theorem init3DAcceleration_of_recognized (s : VMQemuVGA) (env : AccelEnv)
    (h : scanForVirtIOGPUDevices s = true) :
    init3DAcceleration s env = createMockVirtIOGPUDevice s env := by
  unfold init3DAcceleration
  simp [h, boolToIOReturn, kIOReturnSuccess]

/-- C19 (evaluation at the failing input): for every device that the scan
recognizes `init3DAcceleration` is the call of `createMockVirtIOGPUDevice`;
for the recognized identity (0x1AF4, 0x1050) it does nothing else, while for
the identity (0x1B36, 0x0100), which the scan does not recognize and for
which `initializeDetectedVirtIOGPU` returns false, it never calls
`createMockVirtIOGPUDevice` and goes on to the capability query, the
settings step and the creation of the real device and accelerator. -/
theorem init3DAcceleration_recognized_device_takes_mock_path :
    (∀ (s : VMQemuVGA) (env : AccelEnv), scanForVirtIOGPUDevices s = false
      ∨ init3DAcceleration s env = createMockVirtIOGPUDevice s env)
    ∧ scanForVirtIOGPUDevices (sampleDriver (some ⟨some 0x1AF4, some 0x1050, none, none⟩)) = true
    ∧ (init3DAcceleration (sampleDriver (some ⟨some 0x1AF4, some 0x1050, none, none⟩))
        sampleStartEnv.accel).2.trace = [FBEffect.createMock]
    ∧ scanForVirtIOGPUDevices (sampleDriver (some ⟨some 0x1B36, some 0x0100, none, none⟩)) = false
    ∧ (initializeDetectedVirtIOGPU
        (sampleDriver (some ⟨some 0x1B36, some 0x0100, none, none⟩))).1 = false
    ∧ (init3DAcceleration (sampleDriver (some ⟨some 0x1B36, some 0x0100, none, none⟩))
        sampleStartEnv.accel).2.trace
      = [FBEffect.initializeDetected, FBEffect.queryCapabilities,
          FBEffect.configureOptimalSettings, FBEffect.gpuDeviceAlloc,
          FBEffect.configureOptimalSettings, FBEffect.acceleratorAlloc] := by
  refine ⟨?_, by decide, by decide, by decide, by decide, by decide⟩
  intro s env
  cases h : scanForVirtIOGPUDevices s with
  | false => exact Or.inl rfl
  | true => exact Or.inr (init3DAcceleration_of_recognized s env h)


/-! ## Failed start and the 3D handles -/

/-- C21 (evaluation at the failing input): for a PCI device that the scan
does not recognize, with every step of `start` succeeding except
`IOLockAlloc`, `start` returns false after `Cleanup`: the restore-call handle
and the lock handle are null and the bus-level device is cleaned up, but the
GPU device handle and the accelerator handle that `init3DAcceleration`
created are still non-null and `cleanup3DAcceleration` has not been called,
whereas `stop` on the started driver leaves both null. -/
theorem start_lock_failure_keeps_3d_handles :
    (start sampleTable sampleQXL (some ⟨some 0x1B36, some 0x0100, none, none⟩)
      { sampleStartEnv with lockAlloc := false }).1 = false
    ∧ (start sampleTable sampleQXL (some ⟨some 0x1B36, some 0x0100, none, none⟩)
      { sampleStartEnv with lockAlloc := false }).2.m_restore_call = false
    ∧ (start sampleTable sampleQXL (some ⟨some 0x1B36, some 0x0100, none, none⟩)
      { sampleStartEnv with lockAlloc := false }).2.m_iolock = false
    ∧ FBEffect.svgaCleanup ∈ (start sampleTable sampleQXL
        (some ⟨some 0x1B36, some 0x0100, none, none⟩)
        { sampleStartEnv with lockAlloc := false }).2.trace
    ∧ (start sampleTable sampleQXL (some ⟨some 0x1B36, some 0x0100, none, none⟩)
      { sampleStartEnv with lockAlloc := false }).2.m_gpu_device
        = some ⟨1, 1920, 1080, true, true, false⟩
    ∧ (start sampleTable sampleQXL (some ⟨some 0x1B36, some 0x0100, none, none⟩)
      { sampleStartEnv with lockAlloc := false }).2.m_accelerator = true
    ∧ FBEffect.cleanup3D ∉ (start sampleTable sampleQXL
        (some ⟨some 0x1B36, some 0x0100, none, none⟩)
        { sampleStartEnv with lockAlloc := false }).2.trace
    ∧ (stop sampleTable sampleStarted true).m_gpu_device = none
    ∧ (stop sampleTable sampleStarted true).m_accelerator = false := by
  decide

/-! ## Rejected and accepted calls of `setDisplayMode` -/

theorem GetDisplayMode_eq_none_iff (t : ModeTable) (s : VMQemuVGA) (displayMode : Int) :
    GetDisplayMode t s displayMode = none ↔ ¬ modeResolves t displayMode := by
  unfold GetDisplayMode modeResolves
  by_cases hc : displayMode = t.CUSTOM_MODE_ID
  · rw [if_pos hc]
    simp [hc]
  · rw [if_neg hc]
    by_cases hr : 1 ≤ displayMode ∧ displayMode ≤ t.NUM_DISPLAY_MODES
    · rw [if_pos hr]
      have hlt : (displayMode - 1).toNat < t.modeList.length := by
        have h2 := hr.2
        unfold ModeTable.NUM_DISPLAY_MODES at h2
        omega
      rw [List.getElem?_eq_getElem hlt]
      simp [hr]
    · rw [if_neg hr]
      simp [hc, hr]

/-- C25: `setDisplayMode` returns the bad-argument status, leaving the whole
driver state as it was (current mode, depth mode, custom-live flag, custom
slot, and the trace: no lock, no `SetMode`), when the depth index is non-zero
or the mode ID is neither the sentinel nor in 1..NUM_DISPLAY_MODES; for every
other call, a resolvable ID with depth 0, it returns success and the current
display mode becomes that ID with depth mode 0. -/
theorem setDisplayMode_rejection (t : ModeTable) (s : VMQemuVGA) (displayMode depth : Int) :
    ((depth ≠ 0 ∨ ¬ modeResolves t displayMode)
      ∧ setDisplayMode t s displayMode depth = (kIOReturnBadArgument, s))
    ∨ ((depth = 0 ∧ modeResolves t displayMode)
      ∧ (setDisplayMode t s displayMode depth).1 = kIOReturnSuccess
      ∧ (setDisplayMode t s displayMode depth).2.m_display_mode = displayMode
      ∧ (setDisplayMode t s displayMode depth).2.m_depth_mode = 0) := by
  unfold setDisplayMode
  by_cases hd : depth ≠ 0
  · left
    rw [if_pos hd]
    exact ⟨Or.inl hd, rfl⟩
  · rw [if_neg hd]
    cases hg : GetDisplayMode t s displayMode with
    | none =>
      left
      exact ⟨Or.inr ((GetDisplayMode_eq_none_iff t s displayMode).mp hg), rfl⟩
    | some dme =>
      right
      have hres : modeResolves t displayMode := by
        by_contra hn
        rw [(GetDisplayMode_eq_none_iff t s displayMode).mpr hn] at hg
        cases hg
      refine ⟨⟨not_not.mp hd, hres⟩, ?_⟩
      dsimp only
      split_ifs <;> exact ⟨rfl, rfl, rfl⟩

/-! ## Mode enumeration -/

/-- C26: while the mode-switch state is non-zero `getDisplayModeCount`
returns 1 and `getDisplayModes` writes exactly the sentinel; while it is 0
`getDisplayModeCount` returns the active-mode count and `getDisplayModes`
writes the active-mode list in order.  The number of IDs written equals the
count returned in the same state, and neither call changes the driver
state. -/
theorem mode_enumeration_override (t : ModeTable) (s : VMQemuVGA) :
    ((s.m_custom_switch ≠ 0 ∧ getDisplayModeCount s = 1
        ∧ getDisplayModes t s true = (kIOReturnSuccess, some [t.CUSTOM_MODE_ID]))
      ∨ (s.m_custom_switch = 0 ∧ getDisplayModeCount s = s.m_modes.length
        ∧ getDisplayModes t s true = (kIOReturnSuccess, some s.m_modes)))
    ∧ (∃ ids, (getDisplayModes t s true).2 = some ids ∧ ids.length = getDisplayModeCount s)
    ∧ applyApi t s (ApiCall.getDisplayModes true) = s
    ∧ applyApi t s ApiCall.getDisplayModeCount = s := by
  have hb : ¬ (true = false) := by decide
  refine ⟨?_, ?_, rfl, rfl⟩
  · unfold getDisplayModeCount getDisplayModes
    rw [if_neg hb]
    by_cases h : s.m_custom_switch ≠ 0
    · rw [if_pos h, if_pos h]
      exact Or.inl ⟨h, rfl, rfl⟩
    · rw [if_neg h, if_neg h]
      exact Or.inr ⟨not_not.mp h, rfl, rfl⟩
  · unfold getDisplayModeCount getDisplayModes
    rw [if_neg hb]
    by_cases h : s.m_custom_switch ≠ 0
    · rw [if_pos h, if_pos h]
      exact ⟨[t.CUSTOM_MODE_ID], rfl, rfl⟩
    · rw [if_neg h, if_neg h]
      exact ⟨s.m_modes, rfl, rfl⟩

/-! ## Probe and scan -/

/-- C28 (counterexample): `probe` accepts the pair (0x1b36, 0x0100) with
score 90000, and the scan does not recognize that pair when the subsystem
properties are absent. -/
theorem probe_accepts_pair_scan_rejects :
    probe true (some 0x01001b36) = some 90000
    ∧ (0x01001b36 &&& 0xFFFF = 0x1b36 ∧ (0x01001b36 >>> 16) &&& 0xFFFF = 0x0100)
    ∧ scanForVirtIOGPUDevices (sampleDriver (some ⟨some 0x1b36, some 0x0100, none, none⟩))
      = false := by
  decide

/-- C28 (amended): `probe` accepts exactly the pairs (0x1b36, 0x0100), with
score 90000, and (0x1af4, 0x1050), with score 95000.  The scan recognizes
(0x1af4, 0x1050) for every subsystem vendor and subsystem ID, and recognizes
(0x1b36, 0x0100) exactly when the subsystem vendor is 0x1414 and the
subsystem ID lies in 0xDDA0..0xDDAF. -/
theorem probe_accepted_pairs_and_scan (superProbe : Bool) (provider : Option Nat) (score : Nat)
    (hacc : probe superProbe provider = some score) :
    ∃ config, provider = some config
      ∧ ((config &&& 0xFFFF = 0x1b36 ∧ (config >>> 16) &&& 0xFFFF = 0x0100 ∧ score = 90000
          ∧ ∀ (s : VMQemuVGA) (sv ss : Option Nat),
              (scanForVirtIOGPUDevices
                { s with svga := { s.svga with
                    provider := some ⟨some 0x1b36, some 0x0100, sv, ss⟩ } } = true
              ↔ (unsigned16BitValueOr0 sv = 0x1414 ∧ 0xDDA0 ≤ unsigned16BitValueOr0 ss
                  ∧ unsigned16BitValueOr0 ss ≤ 0xDDAF)))
        ∨ (config &&& 0xFFFF = 0x1af4 ∧ (config >>> 16) &&& 0xFFFF = 0x1050 ∧ score = 95000
          ∧ ∀ (s : VMQemuVGA) (sv ss : Option Nat),
              scanForVirtIOGPUDevices
                { s with svga := { s.svga with
                    provider := some ⟨some 0x1af4, some 0x1050, sv, ss⟩ } } = true)) := by
  unfold probe at hacc
  by_cases hs : superProbe = false
  · rw [if_pos hs] at hacc
    cases hacc
  rw [if_neg hs] at hacc
  cases provider with
  | none => cases hacc
  | some config =>
    refine ⟨config, rfl, ?_⟩
    dsimp only at hacc
    by_cases h1 : config &&& 0xFFFF = 0x1b36 ∧ (config >>> 16) &&& 0xFFFF = 0x0100
    · left
      rw [if_pos h1] at hacc
      injection hacc with hsc
      refine ⟨h1.1, h1.2, hsc.symm, ?_⟩
      intro s sv ss
      simp only [scanForVirtIOGPUDevices]
      rw [scanIdentity_iff]
      have hv : unsigned16BitValueOr0 (some 0x1b36) = 0x1b36 := by decide
      have hd : unsigned16BitValueOr0 (some 0x0100) = 0x0100 := by decide
      simp only [hv, hd]
      generalize unsigned16BitValueOr0 sv = a
      generalize unsigned16BitValueOr0 ss = b
      unfold documentedIdentity
      omega
    · rw [if_neg h1] at hacc
      by_cases h2 : config &&& 0xFFFF = 0x1af4 ∧ (config >>> 16) &&& 0xFFFF = 0x1050
      · right
        rw [if_pos h2] at hacc
        injection hacc with hsc
        refine ⟨h2.1, h2.2, hsc.symm, ?_⟩
        intro s sv ss
        simp only [scanForVirtIOGPUDevices]
        rw [scanIdentity_iff]
        left
        exact ⟨rfl, by decide, by decide⟩
      · rw [if_neg h2] at hacc
        cases hacc

theorem probe_accepted_pairs_and_scan_witness :
    probe true (some 0x10501af4) = some 95000
    ∧ ∃ config, (some 0x10501af4 : Option Nat) = some config
      ∧ ((config &&& 0xFFFF = 0x1b36 ∧ (config >>> 16) &&& 0xFFFF = 0x0100 ∧ 95000 = 90000
          ∧ ∀ (s : VMQemuVGA) (sv ss : Option Nat),
              (scanForVirtIOGPUDevices
                { s with svga := { s.svga with
                    provider := some ⟨some 0x1b36, some 0x0100, sv, ss⟩ } } = true
              ↔ (unsigned16BitValueOr0 sv = 0x1414 ∧ 0xDDA0 ≤ unsigned16BitValueOr0 ss
                  ∧ unsigned16BitValueOr0 ss ≤ 0xDDAF)))
        ∨ (config &&& 0xFFFF = 0x1af4 ∧ (config >>> 16) &&& 0xFFFF = 0x1050 ∧ 95000 = 95000
          ∧ ∀ (s : VMQemuVGA) (sv ss : Option Nat),
              scanForVirtIOGPUDevices
                { s with svga := { s.svga with
                    provider := some ⟨some 0x1af4, some 0x1050, sv, ss⟩ } } = true)) :=
  ⟨by decide, probe_accepted_pairs_and_scan true (some 0x10501af4) 95000 (by decide)⟩

/-! ## Rectangle fill -/

/-- C30 (evaluation at the failing input): with 3D acceleration enabled and
the 1024x768 mode active, `acceleratedCanvasFillRect` called with
x = 2147483647, y = 0, width = 1, height = 1 passes the bounds test, because
x + width wraps to -2147483648, returns success and writes the pixel of
column 2147483647, which is not below the mode width 1024.  With 3D
acceleration disabled it returns the not-ready status and writes nothing.
The store of the failing call lands 4294967292 bytes into the VRAM mapping,
beyond the 1024x768 frame of 3145728 bytes. -/
theorem fillRect_wraparound_writes_outside :
    GetDisplayMode sampleTable sampleStarted sampleStarted.m_display_mode
      = some ⟨1024, 768, 7⟩
    ∧ wrap32 (2147483647 + 1) = -2147483648
    ∧ (acceleratedCanvasFillRect sampleTable sampleStarted 2147483647 0 1 1 true).1
      = kIOReturnSuccess
    ∧ (acceleratedCanvasFillRect sampleTable sampleStarted 2147483647 0 1 1 true).2.1
      = [(2147483647, 0)]
    ∧ ¬ ((2147483647 : Int) < 1024)
    ∧ acceleratedCanvasFillRect sampleTable
        { sampleStarted with m_3d_acceleration_enabled := false } 2147483647 0 1 1 true
      = (kIOReturnNotReady, [], { sampleStarted with m_3d_acceleration_enabled := false })
    ∧ fillRectByteOffsets 1024 2147483647 0 1 1 = [4294967292]
    ∧ ¬ (4294967292 < 1024 * 768 * 4) := by
  decide


/-! ## The custom-live flag and `SetMode` -/

theorem setDisplayMode_resolved (t : ModeTable) (s : VMQemuVGA) (displayMode : Int)
    (dme : DisplayModeEntry) (hres : GetDisplayMode t s displayMode = some dme) :
    (s.m_custom_mode_switched = true →
      (s.customMode.width = dme.width ∧ s.customMode.height = dme.height) →
      (setDisplayMode t s displayMode 0).2.m_custom_mode_switched = false
      ∧ (setDisplayMode t s displayMode 0).2.trace = s.trace
      ∧ (setDisplayMode t s displayMode 0).2.customMode = s.customMode)
    ∧ (s.m_custom_mode_switched = true →
      ¬ (s.customMode.width = dme.width ∧ s.customMode.height = dme.height) →
      (setDisplayMode t s displayMode 0).2.m_custom_mode_switched = true
      ∧ (setDisplayMode t s displayMode 0).2.trace = s.trace
      ∧ (setDisplayMode t s displayMode 0).2.customMode = s.customMode)
    ∧ (s.m_custom_mode_switched = false →
      (setDisplayMode t s displayMode 0).2.m_custom_mode_switched = false
      ∧ (setDisplayMode t s displayMode 0).2.trace = s.trace ++
          [FBEffect.lockLock, FBEffect.svgaSetMode dme.width dme.height 32,
            FBEffect.lockUnlock]) := by
  have h0 : ¬ ((0 : Int) ≠ 0) := by decide
  unfold setDisplayMode
  rw [if_neg h0, hres]
  dsimp only
  refine ⟨?_, ?_, ?_⟩
  · intro hflag hg
    rw [if_pos hflag, if_pos hg]
    exact ⟨rfl, rfl, rfl⟩
  · intro hflag hg
    rw [if_pos hflag, if_neg hg]
    exact ⟨hflag, rfl, rfl⟩
  · intro hflag
    have hn : ¬ (s.m_custom_mode_switched = true) := by
      rw [hflag]
      decide
    rw [if_neg hn]
    exact ⟨hflag, rfl⟩

theorem setDisplayMode_flag_set (t : ModeTable) (s : VMQemuVGA) (displayMode : Int)
    (hflag : s.m_custom_mode_switched = true)
    (hne : ∀ e, GetDisplayMode t s displayMode = some e
      → ¬ (s.customMode.width = e.width ∧ s.customMode.height = e.height)) :
    (setDisplayMode t s displayMode 0).2.m_custom_mode_switched = true
    ∧ (setDisplayMode t s displayMode 0).2.trace = s.trace
    ∧ (setDisplayMode t s displayMode 0).2.customMode = s.customMode := by
  cases hg : GetDisplayMode t s displayMode with
  | none =>
    have h0 : ¬ ((0 : Int) ≠ 0) := by decide
    unfold setDisplayMode
    rw [if_neg h0, hg]
    exact ⟨hflag, rfl, rfl⟩
  | some e => exact (setDisplayMode_resolved t s displayMode e hg).2.1 hflag (hne e hg)

theorem setDisplayMode_seq_flag (t : ModeTable) (ids : List Int) :
    ∀ s : VMQemuVGA, s.m_custom_mode_switched = true →
      (∀ id ∈ ids, ∀ e, GetDisplayMode t s id = some e
        → ¬ (s.customMode.width = e.width ∧ s.customMode.height = e.height)) →
      (runApi t s (ids.map
          (fun id => ApiCall.call (DriverCall.setDisplayMode id 0)))).m_custom_mode_switched
        = true
      ∧ (runApi t s (ids.map
          (fun id => ApiCall.call (DriverCall.setDisplayMode id 0)))).trace = s.trace := by
  induction ids with
  | nil =>
    intro s hflag _
    exact ⟨hflag, rfl⟩
  | cons id rest ih =>
    intro s hflag hne
    have h1 := setDisplayMode_flag_set t s id hflag (hne id (List.mem_cons_self _ _))
    have hstep : runApi t s ((id :: rest).map
          (fun id => ApiCall.call (DriverCall.setDisplayMode id 0)))
        = runApi t (setDisplayMode t s id 0).2 (rest.map
          (fun id => ApiCall.call (DriverCall.setDisplayMode id 0))) := rfl
    rw [hstep]
    have h2 := ih (setDisplayMode t s id 0).2 h1.1 (by
      intro id2 hid2 e he
      rw [GetDisplayMode_congr t s _ id2 h1.2.2] at he
      rw [h1.2.2]
      exact hne id2 (List.mem_cons_of_mem _ hid2) e he)
    exact ⟨h2.1, h2.2.trans h1.2.1⟩

/-- C29: for a mode ID that resolves to `dme`, `setDisplayMode` with depth 0
behaves as follows.  If the custom-live flag is set it appends nothing to the
trace (no `SetMode`, no lock) and the flag is clear afterwards exactly when
the custom slot's width and height both equal those of `dme`.  If the flag is
clear it appends exactly lock, `SetMode(width, height, 32)`, unlock, and the
flag stays clear.  Over any sequence of depth-0 `setDisplayMode` calls started
with the flag set, either some requested ID resolves to an entry with the
custom geometry, or the flag is still set at the end and the trace is
unchanged. -/
theorem setDisplayMode_flag_gates_SetMode (t : ModeTable) (s : VMQemuVGA) (displayMode : Int)
    (dme : DisplayModeEntry) (ids : List Int)
    (hres : GetDisplayMode t s displayMode = some dme) :
    (if s.m_custom_mode_switched = true then
        (setDisplayMode t s displayMode 0).2.trace = s.trace
        ∧ ((setDisplayMode t s displayMode 0).2.m_custom_mode_switched = false
            ↔ (s.customMode.width = dme.width ∧ s.customMode.height = dme.height))
      else
        (setDisplayMode t s displayMode 0).2.trace = s.trace ++
          [FBEffect.lockLock, FBEffect.svgaSetMode dme.width dme.height 32,
            FBEffect.lockUnlock]
        ∧ (setDisplayMode t s displayMode 0).2.m_custom_mode_switched = false)
    ∧ (s.m_custom_mode_switched = false
        ∨ (∃ id ∈ ids, ∃ e, GetDisplayMode t s id = some e
            ∧ s.customMode.width = e.width ∧ s.customMode.height = e.height)
        ∨ ((runApi t s (ids.map
              (fun id => ApiCall.call (DriverCall.setDisplayMode id 0)))).m_custom_mode_switched
              = true
            ∧ (runApi t s (ids.map
              (fun id => ApiCall.call (DriverCall.setDisplayMode id 0)))).trace = s.trace)) := by
  have hr := setDisplayMode_resolved t s displayMode dme hres
  constructor
  · by_cases hflag : s.m_custom_mode_switched = true
    · rw [if_pos hflag]
      by_cases hg : s.customMode.width = dme.width ∧ s.customMode.height = dme.height
      · have h1 := hr.1 hflag hg
        exact ⟨h1.2.1, fun _ => hg, fun _ => h1.1⟩
      · have h1 := hr.2.1 hflag hg
        refine ⟨h1.2.1, fun h => ?_, fun h => absurd h hg⟩
        rw [h1.1] at h
        cases h
    · rw [if_neg hflag]
      have hf : s.m_custom_mode_switched = false := by
        cases hb : s.m_custom_mode_switched with
        | false => rfl
        | true => exact absurd hb hflag
      have h1 := hr.2.2 hf
      exact ⟨h1.2, h1.1⟩
  · by_cases hflag : s.m_custom_mode_switched = true
    · by_cases hex : ∃ id ∈ ids, ∃ e, GetDisplayMode t s id = some e
          ∧ s.customMode.width = e.width ∧ s.customMode.height = e.height
      · exact Or.inr (Or.inl hex)
      · right
        right
        apply setDisplayMode_seq_flag t ids s hflag
        intro id hid e he hgeo
        exact hex ⟨id, hid, e, he, hgeo.1, hgeo.2⟩
    · left
      cases hb : s.m_custom_mode_switched with
      | false => rfl
      | true => exact absurd hb hflag

theorem setDisplayMode_flag_gates_SetMode_witness :
    GetDisplayMode sampleTable { sampleStarted with m_custom_mode_switched := true } 2
      = some ⟨1024, 768, 7⟩
    ∧ ((if ({ sampleStarted with m_custom_mode_switched := true } : VMQemuVGA).m_custom_mode_switched
          = true then
        (setDisplayMode sampleTable { sampleStarted with m_custom_mode_switched := true }
            2 0).2.trace
          = ({ sampleStarted with m_custom_mode_switched := true } : VMQemuVGA).trace
        ∧ ((setDisplayMode sampleTable { sampleStarted with m_custom_mode_switched := true }
              2 0).2.m_custom_mode_switched = false
            ↔ (({ sampleStarted with m_custom_mode_switched := true } : VMQemuVGA).customMode.width
                = (⟨1024, 768, 7⟩ : DisplayModeEntry).width
              ∧ ({ sampleStarted with m_custom_mode_switched := true } : VMQemuVGA).customMode.height
                = (⟨1024, 768, 7⟩ : DisplayModeEntry).height))
      else
        (setDisplayMode sampleTable { sampleStarted with m_custom_mode_switched := true }
            2 0).2.trace
          = ({ sampleStarted with m_custom_mode_switched := true } : VMQemuVGA).trace ++
            [FBEffect.lockLock,
              FBEffect.svgaSetMode (⟨1024, 768, 7⟩ : DisplayModeEntry).width
                (⟨1024, 768, 7⟩ : DisplayModeEntry).height 32,
              FBEffect.lockUnlock]
        ∧ (setDisplayMode sampleTable { sampleStarted with m_custom_mode_switched := true }
            2 0).2.m_custom_mode_switched = false)
      ∧ (({ sampleStarted with m_custom_mode_switched := true } : VMQemuVGA).m_custom_mode_switched
          = false
        ∨ (∃ id ∈ [2, 3], ∃ e,
            GetDisplayMode sampleTable { sampleStarted with m_custom_mode_switched := true } id
              = some e
            ∧ ({ sampleStarted with m_custom_mode_switched := true } : VMQemuVGA).customMode.width
              = e.width
            ∧ ({ sampleStarted with m_custom_mode_switched := true } : VMQemuVGA).customMode.height
              = e.height)
        ∨ ((runApi sampleTable { sampleStarted with m_custom_mode_switched := true }
              ([2, 3].map (fun id => ApiCall.call (DriverCall.setDisplayMode id 0)))
              ).m_custom_mode_switched = true
            ∧ (runApi sampleTable { sampleStarted with m_custom_mode_switched := true }
              ([2, 3].map (fun id => ApiCall.call (DriverCall.setDisplayMode id 0)))).trace
              = ({ sampleStarted with m_custom_mode_switched := true } : VMQemuVGA).trace))) :=
  ⟨by decide,
    setDisplayMode_flag_gates_SetMode sampleTable
      { sampleStarted with m_custom_mode_switched := true } 2 ⟨1024, 768, 7⟩ [2, 3] (by decide)⟩

/-! ## The shared lock -/

theorem lockRun_of_no_lock (es : List FBEffect) :
    ∀ held : Bool, (∀ e ∈ es, isLockEffect e = false) → lockRun held es = some held := by
  induction es with
  | nil =>
    intro held _
    rfl
  | cons e rest ih =>
    intro held h
    have he := h e (List.mem_cons_self _ _)
    have hr := ih held (fun e2 h2 => h e2 (List.mem_cons_of_mem _ h2))
    cases e <;> first | exact hr | cases he

theorem getElem_set_perm (a : Int) :
    ∀ (rest : List Int) (k : Nat), k < rest.length →
      (rest.getD k 0 :: rest.set k a).Perm (a :: rest) := by
  intro rest
  induction rest with
  | nil =>
    intro k hk
    simp at hk
  | cons c r ih =>
    intro k hk
    cases k with
    | zero =>
      simp only [List.getD_cons_zero, List.set_cons_zero]
      exact List.Perm.swap a c r
    | succ k =>
      simp only [List.getD_cons_succ, List.set_cons_succ]
      have hk2 : k < r.length := by
        simp at hk
        exact hk
      exact (List.Perm.swap c (r.getD k 0) (r.set k a)).trans
        (((ih k hk2).cons c).trans (List.Perm.swap a c r))

theorem swap_perm (l : List Int) (i : Nat) (hi : i < l.length) :
    ((l.set 0 (l.getD i 0)).set i (l.getD 0 0)).Perm l := by
  cases l with
  | nil => simp at hi
  | cons a rest =>
    cases i with
    | zero => simp
    | succ k =>
      simp only [List.getD_cons_succ, List.getD_cons_zero, List.set_cons_zero,
        List.set_cons_succ]
      have hk : k < rest.length := by
        simp at hi
        exact hi
      exact getElem_set_perm a rest k hk

theorem RestoreAllModes_inv (t : ModeTable) (m0 : List Int) (s : VMQemuVGA)
    (h : startedInvariant t m0 s) : startedInvariant t m0 (RestoreAllModes t s) := by
  rcases RestoreAllModes_cases t s with he | ⟨i, _, hf, he⟩
  · rw [he]
    exact h
  · rw [he]
    obtain ⟨j, m, hi, hj, _, _⟩ := findSlot_some t s s.customMode s.m_modes 0 i hf
    have hlt : i < s.m_modes.length := by
      by_contra hge
      rw [List.getElem?_eq_none (by omega)] at hj
      cases hj
    exact ⟨(swap_perm s.m_modes i hlt).trans h.1, Or.inl rfl, h.2.2⟩

theorem setDisplayMode_frame (t : ModeTable) (s : VMQemuVGA) (displayMode depth : Int) :
    (setDisplayMode t s displayMode depth).2.m_modes = s.m_modes
    ∧ (setDisplayMode t s displayMode depth).2.m_custom_switch = s.m_custom_switch
    ∧ (setDisplayMode t s displayMode depth).2.m_restore_call = s.m_restore_call
    ∧ ((setDisplayMode t s displayMode depth).2.m_display_mode = s.m_display_mode
      ∨ ((setDisplayMode t s displayMode depth).2.m_display_mode = displayMode
        ∧ modeResolves t displayMode)) := by
  unfold setDisplayMode
  by_cases hd : depth ≠ 0
  · rw [if_pos hd]
    exact ⟨rfl, rfl, rfl, Or.inl rfl⟩
  · rw [if_neg hd]
    cases hg : GetDisplayMode t s displayMode with
    | none => exact ⟨rfl, rfl, rfl, Or.inl rfl⟩
    | some dme =>
      have hres : modeResolves t displayMode := by
        by_contra hn
        rw [(GetDisplayMode_eq_none_iff t s displayMode).mpr hn] at hg
        cases hg
      dsimp only
      split_ifs <;> exact ⟨rfl, rfl, rfl, Or.inr ⟨rfl, hres⟩⟩

theorem applyCall_inv (t : ModeTable) (m0 : List Int) (s : VMQemuVGA) (c : DriverCall)
    (h : startedInvariant t m0 s) : startedInvariant t m0 (applyCall t s c) := by
  cases c with
  | setDisplayMode m d =>
    have hf := setDisplayMode_frame t s m d
    simp only [applyCall]
    refine ⟨by rw [hf.1]; exact h.1, by rw [hf.2.1]; exact h.2.1, ?_⟩
    rcases hf.2.2.2 with hm | ⟨hm, hres⟩
    · rw [hm]
      exact h.2.2
    · rw [hm]
      exact hres
  | setAttribute a v r =>
    simp only [applyCall, setAttribute]
    split_ifs
    · exact ⟨h.1, Or.inr (Or.inr rfl), h.2.2⟩
    · exact h
  | setInterruptState b st =>
    simp only [applyCall, setInterruptState]
    split_ifs
    · exact h
    · exact h
  | registerForInterruptType ty proc target ref =>
    simp only [applyCall, registerForInterruptType]
    split_ifs
    · exact h
    · exact h
  | unregisterInterrupt b =>
    simp only [applyCall, unregisterInterrupt]
    split_ifs
    · exact h
    · exact h
  | RestoreAllModes => exact RestoreAllModes_inv t m0 s h

theorem waitLoop_inv (t : ModeTable) (m0 : List Int) (v : Nat) (env : List DriverCall) :
    ∀ s : VMQemuVGA, startedInvariant t m0 s → startedInvariant t m0 (waitLoop t v s env).state := by
  induction env with
  | nil =>
    intro s h
    unfold waitLoop
    split_ifs
    · exact h
    · exact h
  | cons c rest ih =>
    intro s h
    unfold waitLoop
    split_ifs
    · exact h
    · exact ih _ (applyCall_inv t m0 s c h)

theorem CustomMode_stage_inv (t : ModeTable) (m0 : List Int) (s : VMQemuVGA) (w h : Nat)
    (hinv : startedInvariant t m0 s) : startedInvariant t m0 (CustomMode_stage s w h) := by
  unfold CustomMode_stage
  rw [EmitConnectChangedEvent_eq]
  exact ⟨hinv.1, Or.inr (Or.inl rfl), hinv.2.2⟩

theorem CustomMode_cases (t : ModeTable) (s : VMQemuVGA) (inData : Option CustomModeData)
    (outData : Bool) (inSize : Nat) (outSize : Option Nat) (env : List DriverCall) :
    CustomMode t s inData outData inSize outSize env
        = CustomModeOutcome.returned kIOReturnBadArgument none s
    ∨ (CustomMode t s inData outData inSize outSize env
        = CustomModeOutcome.returned kIOReturnUnsupported none s
      ∧ (s.m_restore_call = false ∨ GetDisplayMode t s s.m_display_mode = none))
    ∨ (∃ inD, CustomMode t s inData outData inSize outSize env = CustomMode_finish_up t s inD)
    ∨ (∃ inD w h, CustomMode t s inData outData inSize outSize env
        = (match CustomSwitchStepWait t (CustomMode_stage s w h) 2 env with
          | WaitOutcome.blocked s2 => CustomModeOutcome.blocked s2
          | WaitOutcome.woke s2 =>
            CustomMode_finish_up t
              { s2 with trace := s2.trace ++ [FBEffect.restoreScheduled 2000] } inD)) := by
  unfold CustomMode
  by_cases h1 : s.m_restore_call = false
  · rw [if_pos h1]
    exact Or.inr (Or.inl ⟨rfl, Or.inl h1⟩)
  rw [if_neg h1]
  cases inData with
  | none => exact Or.inl rfl
  | some inD =>
    dsimp only
    by_cases h2 : inSize < sizeofCustomModeData
    · rw [if_pos h2]
      exact Or.inl rfl
    rw [if_neg h2]
    by_cases h3 : outData = false
    · rw [if_pos h3]
      exact Or.inl rfl
    rw [if_neg h3]
    by_cases h4 : (match outSize with
        | none => true
        | some n => decide (n < sizeofCustomModeData)) = true
    · rw [if_pos h4]
      exact Or.inl rfl
    rw [if_neg h4]
    cases hg : GetDisplayMode t s s.m_display_mode with
    | none => exact Or.inr (Or.inl ⟨rfl, Or.inr rfl⟩)
    | some dme1 =>
      dsimp only
      by_cases h5 : inD.flags &&& 1 ≠ 0
      · rw [if_pos h5]
        by_cases h6 : clampWidth s inD.width = dme1.width ∧ clampHeight s inD.height = dme1.height
        · rw [if_pos h6]
          exact Or.inr (Or.inr (Or.inl ⟨inD, rfl⟩))
        · rw [if_neg h6]
          exact Or.inr (Or.inr (Or.inr ⟨inD, _, _, rfl⟩))
      · rw [if_neg h5]
        exact Or.inr (Or.inr (Or.inl ⟨inD, rfl⟩))

theorem CustomMode_inv (t : ModeTable) (m0 : List Int) (s : VMQemuVGA)
    (inData : Option CustomModeData) (outData : Bool) (inSize : Nat) (outSize : Option Nat)
    (env : List DriverCall) (h : startedInvariant t m0 s) :
    startedInvariant t m0 (CustomMode t s inData outData inSize outSize env).state := by
  rcases CustomMode_cases t s inData outData inSize outSize env with
    he | ⟨he, _⟩ | ⟨inD, he⟩ | ⟨inD, w, hh, he⟩
  · rw [he]
    exact h
  · rw [he]
    exact h
  · rw [he, CustomMode_finish_up_state]
    exact h
  · rw [he]
    have hw := waitLoop_inv t m0 2 env
      { CustomMode_stage s w hh with
        trace := (CustomMode_stage s w hh).trace ++ [FBEffect.switchStepWait 2] }
      (CustomMode_stage_inv t m0 s w hh h)
    unfold CustomSwitchStepWait
    cases hwl : waitLoop t 2 { CustomMode_stage s w hh with
        trace := (CustomMode_stage s w hh).trace ++ [FBEffect.switchStepWait 2] } env with
    | blocked s2 =>
      rw [hwl] at hw
      exact hw
    | woke s2 =>
      rw [hwl] at hw
      dsimp only
      rw [CustomMode_finish_up_state]
      exact hw

theorem runApi_inv (t : ModeTable) (m0 : List Int) (calls : List ApiCall) :
    ∀ s : VMQemuVGA, startedInvariant t m0 s → startedInvariant t m0 (runApi t s calls) := by
  induction calls with
  | nil =>
    intro s h
    exact h
  | cons c rest ih =>
    intro s h
    have hstep : runApi t s (c :: rest) = runApi t (applyApi t s c) rest := rfl
    rw [hstep]
    apply ih
    cases c with
    | call c => exact applyCall_inv t m0 s c h
    | CustomMode inData outData inSize outSize env =>
      exact CustomMode_inv t m0 s inData outData inSize outSize env h
    | getDisplayModes b => exact h
    | getDisplayModeCount => exact h

theorem detectLoop_range (w h : Nat) (d B : Int) (hd : 2 ≤ d ∧ d ≤ B) :
    ∀ (entries : List DisplayModeEntry) (i td : Int), 1 ≤ i → i + entries.length ≤ B →
      (td = 0 ∨ (2 ≤ td ∧ td ≤ B)) →
      2 ≤ detectLoop w h d entries i td ∧ detectLoop w h d entries i td ≤ B := by
  intro entries
  induction entries with
  | nil =>
    intro i td _ _ htd
    unfold detectLoop
    split_ifs with h0
    · rcases htd with htd | htd
      · exact absurd htd h0
      · exact htd
    · exact hd
  | cons e rest ih =>
    intro i td hi hB htd
    have hlen : i + 1 + (rest.length : Int) ≤ B := by
      simp only [List.length_cons] at hB
      push_cast at hB
      omega
    unfold detectLoop
    split_ifs
    · constructor
      · omega
      · have : (0 : Int) ≤ rest.length := Int.natCast_nonneg _
        omega
    · apply ih (i + 1) (i + 1) (by omega) hlen
      right
      have : (0 : Int) ≤ rest.length := Int.natCast_nonneg _
      constructor
      · omega
      · omega
    · exact ih (i + 1) td (by omega) hlen htd

theorem TryDetect_range (t : ModeTable) (s : VMQemuVGA) (h3 : 3 ≤ t.NUM_DISPLAY_MODES) :
    2 ≤ TryDetectCurrentDisplayMode t s 3
    ∧ TryDetectCurrentDisplayMode t s 3 ≤ t.NUM_DISPLAY_MODES := by
  unfold TryDetectCurrentDisplayMode
  apply detectLoop_range _ _ 3 t.NUM_DISPLAY_MODES ⟨by decide, h3⟩ _ 1 0 (by decide)
  · unfold ModeTable.NUM_DISPLAY_MODES at *
    rw [List.length_drop]
    omega
  · exact Or.inl rfl

theorem fittingCount_le (t : ModeTable) (s : VMQemuVGA) :
    (fittingCount t s : Int) ≤ t.NUM_DISPLAY_MODES := by
  unfold fittingCount ModeTable.NUM_DISPLAY_MODES
  exact_mod_cast List.countP_le_length _

theorem start_true (t : ModeTable) (s : VMQemuVGA) (provider : Option IOPCIDevice)
    (env : StartEnv) (s1 : VMQemuVGA) (hstart : start t s provider env = (true, s1)) :
    s1.m_modes = selectModes t s ∧ s1.m_custom_switch = 0
    ∧ 3 ≤ t.NUM_DISPLAY_MODES
    ∧ (2 ≤ s1.m_display_mode ∧ s1.m_display_mode ≤ t.NUM_DISPLAY_MODES) := by
  rcases start_cases t s provider env with ⟨_, he⟩ | ⟨_, _, _, x, he⟩ | ⟨_, _, _, h3, ok, x, hx, he⟩
  · rw [he] at hstart
    cases hstart
  · rw [he] at hstart
    cases hstart
  · have hN : 3 ≤ t.NUM_DISPLAY_MODES := by
      have h1 := fittingCount_le t s
      rw [selectModes_length] at h3
      omega
    rw [he] at hstart
    unfold start_finish at hstart
    dsimp only at hstart
    by_cases hl : env.lockAlloc = false
    · rw [if_pos hl] at hstart
      cases hstart
    · rw [if_neg hl] at hstart
      injection hstart with _ hs
      subst hs
      refine ⟨?_, rfl, hN, TryDetect_range t _ hN⟩
      rw [← hx]
      dsimp only
      split_ifs <;> rfl

theorem start_true_inv (t : ModeTable) (s : VMQemuVGA) (provider : Option IOPCIDevice)
    (env : StartEnv) (s1 : VMQemuVGA) (hstart : start t s provider env = (true, s1)) :
    startedInvariant t s1.m_modes s1 := by
  obtain ⟨_, h0, _, h2, hN⟩ := start_true t s provider env s1 hstart
  exact ⟨List.Perm.refl _, Or.inl h0, Or.inr ⟨by omega, hN⟩⟩


/-- C23 (counterexample): on the sample table, whose sentinel is 1, the
active-mode list built by `start` holds the ID 1, and it still holds it after
the sample call sequence; that entry resolves to 800x600 after `start` and to
1280x1024 after the sequence, while entry 1 of the built-in table is 800x600
throughout. -/
theorem active_entry_resolution_changes :
    start sampleTable sampleBeforeStart (some ⟨some 0x1B36, some 0x0100, none, none⟩)
      sampleStartEnv = (true, sampleStarted)
    ∧ (sampleTable.CUSTOM_MODE_ID = 1
      ∧ sampleTable.modeList[0]? = some ⟨800, 600, 3⟩
      ∧ 1 ∈ sampleStarted.m_modes
      ∧ 1 ∈ (runApi sampleTable sampleStarted sampleCalls).m_modes
      ∧ GetDisplayMode sampleTable sampleStarted 1 = some ⟨800, 600, 3⟩
      ∧ GetDisplayMode sampleTable (runApi sampleTable sampleStarted sampleCalls) 1
        = some ⟨1280, 1024, 3⟩) :=
  ⟨Prod.ext (by decide) rfl, by decide⟩

/-- C23 (amended): in every state reached from a successful `start` by any
sequence of `CustomMode`, `setAttribute`, `setDisplayMode`, `getDisplayModes`,
`getDisplayModeCount` and `RestoreAllModes` calls (and the interrupt
registration calls), the active-mode list has the length of the list built at
`start` and is a permutation of it; its entries are pairwise distinct, and
each lies in 1..NUM_DISPLAY_MODES and names an entry of the built-in table.
An entry other than the sentinel resolves to that table entry; an entry equal
to the sentinel resolves to the custom slot of the state. -/
theorem active_mode_set_stable (t : ModeTable) (s : VMQemuVGA) (provider : Option IOPCIDevice)
    (env : StartEnv) (s1 : VMQemuVGA) (calls : List ApiCall)
    (hstart : start t s provider env = (true, s1)) :
    s1.m_modes = selectModes t s
    ∧ (runApi t s1 calls).m_modes.length = s1.m_modes.length
    ∧ (runApi t s1 calls).m_modes.Perm s1.m_modes
    ∧ (runApi t s1 calls).m_modes.Nodup
    ∧ ∀ id ∈ (runApi t s1 calls).m_modes, 1 ≤ id ∧ id ≤ t.NUM_DISPLAY_MODES
        ∧ ∃ e, t.modeList[(id - 1).toNat]? = some e
          ∧ GetDisplayMode t (runApi t s1 calls) id
            = some (if id = t.CUSTOM_MODE_ID then (runApi t s1 calls).customMode else e) := by
  have hsel := (start_true t s provider env s1 hstart).1
  have hperm := (runApi_inv t s1.m_modes calls s1 (start_true_inv t s provider env s1 hstart)).1
  have hnodup : (selectModes t s).Nodup :=
    (selectModesLoop_pairwise s.svga.maxWidth s.svga.maxHeight t.modeList 0).imp
      (fun hab => ne_of_lt hab)
  refine ⟨hsel, hperm.length_eq, hperm, ?_, ?_⟩
  · rw [hperm.nodup_iff, hsel]
    exact hnodup
  · intro id hid
    rw [hperm.mem_iff, hsel] at hid
    unfold selectModes at hid
    rw [selectModesLoop_mem] at hid
    obtain ⟨j, e, hj, hidj, _, _⟩ := hid
    have hlt : j < t.modeList.length := by
      by_contra hge
      rw [List.getElem?_eq_none (by omega)] at hj
      cases hj
    simp only [Nat.zero_add] at hidj
    have hr : 1 ≤ id ∧ id ≤ t.NUM_DISPLAY_MODES := by
      unfold ModeTable.NUM_DISPLAY_MODES
      omega
    have hidx : (id - 1).toNat = j := by omega
    refine ⟨hr.1, hr.2, e, by rw [hidx]; exact hj, ?_⟩
    unfold GetDisplayMode
    by_cases hc : id = t.CUSTOM_MODE_ID
    · rw [if_pos hc, if_pos hc]
    · rw [if_neg hc, if_neg hc, if_pos hr, hidx]
      exact hj

theorem active_mode_set_stable_witness :
    start sampleTable sampleBeforeStart (some ⟨some 0x1B36, some 0x0100, none, none⟩)
      sampleStartEnv = (true, sampleStarted)
    ∧ sampleStarted.m_modes = [1, 2, 3]
    ∧ (runApi sampleTable sampleStarted sampleCalls).m_modes = [2, 1, 3]
    ∧ (runApi sampleTable sampleStarted sampleCalls).m_modes.length
        = sampleStarted.m_modes.length
    ∧ (runApi sampleTable sampleStarted sampleCalls).m_modes.Perm sampleStarted.m_modes
    ∧ (runApi sampleTable sampleStarted sampleCalls).m_modes.Nodup :=
  ⟨Prod.ext (by decide) rfl, by decide, by decide,
    (active_mode_set_stable sampleTable sampleBeforeStart
      (some ⟨some 0x1B36, some 0x0100, none, none⟩) sampleStartEnv sampleStarted sampleCalls
      (Prod.ext (by decide) rfl)).2.1,
    (active_mode_set_stable sampleTable sampleBeforeStart
      (some ⟨some 0x1B36, some 0x0100, none, none⟩) sampleStartEnv sampleStarted sampleCalls
      (Prod.ext (by decide) rfl)).2.2.1,
    (active_mode_set_stable sampleTable sampleBeforeStart
      (some ⟨some 0x1B36, some 0x0100, none, none⟩) sampleStartEnv sampleStarted sampleCalls
      (Prod.ext (by decide) rfl)).2.2.2.1⟩

/-- C24: `setAttribute` leaves the mode-switch state at 2 when the attribute
is the captured attribute, the value is 0, the state is 1 and the current
display mode is the sentinel, and leaves the state as it was in every other
call.  `CustomMode` sets the state to 1 before it waits, `RestoreAllModes`
changes the state only from 2 and only to 0, `start` leaves it at 0, and in
every state reached from a successful `start` by client calls the state is 0,
1 or 2. -/
theorem setAttribute_acknowledgement (t : ModeTable) (s : VMQemuVGA) (attr value : Nat)
    (r : IOReturn) (w h : Nat) (s0 : VMQemuVGA) (provider : Option IOPCIDevice)
    (env : StartEnv) (s1 : VMQemuVGA) (calls : List ApiCall)
    (hstart : start t s0 provider env = (true, s1)) :
    (setAttribute t s attr value r).2.m_custom_switch
      = (if attr = kIOCapturedAttribute ∧ value = 0 ∧ s.m_custom_switch = 1
            ∧ s.m_display_mode = t.CUSTOM_MODE_ID then 2
        else s.m_custom_switch)
    ∧ (CustomMode_stage s w h).m_custom_switch = 1
    ∧ ((RestoreAllModes t s).m_custom_switch = s.m_custom_switch
      ∨ (s.m_custom_switch = 2 ∧ (RestoreAllModes t s).m_custom_switch = 0))
    ∧ s1.m_custom_switch = 0
    ∧ ((runApi t s1 calls).m_custom_switch = 0 ∨ (runApi t s1 calls).m_custom_switch = 1
      ∨ (runApi t s1 calls).m_custom_switch = 2) := by
  refine ⟨?_, ?_, ?_, (start_true t s0 provider env s1 hstart).2.1,
    (runApi_inv t s1.m_modes calls s1 (start_true_inv t s0 provider env s1 hstart)).2.1⟩
  · unfold setAttribute
    split_ifs <;> rfl
  · unfold CustomMode_stage
    rw [EmitConnectChangedEvent_eq]
    rfl
  · rcases RestoreAllModes_cases t s with he | ⟨i, h2, _, he⟩
    · rw [he]
      exact Or.inl rfl
    · rw [he]
      exact Or.inr ⟨h2, rfl⟩

theorem setAttribute_acknowledgement_witness :
    start sampleTable sampleBeforeStart (some ⟨some 0x1B36, some 0x0100, none, none⟩)
      sampleStartEnv = (true, sampleStarted)
    ∧ (setAttribute sampleTable
        { sampleStarted with m_custom_switch := 1, m_display_mode := 1 }
        kIOCapturedAttribute 0 0).2.m_custom_switch = 2
    ∧ (runApi sampleTable sampleStarted (sampleCalls.take 1)).m_custom_switch = 2
    ∧ sampleStarted.m_custom_switch = 0
    ∧ ((runApi sampleTable sampleStarted sampleCalls).m_custom_switch = 0
      ∨ (runApi sampleTable sampleStarted sampleCalls).m_custom_switch = 1
      ∨ (runApi sampleTable sampleStarted sampleCalls).m_custom_switch = 2) :=
  ⟨Prod.ext (by decide) rfl, by decide, by decide,
    (setAttribute_acknowledgement sampleTable sampleStarted kIOCapturedAttribute 0 0 0 0
      sampleBeforeStart (some ⟨some 0x1B36, some 0x0100, none, none⟩) sampleStartEnv
      sampleStarted sampleCalls (Prod.ext (by decide) rfl)).2.2.2.1,
    (setAttribute_acknowledgement sampleTable sampleStarted kIOCapturedAttribute 0 0 0 0
      sampleBeforeStart (some ⟨some 0x1B36, some 0x0100, none, none⟩) sampleStartEnv
      sampleStarted sampleCalls (Prod.ext (by decide) rfl)).2.2.2.2⟩

/-- C27: after a successful `start` NUM_DISPLAY_MODES is at least 3 and the
current display mode, the ID `TryDetectCurrentDisplayMode(3)` returned, lies
in 2..NUM_DISPLAY_MODES; and in every state reached from there by client
calls the current display mode resolves (`GetDisplayMode` of it is not null),
so a call of `CustomMode` that returns there returns the unsupported status
only when the restore-call handle is null. -/
theorem current_mode_resolves (t : ModeTable) (s0 : VMQemuVGA) (provider : Option IOPCIDevice)
    (env : StartEnv) (s1 : VMQemuVGA) (calls : List ApiCall)
    (inData : Option CustomModeData) (outData : Bool) (inSize : Nat) (outSize : Option Nat)
    (cenv : List DriverCall)
    (hstart : start t s0 provider env = (true, s1)) :
    3 ≤ t.NUM_DISPLAY_MODES
    ∧ (2 ≤ s1.m_display_mode ∧ s1.m_display_mode ≤ t.NUM_DISPLAY_MODES)
    ∧ GetDisplayMode t (runApi t s1 calls) (runApi t s1 calls).m_display_mode ≠ none
    ∧ ((runApi t s1 calls).m_restore_call = false
      ∨ ∀ (r : IOReturn) (out : Option CustomModeData) (s2 : VMQemuVGA),
          CustomMode t (runApi t s1 calls) inData outData inSize outSize cenv
            = CustomModeOutcome.returned r out s2 → r ≠ kIOReturnUnsupported) := by
  have hst := start_true t s0 provider env s1 hstart
  have hinv := runApi_inv t s1.m_modes calls s1 (start_true_inv t s0 provider env s1 hstart)
  have hres : ∀ x : VMQemuVGA, startedInvariant t s1.m_modes x →
      GetDisplayMode t x x.m_display_mode ≠ none := by
    intro x hx hnone
    exact (GetDisplayMode_eq_none_iff t x x.m_display_mode).mp hnone hx.2.2
  have hfin : ∀ (x : VMQemuVGA) (inD : CustomModeData) (r : IOReturn)
      (out : Option CustomModeData) (s2 : VMQemuVGA),
      GetDisplayMode t x x.m_display_mode ≠ none →
      CustomMode_finish_up t x inD = CustomModeOutcome.returned r out s2 →
      r ≠ kIOReturnUnsupported := by
    intro x inD r out s2 hx hf
    unfold CustomMode_finish_up at hf
    cases hg : GetDisplayMode t x x.m_display_mode with
    | none => exact absurd hg hx
    | some dme =>
      rw [hg] at hf
      injection hf with hr
      rw [← hr]
      decide
  refine ⟨hst.2.2.1, hst.2.2.2, hres _ hinv, ?_⟩
  by_cases hcall : (runApi t s1 calls).m_restore_call = false
  · exact Or.inl hcall
  right
  intro r out s2 hc
  rcases CustomMode_cases t (runApi t s1 calls) inData outData inSize outSize cenv with
    he | ⟨_, hcase⟩ | ⟨inD, he⟩ | ⟨inD, w, hh, he⟩
  · rw [he] at hc
    injection hc with hr
    rw [← hr]
    decide
  · rcases hcase with hcase | hcase
    · exact absurd hcase hcall
    · exact absurd hcase (hres _ hinv)
  · rw [he] at hc
    exact hfin _ inD r out s2 (hres _ hinv) hc
  · rw [he] at hc
    have hw := waitLoop_inv t s1.m_modes 2 cenv
      { CustomMode_stage (runApi t s1 calls) w hh with
        trace := (CustomMode_stage (runApi t s1 calls) w hh).trace
          ++ [FBEffect.switchStepWait 2] }
      (CustomMode_stage_inv t s1.m_modes (runApi t s1 calls) w hh hinv)
    unfold CustomSwitchStepWait at hc
    cases hwl : waitLoop t 2 { CustomMode_stage (runApi t s1 calls) w hh with
        trace := (CustomMode_stage (runApi t s1 calls) w hh).trace
          ++ [FBEffect.switchStepWait 2] } cenv with
    | blocked s3 =>
      rw [hwl] at hc
      cases hc
    | woke s3 =>
      rw [hwl] at hc hw
      dsimp only at hc
      refine hfin _ inD r out s2 ?_ hc
      have hs3 : startedInvariant t s1.m_modes
          { s3 with trace := s3.trace ++ [FBEffect.restoreScheduled 2000] } := hw
      exact hres _ hs3

theorem current_mode_resolves_witness :
    start sampleTable sampleBeforeStart (some ⟨some 0x1B36, some 0x0100, none, none⟩)
      sampleStartEnv = (true, sampleStarted)
    ∧ sampleStarted.m_display_mode = 2
    ∧ (runApi sampleTable sampleStarted sampleCalls).m_display_mode = 3
    ∧ (runApi sampleTable sampleStarted sampleCalls).m_restore_call = true
    ∧ 3 ≤ sampleTable.NUM_DISPLAY_MODES
    ∧ (2 ≤ sampleStarted.m_display_mode
      ∧ sampleStarted.m_display_mode ≤ sampleTable.NUM_DISPLAY_MODES)
    ∧ GetDisplayMode sampleTable (runApi sampleTable sampleStarted sampleCalls)
        (runApi sampleTable sampleStarted sampleCalls).m_display_mode ≠ none
    ∧ ((runApi sampleTable sampleStarted sampleCalls).m_restore_call = false
      ∨ ∀ (r : IOReturn) (out : Option CustomModeData) (s2 : VMQemuVGA),
          CustomMode sampleTable (runApi sampleTable sampleStarted sampleCalls)
            (some ⟨1, 1024, 768⟩) true 12 (some 12) (sampleAck sampleTable)
            = CustomModeOutcome.returned r out s2 → r ≠ kIOReturnUnsupported) :=
  ⟨Prod.ext (by decide) rfl, by decide, by decide, by decide,
    current_mode_resolves sampleTable sampleBeforeStart
      (some ⟨some 0x1B36, some 0x0100, none, none⟩) sampleStartEnv sampleStarted sampleCalls
      (some ⟨1, 1024, 768⟩) true 12 (some 12) (sampleAck sampleTable)
      (Prod.ext (by decide) rfl)⟩


end VMQemuVGA
